import Mathlib

set_option maxHeartbeats 2000000
set_option maxRecDepth 100000

/-
  A verification development for a NES emulator written in Go.

  The development shallowly embeds the emulator's three engines (the 6502 CPU
  interpreter, the PPU scanline renderer, and the cartridge mappers) together
  with the CPU bus, and proves properties of them.

  Conventions of the embedding:
  * Go unsigned integers are embedded as Nat.  A Go conversion uintN(x) of a
    wider or untyped value becomes x % 2^N; arithmetic that can wrap in Go
    (x++, x--, x<<1, additions of 16-bit quantities) is followed by an
    explicit % 2^N or &&& mask exactly where Go's typing forces truncation.
    Reads that Go types as uint8 are masked with % 256 at the read site, since
    an abstract bus is modelled as returning an arbitrary Nat.
  * Go interfaces with state (the CPU memory bus, the cart mapper) are
    embedded as a record of functions over an abstract state type.
  * Go code that can panic (out-of-range slice indexing, unknown opcodes,
    impossible switch cases) is embedded with Option, None being the panic.
  * Mutation becomes explicit state passing.
-/

namespace NES

/-- The 6502 memory interface (Go type MemoryInterface): Read may have side
effects on the bus (e.g. PPUSTATUS reads), Write returns extra CPU cycles. -/
structure Bus (σ : Type) where
  read : σ → Nat → Nat × σ
  write : σ → Nat → Nat → σ × Nat

/-- CPU state (Go struct CPU, without the bus handle and debug flag). -/
structure CPUState where
  ac : Nat
  xr : Nat
  yr : Nat
  st : Nat
  sp : Nat
  pc : Nat
  opRawAddr : Nat
  opAddr : Nat
  clockCycles : Nat
deriving Repr, DecidableEq

variable {σ : Type}

/-- Read one byte through the bus; the Go interface types the result uint8. -/
def read8 (bus : Bus σ) (m : σ) (addr : Nat) : Nat × σ :=
  let r := bus.read m addr
  (r.1 % 256, r.2)

/-- Write one byte through the bus; Go types the value uint8.  Returns the
extra cycles reported by the bus. -/
def write8 (bus : Bus σ) (m : σ) (addr val : Nat) : σ × Nat :=
  bus.write m addr (val % 256)

/-- Read one byte from *pc and increment pc. -/
def readPC8 (bus : Bus σ) (c : CPUState) (m : σ) : Nat × CPUState × σ :=
  let r := read8 bus m c.pc
  (r.1, {c with pc := (c.pc + 1) % 65536}, r.2)

/-- Read a 16-bit word from *pc, LSB first. -/
def readPC16 (bus : Bus σ) (c : CPUState) (m : σ) : Nat × CPUState × σ :=
  let r1 := readPC8 bus c m
  let r2 := readPC8 bus r1.2.1 r1.2.2
  (r1.1 ||| (r2.1 <<< 8), r2.2.1, r2.2.2)

/-- Status flag bit masks (Go consts C..N). -/
def C : Nat := 0x01
def Z : Nat := 0x02
def I : Nat := 0x04
def D : Nat := 0x08
def B : Nat := 0x10
def ALWAYS_ON : Nat := 0x20
def V : Nat := 0x40
def N : Nat := 0x80

/-- Hardware vectors. -/
def vectorReset : Nat := 0xfffc
def vectorNMI : Nat := 0xfffa
def vectorIRQBRK : Nat := 0xfffe

/-- Is the flag set? (Go isSet). -/
def isSet (c : CPUState) (flag : Nat) : Bool :=
  c.st &&& flag == flag

/-- Set or clear a flag (Go set).  Go's ^flag on uint8 is flag XOR 0xff. -/
def set (c : CPUState) (flag : Nat) (flagOn : Bool) : CPUState :=
  if flagOn then {c with st := c.st ||| flag}
  else {c with st := c.st &&& (0xff ^^^ flag)}

/-- Set the Z and N flags from the result (Go setZN). -/
def setZN (c : CPUState) (result : Nat) : CPUState :=
  let c1 := if result = 0 then {c with st := c.st ||| Z}
            else {c with st := c.st &&& (0xff ^^^ Z)}
  if result &&& 0x80 = 0x80 then {c1 with st := c1.st ||| N}
  else {c1 with st := c1.st &&& (0xff ^^^ N)}

/-- Read the operand of the current opcode (Go readOpData). -/
def readOpData (bus : Bus σ) (c : CPUState) (m : σ) : Nat × σ :=
  read8 bus m c.opAddr

/-- Push a byte on the stack (Go push); sp is uint8 and wraps. -/
def push (bus : Bus σ) (c : CPUState) (m : σ) (value : Nat) : CPUState × σ :=
  let addr := 0x100 + c.sp % 256
  let w := write8 bus m addr value
  ({c with clockCycles := c.clockCycles + w.2, sp := (c.sp + 255) % 256}, w.1)

/-- Pop a byte from the stack (Go pop). -/
def pop (bus : Bus σ) (c : CPUState) (m : σ) : Nat × CPUState × σ :=
  let sp1 := (c.sp + 1) % 256
  let r := read8 bus m (0x100 + sp1)
  (r.1, {c with sp := sp1}, r.2)

/-- Push a 16-bit word, high byte first (Go pushWord). -/
def pushWord (bus : Bus σ) (c : CPUState) (m : σ) (word : Nat) : CPUState × σ :=
  let p1 := push bus c m ((word >>> 8) &&& 0xff)
  push bus p1.1 p1.2 (word &&& 0xff)

/-- Pop a 16-bit word (Go popWord). -/
def popWord (bus : Bus σ) (c : CPUState) (m : σ) : Nat × CPUState × σ :=
  let r1 := pop bus c m
  let r2 := pop bus r1.2.1 r1.2.2
  (r1.1 ||| (r2.1 <<< 8), r2.2.1, r2.2.2)

/-- Shared branch logic (Go genericBranch): sign-extend the offset, add to pc
with uint16 wrap, charge 1 cycle, or 2 when the page changes. -/
def genericBranch (bus : Bus σ) (c : CPUState) (m : σ) (should : Bool) :
    CPUState × σ :=
  if !should then (c, m) else
  let r := readOpData bus c m
  let offset := if r.1 &&& 0x80 = 0x80 then r.1 ||| 0xff00 else r.1
  let newPC := (c.pc + offset) % 65536
  let c1 := if newPC &&& 0xff00 ≠ c.pc &&& 0xff00 then
              {c with clockCycles := c.clockCycles + 2}
            else
              {c with clockCycles := c.clockCycles + 1}
  ({c1 with pc := newPC}, r.2)

/-- Addressing modes (Go consts BAD..INDX). -/
inductive AddrMode where
  | bad | imp | imm | zp | zpx | zpy | abs | absx | absy | ind | indy | indx
deriving Repr, DecidableEq

/-- Immediate addressing (Go addrIMM). -/
def addrIMM (c : CPUState) : CPUState :=
  {c with opAddr := c.pc, pc := (c.pc + 1) % 65536}

/-- Zero-page addressing (Go addrZP). -/
def addrZP (bus : Bus σ) (c : CPUState) (m : σ) : CPUState × σ :=
  let r := readPC8 bus c m
  ({r.2.1 with opRawAddr := r.1, opAddr := r.1}, r.2.2)

/-- Zero-page indexed X (Go addrZPX). -/
def addrZPX (bus : Bus σ) (c : CPUState) (m : σ) : CPUState × σ :=
  let r := readPC8 bus c m
  let c1 := r.2.1
  ({c1 with opRawAddr := r.1, opAddr := (r.1 + c1.xr % 256) &&& 0xff}, r.2.2)

/-- Zero-page indexed Y (Go addrZPY). -/
def addrZPY (bus : Bus σ) (c : CPUState) (m : σ) : CPUState × σ :=
  let r := readPC8 bus c m
  let c1 := r.2.1
  ({c1 with opRawAddr := r.1, opAddr := (r.1 + c1.yr % 256) &&& 0xff}, r.2.2)

/-- Absolute addressing (Go addrABS). -/
def addrABS (bus : Bus σ) (c : CPUState) (m : σ) : CPUState × σ :=
  let r := readPC16 bus c m
  ({r.2.1 with opRawAddr := r.1, opAddr := r.1}, r.2.2)

/-- Indirect addressing (Go addrIND), reproducing the 6502 page-wrap bug:
when the pointer's low byte is 0xff, the high byte of the target is read
from the same page instead of carrying into the next one. -/
def addrIND (bus : Bus σ) (c : CPUState) (m : σ) : CPUState × σ :=
  let r := readPC16 bus c m
  let tmpAddr := r.1
  let c1 := {r.2.1 with opRawAddr := tmpAddr}
  let rl := read8 bus r.2.2 tmpAddr
  let tmp2 := if tmpAddr &&& 0xff = 0xff then tmpAddr &&& 0xff00
              else (tmpAddr + 1) % 65536
  let rh := read8 bus rl.2 tmp2
  ({c1 with opAddr := rl.1 ||| (rh.1 <<< 8)}, rh.2)

/-- Absolute + X (Go addrABSX) with page-cross penalty. -/
def addrABSX (bus : Bus σ) (extraCycles : Nat) (c : CPUState) (m : σ) :
    CPUState × σ :=
  let r := readPC16 bus c m
  let c1 := r.2.1
  let a := (r.1 + c1.xr % 256) % 65536
  let c2 := {c1 with opRawAddr := r.1, opAddr := a}
  let c3 := if r.1 &&& 0xff00 ≠ a &&& 0xff00 then
              {c2 with clockCycles := c2.clockCycles + extraCycles}
            else c2
  (c3, r.2.2)

/-- Absolute + Y (Go addrABSY). -/
def addrABSY (bus : Bus σ) (extraCycles : Nat) (c : CPUState) (m : σ) :
    CPUState × σ :=
  let r := readPC16 bus c m
  let c1 := r.2.1
  let a := (r.1 + c1.yr % 256) % 65536
  let c2 := {c1 with opRawAddr := r.1, opAddr := a}
  let c3 := if r.1 &&& 0xff00 ≠ a &&& 0xff00 then
              {c2 with clockCycles := c2.clockCycles + extraCycles}
            else c2
  (c3, r.2.2)

/-- Pre-indexed indirect (Go addrINDX); all reads wrap within the zero page. -/
def addrINDX (bus : Bus σ) (c : CPUState) (m : σ) : CPUState × σ :=
  let r := readPC8 bus c m
  let c1 := {r.2.1 with opRawAddr := r.1}
  let zpaddr := (r.1 + c1.xr % 256) &&& 0xff
  let rl := read8 bus r.2.2 zpaddr
  let rh := read8 bus rl.2 ((zpaddr + 1) &&& 0xff)
  ({c1 with opAddr := rl.1 ||| (rh.1 <<< 8)}, rh.2)

/-- Post-indexed indirect (Go addrINDY) with page-cross penalty. -/
def addrINDY (bus : Bus σ) (extraCycles : Nat) (c : CPUState) (m : σ) :
    CPUState × σ :=
  let r := readPC8 bus c m
  let c1 := {r.2.1 with opRawAddr := r.1}
  let rl := read8 bus r.2.2 r.1
  let rh := read8 bus rl.2 ((r.1 + 1) &&& 0xff)
  let pre := rl.1 ||| (rh.1 <<< 8)
  let a := (pre + c1.yr % 256) % 65536
  let c2 := {c1 with opAddr := a}
  let c3 := if a &&& 0xff00 ≠ pre &&& 0xff00 then
              {c2 with clockCycles := c2.clockCycles + extraCycles}
            else c2
  (c3, rh.2)

/-
  Opcode executors (Go cpu_exec.go).  Each takes the bus, the CPU state and
  the bus state and returns both updated.
-/

/-- AAC (undocumented). -/
def opAac (bus : Bus σ) (c : CPUState) (m : σ) : CPUState × σ :=
  let r := readOpData bus c m
  let c1 := {c with ac := c.ac &&& r.1}
  let c2 := set c1 C (c1.ac &&& 0x80 == 0x80)
  (setZN c2 c2.ac, r.2)

/-- AAX (undocumented): store ac & xr. -/
def opAax (bus : Bus σ) (c : CPUState) (m : σ) : CPUState × σ :=
  let data := c.ac &&& c.xr
  let w := write8 bus m c.opAddr data
  ({c with clockCycles := c.clockCycles + w.2}, w.1)

/-- ADC: add with carry; 9-bit result in a uint16. -/
def opAdc (bus : Bus σ) (c : CPUState) (m : σ) : CPUState × σ :=
  let r := readOpData bus c m
  let opData := r.1
  let result := (c.ac % 256) + opData + (if isSet c C then 1 else 0)
  let c1 := set c V ((((c.ac % 256) ^^^ result) &&& (opData ^^^ result) &&& 0x80) != 0)
  let c2 := set c1 C (decide (0xff < result))
  let c3 := {c2 with ac := result &&& 0xff}
  (setZN c3 c3.ac, r.2)

/-- AND. -/
def opAnd (bus : Bus σ) (c : CPUState) (m : σ) : CPUState × σ :=
  let r := readOpData bus c m
  let c1 := {c with ac := c.ac &&& r.1}
  (setZN c1 c1.ac, r.2)

/-- ASL on the accumulator. -/
def opAslAcc (c : CPUState) : CPUState :=
  let c1 := set c C (c.ac &&& 0x80 == 0x80)
  let c2 := {c1 with ac := (c1.ac <<< 1) % 256}
  setZN c2 c2.ac

/-- ASL on memory. -/
def opAsl (bus : Bus σ) (c : CPUState) (m : σ) : CPUState × σ :=
  let r := readOpData bus c m
  let c1 := set c C (r.1 &&& 0x80 == 0x80)
  let data := (r.1 <<< 1) % 256
  let w := write8 bus r.2 c.opAddr data
  (setZN {c1 with clockCycles := c1.clockCycles + w.2} data, w.1)

/-- ASR (undocumented). -/
def opAsr (bus : Bus σ) (c : CPUState) (m : σ) : CPUState × σ :=
  let r := readOpData bus c m
  let c1 := {c with ac := c.ac &&& r.1}
  let c2 := set c1 C (c1.ac &&& 1 == 1)
  let c3 := {c2 with ac := c2.ac >>> 1}
  (setZN c3 c3.ac, r.2)

/-- ARR (undocumented). -/
def opArr (bus : Bus σ) (c : CPUState) (m : σ) : CPUState × σ :=
  let r := readOpData bus c m
  let c1 := {c with ac := (c.ac &&& r.1) >>> 1}
  let c2 := if isSet c1 C then {c1 with ac := c1.ac ||| 0x80} else c1
  let c3 := setZN c2 c2.ac
  let c4 := set c3 C (c3.ac &&& 0x40 == 0x40)
  let bit6IsSet := c4.ac &&& 0x40 == 0x40
  let bit5IsSet := c4.ac &&& 0x20 == 0x20
  (set c4 V (bit6IsSet != bit5IsSet), r.2)

/-- ATX (undocumented). -/
def opAtx (bus : Bus σ) (c : CPUState) (m : σ) : CPUState × σ :=
  let r := readOpData bus c m
  let c1 := {c with ac := r.1}
  let c2 := {c1 with xr := c1.ac}
  (setZN c2 c2.xr, r.2)

/-- AXS (undocumented). -/
def opAxs (bus : Bus σ) (c : CPUState) (m : σ) : CPUState × σ :=
  let r := readOpData bus c m
  let result := (((c.xr &&& c.ac) % 256) + 65536 - r.1) % 65536
  let c1 := set c C (decide (result < 0x100))
  let c2 := {c1 with xr := result &&& 0xff}
  (setZN c2 c2.xr, r.2)

/-- BCC. -/
def opBcc (bus : Bus σ) (c : CPUState) (m : σ) : CPUState × σ :=
  genericBranch bus c m (!isSet c C)

/-- BCS. -/
def opBcs (bus : Bus σ) (c : CPUState) (m : σ) : CPUState × σ :=
  genericBranch bus c m (isSet c C)

/-- BEQ. -/
def opBeq (bus : Bus σ) (c : CPUState) (m : σ) : CPUState × σ :=
  genericBranch bus c m (isSet c Z)

/-- BIT. -/
def opBit (bus : Bus σ) (c : CPUState) (m : σ) : CPUState × σ :=
  let r := readOpData bus c m
  let c1 := set c Z (r.1 &&& c.ac == 0)
  let c2 := set c1 V (r.1 &&& 0x40 == 0x40)
  (set c2 N (r.1 &&& 0x80 == 0x80), r.2)

/-- BMI. -/
def opBmi (bus : Bus σ) (c : CPUState) (m : σ) : CPUState × σ :=
  genericBranch bus c m (isSet c N)

/-- BNE. -/
def opBne (bus : Bus σ) (c : CPUState) (m : σ) : CPUState × σ :=
  genericBranch bus c m (!isSet c Z)

/-- BPL. -/
def opBpl (bus : Bus σ) (c : CPUState) (m : σ) : CPUState × σ :=
  genericBranch bus c m (!isSet c N)

/-- BRK: push pc+1, push status with B set, set I, load the IRQ vector. -/
def opBrk (bus : Bus σ) (c : CPUState) (m : σ) : CPUState × σ :=
  let p := pushWord bus c m ((c.pc + 1) % 65536)
  let c1 := set p.1 B true
  let p2 := push bus c1 p.2 (ALWAYS_ON ||| c1.st)
  let c2 := set p2.1 I true
  let rl := read8 bus p2.2 vectorIRQBRK
  let rh := read8 bus rl.2 (vectorIRQBRK + 1)
  ({c2 with pc := rl.1 ||| (rh.1 <<< 8)}, rh.2)

/-- BVC. -/
def opBvc (bus : Bus σ) (c : CPUState) (m : σ) : CPUState × σ :=
  genericBranch bus c m (!isSet c V)

/-- BVS. -/
def opBvs (bus : Bus σ) (c : CPUState) (m : σ) : CPUState × σ :=
  genericBranch bus c m (isSet c V)

/-- CLC. -/
def opClc (c : CPUState) : CPUState := set c C false

/-- CLD. -/
def opCld (c : CPUState) : CPUState := set c D false

/-- CLI. -/
def opCli (c : CPUState) : CPUState := set c I false

/-- CLV. -/
def opClv (c : CPUState) : CPUState := set c V false

/-- CMP; the difference is a uint8 and wraps. -/
def opCmp (bus : Bus σ) (c : CPUState) (m : σ) : CPUState × σ :=
  let r := readOpData bus c m
  let c1 := set c C (decide (r.1 ≤ c.ac % 256))
  (setZN c1 (((c.ac % 256) + 256 - r.1) % 256), r.2)

/-- CPX. -/
def opCpx (bus : Bus σ) (c : CPUState) (m : σ) : CPUState × σ :=
  let r := readOpData bus c m
  let c1 := set c C (decide (r.1 ≤ c.xr % 256))
  (setZN c1 (((c.xr % 256) + 256 - r.1) % 256), r.2)

/-- CPY. -/
def opCpy (bus : Bus σ) (c : CPUState) (m : σ) : CPUState × σ :=
  let r := readOpData bus c m
  let c1 := set c C (decide (r.1 ≤ c.yr % 256))
  (setZN c1 (((c.yr % 256) + 256 - r.1) % 256), r.2)

/-- DCP (undocumented). -/
def opDcp (bus : Bus σ) (c : CPUState) (m : σ) : CPUState × σ :=
  let r := readOpData bus c m
  let data := (r.1 + 255) % 256
  let c1 := set c C (decide (data ≤ c.ac % 256))
  let c2 := setZN c1 (((c.ac % 256) + 256 - data) % 256)
  let w := write8 bus r.2 c.opAddr data
  ({c2 with clockCycles := c2.clockCycles + w.2}, w.1)

/-- DEC. -/
def opDec (bus : Bus σ) (c : CPUState) (m : σ) : CPUState × σ :=
  let r := readOpData bus c m
  let data := (r.1 + 255) % 256
  let c1 := setZN c data
  let w := write8 bus r.2 c.opAddr data
  ({c1 with clockCycles := c1.clockCycles + w.2}, w.1)

/-- DEX. -/
def opDex (c : CPUState) : CPUState :=
  let c1 := {c with xr := (c.xr + 255) % 256}
  setZN c1 c1.xr

/-- DEY. -/
def opDey (c : CPUState) : CPUState :=
  let c1 := {c with yr := (c.yr + 255) % 256}
  setZN c1 c1.yr

/-- EOR. -/
def opEor (bus : Bus σ) (c : CPUState) (m : σ) : CPUState × σ :=
  let r := readOpData bus c m
  let c1 := {c with ac := c.ac ^^^ r.1}
  (setZN c1 c1.ac, r.2)

/-- INC. -/
def opInc (bus : Bus σ) (c : CPUState) (m : σ) : CPUState × σ :=
  let r := readOpData bus c m
  let data := (r.1 + 1) % 256
  let w := write8 bus r.2 c.opAddr data
  (setZN {c with clockCycles := c.clockCycles + w.2} data, w.1)

/-- INX. -/
def opInx (c : CPUState) : CPUState :=
  let c1 := {c with xr := (c.xr + 1) % 256}
  setZN c1 c1.xr

/-- INY. -/
def opIny (c : CPUState) : CPUState :=
  let c1 := {c with yr := (c.yr + 1) % 256}
  setZN c1 c1.yr

/-- ISC (undocumented): INC then SBC. -/
def opIsc (bus : Bus σ) (c : CPUState) (m : σ) : CPUState × σ :=
  let r := readOpData bus c m
  let opData := (r.1 + 1) &&& 0xff
  let w := write8 bus r.2 c.opAddr opData
  let c0 := {c with clockCycles := c.clockCycles + w.2}
  let result0 := ((c0.ac % 256) + 65536 - opData) % 65536
  let result := if !isSet c0 C then (result0 + 65535) % 65536 else result0
  let c1 := set c0 V ((((c0.ac % 256) ^^^ result) &&& ((c0.ac % 256) ^^^ opData) &&& 0x80) != 0)
  let c2 := set c1 C (decide (result < 0x100))
  let c3 := {c2 with ac := result &&& 0xff}
  (setZN c3 c3.ac, w.1)

/-- JMP. -/
def opJmp (c : CPUState) : CPUState :=
  {c with pc := c.opAddr}

/-- JSR. -/
def opJsr (bus : Bus σ) (c : CPUState) (m : σ) : CPUState × σ :=
  let p := pushWord bus c m ((c.pc + 65535) % 65536)
  ({p.1 with pc := p.1.opAddr}, p.2)

/-- LAX (undocumented). -/
def opLax (bus : Bus σ) (c : CPUState) (m : σ) : CPUState × σ :=
  let r := readOpData bus c m
  let c1 := {c with ac := r.1}
  let c2 := {c1 with xr := c1.ac}
  (setZN c2 c2.ac, r.2)

/-- LDA. -/
def opLda (bus : Bus σ) (c : CPUState) (m : σ) : CPUState × σ :=
  let r := readOpData bus c m
  let c1 := {c with ac := r.1}
  (setZN c1 c1.ac, r.2)

/-- LDX. -/
def opLdx (bus : Bus σ) (c : CPUState) (m : σ) : CPUState × σ :=
  let r := readOpData bus c m
  let c1 := {c with xr := r.1}
  (setZN c1 c1.xr, r.2)

/-- LDY. -/
def opLdy (bus : Bus σ) (c : CPUState) (m : σ) : CPUState × σ :=
  let r := readOpData bus c m
  let c1 := {c with yr := r.1}
  (setZN c1 c1.yr, r.2)

/-- LSR on the accumulator. -/
def opLsrAcc (c : CPUState) : CPUState :=
  let c1 := set c C (c.ac &&& 1 == 1)
  let c2 := {c1 with ac := c1.ac >>> 1}
  setZN c2 c2.ac

/-- LSR on memory. -/
def opLsr (bus : Bus σ) (c : CPUState) (m : σ) : CPUState × σ :=
  let r := readOpData bus c m
  let c1 := set c C (r.1 &&& 1 == 1)
  let data := r.1 >>> 1
  let c2 := setZN c1 data
  let w := write8 bus r.2 c.opAddr data
  ({c2 with clockCycles := c2.clockCycles + w.2}, w.1)

/-- NOP. -/
def opNop (c : CPUState) : CPUState := c

/-- ORA. -/
def opOra (bus : Bus σ) (c : CPUState) (m : σ) : CPUState × σ :=
  let r := readOpData bus c m
  let c1 := {c with ac := c.ac ||| r.1}
  (setZN c1 c1.ac, r.2)

/-- PHA. -/
def opPha (bus : Bus σ) (c : CPUState) (m : σ) : CPUState × σ :=
  push bus c m (c.ac % 256)

/-- PHP: the pushed status always has ALWAYS_ON and B set. -/
def opPhp (bus : Bus σ) (c : CPUState) (m : σ) : CPUState × σ :=
  push bus c m (ALWAYS_ON ||| c.st ||| B)

/-- PLA. -/
def opPla (bus : Bus σ) (c : CPUState) (m : σ) : CPUState × σ :=
  let r := pop bus c m
  let c1 := {r.2.1 with ac := r.1}
  (setZN c1 c1.ac, r.2.2)

/-- PLP: B is cleared, ALWAYS_ON forced. -/
def opPlp (bus : Bus σ) (c : CPUState) (m : σ) : CPUState × σ :=
  let r := pop bus c m
  ({r.2.1 with st := ALWAYS_ON ||| (r.1 &&& (0xff ^^^ B))}, r.2.2)

/-- RLA (undocumented). -/
def opRla (bus : Bus σ) (c : CPUState) (m : σ) : CPUState × σ :=
  let r := readOpData bus c m
  let carry := isSet c C
  let c1 := set c C (r.1 &&& 0x80 == 0x80)
  let data0 := (r.1 <<< 1) % 256
  let data := if carry then data0 ||| 1 else data0
  let w := write8 bus r.2 c1.opAddr data
  let c2 := {c1 with clockCycles := c1.clockCycles + w.2, ac := c1.ac &&& data}
  (setZN c2 c2.ac, w.1)

/-- ROL on the accumulator. -/
def opRolAcc (c : CPUState) : CPUState :=
  let carry := isSet c C
  let c1 := set c C (c.ac &&& 0x80 == 0x80)
  let c2 := {c1 with ac := (c1.ac <<< 1) % 256}
  let c3 := if carry then {c2 with ac := (c2.ac + 1) % 256} else c2
  setZN c3 c3.ac

/-- ROL on memory. -/
def opRol (bus : Bus σ) (c : CPUState) (m : σ) : CPUState × σ :=
  let r := readOpData bus c m
  let carry := isSet c C
  let c1 := set c C (r.1 &&& 0x80 == 0x80)
  let data0 := (r.1 <<< 1) % 256
  let data := if carry then (data0 + 1) % 256 else data0
  let w := write8 bus r.2 c1.opAddr data
  (setZN {c1 with clockCycles := c1.clockCycles + w.2} data, w.1)

/-- ROR on the accumulator. -/
def opRorAcc (c : CPUState) : CPUState :=
  let carry := isSet c C
  let c1 := set c C (c.ac &&& 1 == 1)
  let c2 := {c1 with ac := c1.ac >>> 1}
  let c3 := if carry then {c2 with ac := (c2.ac + 0x80) % 256} else c2
  setZN c3 c3.ac

/-- ROR on memory. -/
def opRor (bus : Bus σ) (c : CPUState) (m : σ) : CPUState × σ :=
  let r := readOpData bus c m
  let carry := isSet c C
  let c1 := set c C (r.1 &&& 1 == 1)
  let data0 := r.1 >>> 1
  let data := if carry then (data0 + 0x80) % 256 else data0
  let w := write8 bus r.2 c1.opAddr data
  (setZN {c1 with clockCycles := c1.clockCycles + w.2} data, w.1)

/-- RRA (undocumented): ROR memory then ADC. -/
def opRra (bus : Bus σ) (c : CPUState) (m : σ) : CPUState × σ :=
  let r := readOpData bus c m
  let carry := isSet c C
  let c1 := set c C (r.1 &&& 1 == 1)
  let opData0 := r.1 >>> 1
  let opData := if carry then opData0 ||| 0x80 else opData0
  let w := write8 bus r.2 c1.opAddr opData
  let c2 := {c1 with clockCycles := c1.clockCycles + w.2}
  let result := (c2.ac % 256) + opData + (if isSet c2 C then 1 else 0)
  let c3 := set c2 V ((((c2.ac % 256) ^^^ result) &&& (opData ^^^ result) &&& 0x80) != 0)
  let c4 := set c3 C (decide (0xff < result))
  let c5 := {c4 with ac := result &&& 0xff}
  (setZN c5 c5.ac, w.1)

/-- RTI: pull status (B cleared, ALWAYS_ON set) then pc. -/
def opRti (bus : Bus σ) (c : CPUState) (m : σ) : CPUState × σ :=
  let r := pop bus c m
  let c1 := {r.2.1 with st := ALWAYS_ON ||| (r.1 &&& (0xff ^^^ B))}
  let r2 := popWord bus c1 r.2.2
  ({r2.2.1 with pc := r2.1}, r2.2.2)

/-- RTS. -/
def opRts (bus : Bus σ) (c : CPUState) (m : σ) : CPUState × σ :=
  let r := popWord bus c m
  ({r.2.1 with pc := (r.1 + 1) % 65536}, r.2.2)

/-- SBC: subtract with borrow in a uint16. -/
def opSbc (bus : Bus σ) (c : CPUState) (m : σ) : CPUState × σ :=
  let r := readOpData bus c m
  let opData := r.1
  let result0 := ((c.ac % 256) + 65536 - opData) % 65536
  let result := if !isSet c C then (result0 + 65535) % 65536 else result0
  let c1 := set c V ((((c.ac % 256) ^^^ result) &&& ((c.ac % 256) ^^^ opData) &&& 0x80) != 0)
  let c2 := set c1 C (decide (result < 0x100))
  let c3 := {c2 with ac := result &&& 0xff}
  (setZN c3 c3.ac, r.2)

/-- SEC. -/
def opSec (c : CPUState) : CPUState := set c C true

/-- SED. -/
def opSed (c : CPUState) : CPUState := set c D true

/-- SEI. -/
def opSei (c : CPUState) : CPUState := set c I true

/-- SLO (undocumented). -/
def opSlo (bus : Bus σ) (c : CPUState) (m : σ) : CPUState × σ :=
  let r := readOpData bus c m
  let c1 := set c C (r.1 &&& 0x80 == 0x80)
  let data := (r.1 <<< 1) % 256
  let w := write8 bus r.2 c1.opAddr data
  let c2 := {c1 with clockCycles := c1.clockCycles + w.2, ac := c1.ac ||| data}
  (setZN c2 c2.ac, w.1)

/-- SRE (undocumented). -/
def opSre (bus : Bus σ) (c : CPUState) (m : σ) : CPUState × σ :=
  let r := readOpData bus c m
  let c1 := set c C (r.1 &&& 1 == 1)
  let data := r.1 >>> 1
  let w := write8 bus r.2 c1.opAddr data
  let c2 := {c1 with clockCycles := c1.clockCycles + w.2, ac := c1.ac ^^^ data}
  (setZN c2 c2.ac, w.1)

/-- STA. -/
def opSta (bus : Bus σ) (c : CPUState) (m : σ) : CPUState × σ :=
  let w := write8 bus m c.opAddr (c.ac % 256)
  ({c with clockCycles := c.clockCycles + w.2}, w.1)

/-- STX. -/
def opStx (bus : Bus σ) (c : CPUState) (m : σ) : CPUState × σ :=
  let w := write8 bus m c.opAddr (c.xr % 256)
  ({c with clockCycles := c.clockCycles + w.2}, w.1)

/-- STY. -/
def opSty (bus : Bus σ) (c : CPUState) (m : σ) : CPUState × σ :=
  let w := write8 bus m c.opAddr (c.yr % 256)
  ({c with clockCycles := c.clockCycles + w.2}, w.1)

/-- SXA (undocumented): the stored value and the address interact with the
high byte of the raw (pre-index) address. -/
def opSxa (bus : Bus σ) (c : CPUState) (m : σ) : CPUState × σ :=
  let low := c.opRawAddr &&& 0xff
  let high := c.opRawAddr >>> 8
  let address :=
    if 0xff < low + (c.yr % 256) then
      ((((high + 1) &&& (c.xr % 256)) <<< 8) + (((c.yr % 256) + low) &&& 0xff)) % 65536
    else
      ((high <<< 8) + (c.yr % 256) + low) % 65536
  let w := write8 bus m address ((c.xr % 256) &&& ((high + 1) % 256))
  ({c with clockCycles := c.clockCycles + w.2}, w.1)

/-- SYA (undocumented), mirror image of SXA. -/
def opSya (bus : Bus σ) (c : CPUState) (m : σ) : CPUState × σ :=
  let low := c.opRawAddr &&& 0xff
  let high := c.opRawAddr >>> 8
  let address :=
    if 0xff < low + (c.xr % 256) then
      ((((high + 1) &&& (c.yr % 256)) <<< 8) + (((c.xr % 256) + low) &&& 0xff)) % 65536
    else
      ((high <<< 8) + (c.xr % 256) + low) % 65536
  let w := write8 bus m address ((c.yr % 256) &&& ((high + 1) % 256))
  ({c with clockCycles := c.clockCycles + w.2}, w.1)

/-- TAX. -/
def opTax (c : CPUState) : CPUState :=
  let c1 := {c with xr := c.ac}
  setZN c1 c1.xr

/-- TAY. -/
def opTay (c : CPUState) : CPUState :=
  let c1 := {c with yr := c.ac}
  setZN c1 c1.yr

/-- TSX. -/
def opTsx (c : CPUState) : CPUState :=
  let c1 := {c with xr := c.sp}
  setZN c1 c1.xr

/-- TXA. -/
def opTxa (c : CPUState) : CPUState :=
  let c1 := {c with ac := c.xr}
  setZN c1 c1.ac

/-- TXS. -/
def opTxs (c : CPUState) : CPUState :=
  {c with sp := c.xr}

/-- TYA. -/
def opTya (c : CPUState) : CPUState :=
  let c1 := {c with ac := c.yr}
  setZN c1 c1.ac

/-- The executors, named as in Go (the Go table stores function pointers; we
store the executor's name and dispatch through execOp). -/
inductive OpName where
  | aac | aax | adc | and | arr | asl | aslAcc | asr | atx | axs
  | bcc | bcs | beq | bit | bmi | bne | bpl | brk | bvc | bvs
  | clc | cld | cli | clv | cmp | cpx | cpy
  | dcp | dec | dex | dey | eor | inc | inx | iny | isc
  | jmp | jsr | lax | lda | ldx | ldy | lsr | lsrAcc | nop | ora
  | pha | php | pla | plp | rla | rol | rolAcc | ror | rorAcc | rra
  | rti | rts | sbc | sec | sed | sei | slo | sre
  | sta | stx | sty | sxa | sya
  | tax | tay | tsx | txa | txs | tya
deriving Repr, DecidableEq

/-- One row of the opcode table (Go OpcodeEntry, minus the display string). -/
structure OpcodeEntry where
  name : OpName
  cycles : Nat
  extraCycles : Nat
  addressing : AddrMode
deriving Repr, DecidableEq

/-- Dispatch an executor by name (the Go table calls op.exec directly). -/
def execOp (name : OpName) (bus : Bus σ) (c : CPUState) (m : σ) :
    CPUState × σ :=
  match name with
  | .aac => opAac bus c m
  | .aax => opAax bus c m
  | .adc => opAdc bus c m
  | .and => opAnd bus c m
  | .arr => opArr bus c m
  | .asl => opAsl bus c m
  | .aslAcc => (opAslAcc c, m)
  | .asr => opAsr bus c m
  | .atx => opAtx bus c m
  | .axs => opAxs bus c m
  | .bcc => opBcc bus c m
  | .bcs => opBcs bus c m
  | .beq => opBeq bus c m
  | .bit => opBit bus c m
  | .bmi => opBmi bus c m
  | .bne => opBne bus c m
  | .bpl => opBpl bus c m
  | .brk => opBrk bus c m
  | .bvc => opBvc bus c m
  | .bvs => opBvs bus c m
  | .clc => (opClc c, m)
  | .cld => (opCld c, m)
  | .cli => (opCli c, m)
  | .clv => (opClv c, m)
  | .cmp => opCmp bus c m
  | .cpx => opCpx bus c m
  | .cpy => opCpy bus c m
  | .dcp => opDcp bus c m
  | .dec => opDec bus c m
  | .dex => (opDex c, m)
  | .dey => (opDey c, m)
  | .eor => opEor bus c m
  | .inc => opInc bus c m
  | .inx => (opInx c, m)
  | .iny => (opIny c, m)
  | .isc => opIsc bus c m
  | .jmp => (opJmp c, m)
  | .jsr => opJsr bus c m
  | .lax => opLax bus c m
  | .lda => opLda bus c m
  | .ldx => opLdx bus c m
  | .ldy => opLdy bus c m
  | .lsr => opLsr bus c m
  | .lsrAcc => (opLsrAcc c, m)
  | .nop => (opNop c, m)
  | .ora => opOra bus c m
  | .pha => opPha bus c m
  | .php => opPhp bus c m
  | .pla => opPla bus c m
  | .plp => opPlp bus c m
  | .rla => opRla bus c m
  | .rol => opRol bus c m
  | .rolAcc => (opRolAcc c, m)
  | .ror => opRor bus c m
  | .rorAcc => (opRorAcc c, m)
  | .rra => opRra bus c m
  | .rti => opRti bus c m
  | .rts => opRts bus c m
  | .sbc => opSbc bus c m
  | .sec => (opSec c, m)
  | .sed => (opSed c, m)
  | .sei => (opSei c, m)
  | .slo => opSlo bus c m
  | .sre => opSre bus c m
  | .sta => opSta bus c m
  | .stx => opStx bus c m
  | .sty => opSty bus c m
  | .sxa => opSxa bus c m
  | .sya => opSya bus c m
  | .tax => (opTax c, m)
  | .tay => (opTay c, m)
  | .tsx => (opTsx c, m)
  | .txa => (opTxa c, m)
  | .txs => (opTxs c, m)
  | .tya => (opTya c, m)

/-- The 256-entry opcode table (Go opTable); opcodes not implemented map to
none and are fatal in Interpret. -/
def opTable (opcode : Nat) : Option OpcodeEntry :=
  match opcode with
  | 0x00 => some ⟨.brk, 7, 0, .imp⟩
  | 0x01 => some ⟨.ora, 6, 0, .indx⟩
  | 0x03 => some ⟨.slo, 8, 0, .indx⟩
  | 0x04 => some ⟨.nop, 3, 0, .zp⟩
  | 0x05 => some ⟨.ora, 3, 0, .zp⟩
  | 0x06 => some ⟨.asl, 5, 0, .zp⟩
  | 0x07 => some ⟨.slo, 5, 0, .zp⟩
  | 0x08 => some ⟨.php, 3, 0, .imp⟩
  | 0x09 => some ⟨.ora, 2, 0, .imm⟩
  | 0x0A => some ⟨.aslAcc, 2, 0, .imp⟩
  | 0x0B => some ⟨.aac, 2, 0, .imm⟩
  | 0x0C => some ⟨.nop, 4, 0, .abs⟩
  | 0x0D => some ⟨.ora, 4, 0, .abs⟩
  | 0x0E => some ⟨.asl, 6, 0, .abs⟩
  | 0x0F => some ⟨.slo, 6, 0, .abs⟩
  | 0x10 => some ⟨.bpl, 2, 0, .imm⟩
  | 0x11 => some ⟨.ora, 5, 1, .indy⟩
  | 0x13 => some ⟨.slo, 8, 0, .indy⟩
  | 0x14 => some ⟨.nop, 4, 0, .zpx⟩
  | 0x15 => some ⟨.ora, 4, 0, .zpx⟩
  | 0x16 => some ⟨.asl, 6, 0, .zpx⟩
  | 0x17 => some ⟨.slo, 6, 0, .zpx⟩
  | 0x18 => some ⟨.clc, 2, 0, .imp⟩
  | 0x19 => some ⟨.ora, 4, 1, .absy⟩
  | 0x1A => some ⟨.nop, 2, 0, .imp⟩
  | 0x1B => some ⟨.slo, 7, 0, .absy⟩
  | 0x1C => some ⟨.nop, 4, 1, .absx⟩
  | 0x1D => some ⟨.ora, 4, 1, .absx⟩
  | 0x1E => some ⟨.asl, 7, 0, .absx⟩
  | 0x1F => some ⟨.slo, 7, 0, .absx⟩
  | 0x20 => some ⟨.jsr, 6, 0, .abs⟩
  | 0x21 => some ⟨.and, 6, 0, .indx⟩
  | 0x23 => some ⟨.rla, 8, 0, .indx⟩
  | 0x24 => some ⟨.bit, 3, 0, .zp⟩
  | 0x25 => some ⟨.and, 3, 0, .zp⟩
  | 0x26 => some ⟨.rol, 5, 0, .zp⟩
  | 0x27 => some ⟨.rla, 5, 0, .zp⟩
  | 0x28 => some ⟨.plp, 4, 0, .imp⟩
  | 0x29 => some ⟨.and, 2, 0, .imm⟩
  | 0x2A => some ⟨.rolAcc, 2, 0, .imp⟩
  | 0x2B => some ⟨.aac, 2, 0, .imm⟩
  | 0x2C => some ⟨.bit, 4, 0, .abs⟩
  | 0x2D => some ⟨.and, 4, 0, .abs⟩
  | 0x2E => some ⟨.rol, 6, 0, .abs⟩
  | 0x2F => some ⟨.rla, 6, 0, .abs⟩
  | 0x30 => some ⟨.bmi, 2, 0, .imm⟩
  | 0x31 => some ⟨.and, 5, 1, .indy⟩
  | 0x33 => some ⟨.rla, 8, 0, .indy⟩
  | 0x34 => some ⟨.nop, 4, 0, .zpx⟩
  | 0x35 => some ⟨.and, 4, 0, .zpx⟩
  | 0x36 => some ⟨.rol, 6, 0, .zpx⟩
  | 0x37 => some ⟨.rla, 6, 0, .zpx⟩
  | 0x38 => some ⟨.sec, 2, 0, .imp⟩
  | 0x39 => some ⟨.and, 4, 1, .absy⟩
  | 0x3A => some ⟨.nop, 2, 0, .imp⟩
  | 0x3B => some ⟨.rla, 7, 0, .absy⟩
  | 0x3C => some ⟨.nop, 4, 1, .absx⟩
  | 0x3D => some ⟨.and, 4, 1, .absx⟩
  | 0x3E => some ⟨.rol, 7, 0, .absx⟩
  | 0x3F => some ⟨.rla, 7, 0, .absx⟩
  | 0x40 => some ⟨.rti, 6, 0, .imp⟩
  | 0x41 => some ⟨.eor, 6, 0, .indx⟩
  | 0x43 => some ⟨.sre, 8, 0, .indx⟩
  | 0x44 => some ⟨.nop, 3, 0, .zp⟩
  | 0x45 => some ⟨.eor, 3, 0, .zp⟩
  | 0x46 => some ⟨.lsr, 5, 0, .zp⟩
  | 0x47 => some ⟨.sre, 5, 0, .zp⟩
  | 0x48 => some ⟨.pha, 3, 0, .imp⟩
  | 0x49 => some ⟨.eor, 2, 0, .imm⟩
  | 0x4A => some ⟨.lsrAcc, 2, 0, .imp⟩
  | 0x4B => some ⟨.asr, 2, 0, .imm⟩
  | 0x4C => some ⟨.jmp, 3, 0, .abs⟩
  | 0x4D => some ⟨.eor, 4, 0, .abs⟩
  | 0x4E => some ⟨.lsr, 6, 0, .abs⟩
  | 0x4F => some ⟨.sre, 6, 0, .abs⟩
  | 0x50 => some ⟨.bvc, 2, 0, .imm⟩
  | 0x51 => some ⟨.eor, 5, 1, .indy⟩
  | 0x53 => some ⟨.sre, 8, 0, .indy⟩
  | 0x54 => some ⟨.nop, 4, 0, .zpx⟩
  | 0x55 => some ⟨.eor, 4, 0, .zpx⟩
  | 0x56 => some ⟨.lsr, 6, 0, .zpx⟩
  | 0x57 => some ⟨.sre, 6, 0, .zpx⟩
  | 0x58 => some ⟨.cli, 2, 0, .imp⟩
  | 0x59 => some ⟨.eor, 4, 1, .absy⟩
  | 0x5A => some ⟨.nop, 2, 0, .imp⟩
  | 0x5B => some ⟨.sre, 7, 0, .absy⟩
  | 0x5C => some ⟨.nop, 4, 1, .absx⟩
  | 0x5D => some ⟨.eor, 4, 1, .absx⟩
  | 0x5E => some ⟨.lsr, 7, 0, .absx⟩
  | 0x5F => some ⟨.sre, 7, 0, .absx⟩
  | 0x60 => some ⟨.rts, 6, 0, .imp⟩
  | 0x61 => some ⟨.adc, 6, 0, .indx⟩
  | 0x63 => some ⟨.rra, 8, 0, .indx⟩
  | 0x64 => some ⟨.nop, 3, 0, .zp⟩
  | 0x65 => some ⟨.adc, 3, 0, .zp⟩
  | 0x66 => some ⟨.ror, 5, 0, .zp⟩
  | 0x67 => some ⟨.rra, 5, 0, .zp⟩
  | 0x68 => some ⟨.pla, 4, 0, .imp⟩
  | 0x69 => some ⟨.adc, 2, 0, .imm⟩
  | 0x6A => some ⟨.rorAcc, 2, 0, .imp⟩
  | 0x6B => some ⟨.arr, 2, 0, .imm⟩
  | 0x6C => some ⟨.jmp, 5, 0, .ind⟩
  | 0x6D => some ⟨.adc, 4, 0, .abs⟩
  | 0x6E => some ⟨.ror, 6, 0, .abs⟩
  | 0x6F => some ⟨.rra, 6, 0, .abs⟩
  | 0x70 => some ⟨.bvs, 2, 0, .imm⟩
  | 0x71 => some ⟨.adc, 5, 1, .indy⟩
  | 0x73 => some ⟨.rra, 8, 0, .indy⟩
  | 0x74 => some ⟨.nop, 4, 0, .zpx⟩
  | 0x75 => some ⟨.adc, 4, 0, .zpx⟩
  | 0x76 => some ⟨.ror, 6, 0, .zpx⟩
  | 0x77 => some ⟨.rra, 6, 0, .zpx⟩
  | 0x78 => some ⟨.sei, 2, 0, .imp⟩
  | 0x79 => some ⟨.adc, 4, 1, .absy⟩
  | 0x7A => some ⟨.nop, 2, 0, .imp⟩
  | 0x7B => some ⟨.rra, 7, 0, .absy⟩
  | 0x7C => some ⟨.nop, 4, 1, .absx⟩
  | 0x7D => some ⟨.adc, 4, 1, .absx⟩
  | 0x7E => some ⟨.ror, 7, 0, .absx⟩
  | 0x7F => some ⟨.rra, 7, 0, .absx⟩
  | 0x80 => some ⟨.nop, 2, 0, .imm⟩
  | 0x81 => some ⟨.sta, 6, 0, .indx⟩
  | 0x82 => some ⟨.nop, 2, 0, .imm⟩
  | 0x83 => some ⟨.aax, 6, 0, .indx⟩
  | 0x84 => some ⟨.sty, 3, 0, .zp⟩
  | 0x85 => some ⟨.sta, 3, 0, .zp⟩
  | 0x86 => some ⟨.stx, 3, 0, .zp⟩
  | 0x87 => some ⟨.aax, 3, 0, .zp⟩
  | 0x88 => some ⟨.dey, 2, 0, .imp⟩
  | 0x89 => some ⟨.nop, 2, 0, .imm⟩
  | 0x8A => some ⟨.txa, 2, 0, .imp⟩
  | 0x8C => some ⟨.sty, 4, 0, .abs⟩
  | 0x8D => some ⟨.sta, 4, 0, .abs⟩
  | 0x8E => some ⟨.stx, 4, 0, .abs⟩
  | 0x8F => some ⟨.aax, 4, 0, .abs⟩
  | 0x90 => some ⟨.bcc, 2, 0, .imm⟩
  | 0x91 => some ⟨.sta, 6, 0, .indy⟩
  | 0x94 => some ⟨.sty, 4, 0, .zpx⟩
  | 0x95 => some ⟨.sta, 4, 0, .zpx⟩
  | 0x96 => some ⟨.stx, 4, 0, .zpy⟩
  | 0x97 => some ⟨.aax, 4, 0, .zpy⟩
  | 0x98 => some ⟨.tya, 2, 0, .imp⟩
  | 0x99 => some ⟨.sta, 5, 0, .absy⟩
  | 0x9A => some ⟨.txs, 2, 0, .imp⟩
  | 0x9C => some ⟨.sya, 5, 0, .absx⟩
  | 0x9D => some ⟨.sta, 5, 0, .absx⟩
  | 0x9E => some ⟨.sxa, 5, 0, .absy⟩
  | 0xA0 => some ⟨.ldy, 2, 0, .imm⟩
  | 0xA1 => some ⟨.lda, 6, 0, .indx⟩
  | 0xA2 => some ⟨.ldx, 2, 0, .imm⟩
  | 0xA3 => some ⟨.lax, 6, 0, .indx⟩
  | 0xA4 => some ⟨.ldy, 3, 0, .zp⟩
  | 0xA5 => some ⟨.lda, 3, 0, .zp⟩
  | 0xA6 => some ⟨.ldx, 3, 0, .zp⟩
  | 0xA7 => some ⟨.lax, 3, 0, .zp⟩
  | 0xA8 => some ⟨.tay, 2, 0, .imp⟩
  | 0xA9 => some ⟨.lda, 2, 0, .imm⟩
  | 0xAA => some ⟨.tax, 2, 0, .imp⟩
  | 0xAB => some ⟨.atx, 2, 0, .imm⟩
  | 0xAC => some ⟨.ldy, 4, 0, .abs⟩
  | 0xAD => some ⟨.lda, 4, 0, .abs⟩
  | 0xAE => some ⟨.ldx, 4, 0, .abs⟩
  | 0xAF => some ⟨.lax, 4, 0, .abs⟩
  | 0xB0 => some ⟨.bcs, 2, 0, .imm⟩
  | 0xB1 => some ⟨.lda, 5, 1, .indy⟩
  | 0xB3 => some ⟨.lax, 5, 1, .indy⟩
  | 0xB4 => some ⟨.ldy, 4, 0, .zpx⟩
  | 0xB5 => some ⟨.lda, 4, 0, .zpx⟩
  | 0xB6 => some ⟨.ldx, 4, 0, .zpy⟩
  | 0xB7 => some ⟨.lax, 4, 0, .zpy⟩
  | 0xB8 => some ⟨.clv, 2, 0, .imp⟩
  | 0xB9 => some ⟨.lda, 4, 1, .absy⟩
  | 0xBA => some ⟨.tsx, 2, 0, .imp⟩
  | 0xBC => some ⟨.ldy, 4, 1, .absx⟩
  | 0xBD => some ⟨.lda, 4, 1, .absx⟩
  | 0xBE => some ⟨.ldx, 4, 1, .absy⟩
  | 0xBF => some ⟨.lax, 4, 1, .absy⟩
  | 0xC0 => some ⟨.cpy, 2, 0, .imm⟩
  | 0xC1 => some ⟨.cmp, 6, 0, .indx⟩
  | 0xC2 => some ⟨.nop, 2, 0, .imm⟩
  | 0xC3 => some ⟨.dcp, 8, 0, .indx⟩
  | 0xC4 => some ⟨.cpy, 3, 0, .zp⟩
  | 0xC5 => some ⟨.cmp, 3, 0, .zp⟩
  | 0xC6 => some ⟨.dec, 5, 0, .zp⟩
  | 0xC7 => some ⟨.dcp, 5, 0, .zp⟩
  | 0xC8 => some ⟨.iny, 2, 0, .imp⟩
  | 0xC9 => some ⟨.cmp, 2, 0, .imm⟩
  | 0xCA => some ⟨.dex, 2, 0, .imp⟩
  | 0xCB => some ⟨.axs, 2, 0, .imm⟩
  | 0xCC => some ⟨.cpy, 4, 0, .abs⟩
  | 0xCD => some ⟨.cmp, 4, 0, .abs⟩
  | 0xCE => some ⟨.dec, 6, 0, .abs⟩
  | 0xCF => some ⟨.dcp, 6, 0, .abs⟩
  | 0xD0 => some ⟨.bne, 2, 0, .imm⟩
  | 0xD1 => some ⟨.cmp, 5, 1, .indy⟩
  | 0xD3 => some ⟨.dcp, 8, 0, .indy⟩
  | 0xD4 => some ⟨.nop, 4, 0, .zpx⟩
  | 0xD5 => some ⟨.cmp, 4, 0, .zpx⟩
  | 0xD6 => some ⟨.dec, 6, 0, .zpx⟩
  | 0xD7 => some ⟨.dcp, 6, 0, .zpx⟩
  | 0xD8 => some ⟨.cld, 2, 0, .imp⟩
  | 0xD9 => some ⟨.cmp, 4, 1, .absy⟩
  | 0xDA => some ⟨.nop, 2, 0, .imp⟩
  | 0xDB => some ⟨.dcp, 7, 0, .absy⟩
  | 0xDC => some ⟨.nop, 4, 1, .absx⟩
  | 0xDD => some ⟨.cmp, 4, 1, .absx⟩
  | 0xDE => some ⟨.dec, 7, 0, .absx⟩
  | 0xDF => some ⟨.dcp, 7, 0, .absx⟩
  | 0xE0 => some ⟨.cpx, 2, 0, .imm⟩
  | 0xE1 => some ⟨.sbc, 6, 0, .indx⟩
  | 0xE2 => some ⟨.nop, 2, 0, .imm⟩
  | 0xE3 => some ⟨.isc, 8, 0, .indx⟩
  | 0xE4 => some ⟨.cpx, 3, 0, .zp⟩
  | 0xE5 => some ⟨.sbc, 3, 0, .zp⟩
  | 0xE6 => some ⟨.inc, 5, 0, .zp⟩
  | 0xE7 => some ⟨.isc, 5, 0, .zp⟩
  | 0xE8 => some ⟨.inx, 2, 0, .imp⟩
  | 0xE9 => some ⟨.sbc, 2, 0, .imm⟩
  | 0xEA => some ⟨.nop, 2, 0, .imp⟩
  | 0xEB => some ⟨.sbc, 2, 0, .imm⟩
  | 0xEC => some ⟨.cpx, 4, 0, .abs⟩
  | 0xED => some ⟨.sbc, 4, 0, .abs⟩
  | 0xEE => some ⟨.inc, 6, 0, .abs⟩
  | 0xEF => some ⟨.isc, 6, 0, .abs⟩
  | 0xF0 => some ⟨.beq, 2, 0, .imm⟩
  | 0xF1 => some ⟨.sbc, 5, 1, .indy⟩
  | 0xF3 => some ⟨.isc, 8, 0, .indy⟩
  | 0xF4 => some ⟨.nop, 4, 0, .zpx⟩
  | 0xF5 => some ⟨.sbc, 4, 0, .zpx⟩
  | 0xF6 => some ⟨.inc, 6, 0, .zpx⟩
  | 0xF7 => some ⟨.isc, 6, 0, .zpx⟩
  | 0xF8 => some ⟨.sed, 2, 0, .imp⟩
  | 0xF9 => some ⟨.sbc, 4, 1, .absy⟩
  | 0xFA => some ⟨.nop, 2, 0, .imp⟩
  | 0xFB => some ⟨.isc, 7, 0, .absy⟩
  | 0xFC => some ⟨.nop, 4, 1, .absx⟩
  | 0xFD => some ⟨.sbc, 4, 1, .absx⟩
  | 0xFE => some ⟨.inc, 7, 0, .absx⟩
  | 0xFF => some ⟨.isc, 7, 0, .absx⟩
  | _ => none

/-- Resolve the operand address for the decoded entry (Go
readAddressOfOperand). -/
def readAddressOfOperand (bus : Bus σ) (op : OpcodeEntry) (c : CPUState)
    (m : σ) : CPUState × σ :=
  match op.addressing with
  | .bad => (c, m)
  | .imp => (c, m)
  | .imm => (addrIMM c, m)
  | .zp => addrZP bus c m
  | .zpx => addrZPX bus c m
  | .zpy => addrZPY bus c m
  | .abs => addrABS bus c m
  | .absx => addrABSX bus op.extraCycles c m
  | .absy => addrABSY bus op.extraCycles c m
  | .ind => addrIND bus c m
  | .indy => addrINDY bus op.extraCycles c m
  | .indx => addrINDX bus c m

/-- Interpret one instruction (Go Interpret).  Returns none for an unknown
opcode (Go panics), otherwise the new state and the cycle count. -/
def Interpret (bus : Bus σ) (c : CPUState) (m : σ) :
    Option (CPUState × σ × Nat) :=
  let c0 := {c with clockCycles := 0}
  let r := readPC8 bus c0 m
  match opTable r.1 with
  | none => none
  | some op =>
    let s1 := readAddressOfOperand bus op r.2.1 r.2.2
    let c2 := {s1.1 with clockCycles := s1.1.clockCycles + op.cycles}
    let s3 := execOp op.name bus c2 s1.2
    some (s3.1, s3.2, s3.1.clockCycles)

/-- Non-maskable interrupt (Go NMI): push pc and status, set I, load the NMI
vector; always reports 7 cycles. -/
def NMI (bus : Bus σ) (c : CPUState) (m : σ) : CPUState × σ × Nat :=
  let c0 := {c with clockCycles := 0}
  let p := pushWord bus c0 m c0.pc
  let p2 := push bus p.1 p.2 (p.1.st % 256)
  let c1 := set p2.1 I true
  let rl := read8 bus p2.2 vectorNMI
  let rh := read8 bus rl.2 (vectorNMI + 1)
  ({c1 with pc := rl.1 ||| (rh.1 <<< 8)}, rh.2, 7)

/-- Reset (Go Reset): reload pc from the reset vector; then the Go source
performs sp |= I and sp -= 3 (note: it is sp, not st, that is OR-ed). -/
def Reset (bus : Bus σ) (c : CPUState) (m : σ) : CPUState × σ :=
  let rl := read8 bus m vectorReset
  let rh := read8 bus rl.2 (vectorReset + 1)
  ({c with pc := rl.1 ||| (rh.1 <<< 8),
           sp := ((c.sp ||| I) + 253) % 256,
           opRawAddr := 0, opAddr := 0, clockCycles := 0}, rh.2)

/-- Power-on state (Go NewCPU). -/
def NewCPU (bus : Bus σ) (m : σ) : CPUState × σ :=
  let rl := read8 bus m vectorReset
  let rh := read8 bus rl.2 (vectorReset + 1)
  ({ ac := 0, xr := 0, yr := 0, st := 0x34, sp := 0xfd,
     pc := rl.1 ||| (rh.1 <<< 8),
     opRawAddr := 0, opAddr := 0, clockCycles := 0}, rh.2)

/-- A simple function-backed bus: reads return the stored byte, writes update
the function and report no extra cycles.  Used to observe the bytes the CPU
stores (e.g. what lands on the stack). -/
def fnBus : Bus (Nat → Nat) where
  read := fun m a => (m a % 256, m)
  write := fun m a v => (fun j => if j = a then v % 256 else m j, 0)

/-
  PPU embedding (Go package ppu).  The cart mapper seen from the PPU is a
  record of functions over an abstract mapper state; ReadPPU has no side
  effects in the source, WritePPU updates the mapper.  The host window and
  the global 64-entry RGB palette table (defined in a source file that is
  not part of this repository snapshot's sources) are abstracted: pixel
  output is recorded as trace events carrying the rgb triple produced by a
  palette-table parameter.
-/

/-- The PPU's view of the cart mapper (Go mapper.Mapper, PPU side). -/
structure PPUIO (μ : Type) where
  readPPU : μ → Nat → Nat
  writePPU : μ → Nat → Nat → μ

/-- PPU state (Go struct PPU, without the mapper/window handles and the
debug flag). -/
structure PPUState where
  pal : Nat → Nat
  oamData : Nat → Nat
  ppuCtrl : Nat
  ppuMask : Nat
  ppuStatus : Nat
  oamAddr : Nat
  loopyT : Nat
  loopyV : Nat
  loopyX : Nat
  addressLatch : Nat
  bufferedReadData : Nat
  scanLineCounter : Nat

/-- Go consts DisplayWidth/DisplayHeight. -/
def DisplayWidth : Nat := 256
def DisplayHeight : Nat := 240

/-- PPU register CPU-space addresses (Go consts PPUCTRL..PPUDATA). -/
def PPUCTRL : Nat := 0x2000
def PPUMASK : Nat := 0x2001
def PPUSTATUS : Nat := 0x2002
def OAMADDR : Nat := 0x2003
def OAMDATA : Nat := 0x2004
def PPUSCROLL : Nat := 0x2005
def PPUADDR : Nat := 0x2006
def PPUDATA : Nat := 0x2007

/-- Is background rendering enabled? (Go shouldRenderBackground). -/
def shouldRenderBackground (ppu : PPUState) : Bool :=
  ppu.ppuMask &&& 8 == 8

/-- Is sprite rendering enabled? (Go shouldRenderSprites). -/
def shouldRenderSprites (ppu : PPUState) : Bool :=
  ppu.ppuMask &&& 0x10 == 0x10

/-- Does the palette entry correspond to the background color? (Go isBG). -/
def isBG (palIndex : Nat) : Bool :=
  palIndex &&& 3 == 0

/-- Extract the x-th pixel (x in [0,8)) from the two bitplane bytes of one
tile row (Go getPixel).  The Go shifts are on bytes, hence the % 256. -/
def getPixel (tileBit0 tileBit1 x : Nat) : Nat :=
  let out := (tileBit0 >>> (7 - x)) &&& 1
  if x = 7 then out ||| (2 &&& ((tileBit1 <<< 1) % 256))
  else out ||| (2 &&& (tileBit1 >>> (6 - x)))

/-- Observable events of one RenderScanLine call: the copy into loopyV, the
VRAM fetches issued to the mapper, and the pixels written to the window
(Go: the loopyV assignment, cartMapper.ReadPPU calls, window.SetPixel
calls). -/
inductive PEvent where
  | assignV (v : Nat)
  | fetch (addr : Nat)
  | px (x y : Nat) (rgb : Nat × Nat × Nat)
deriving Repr, DecidableEq

/-- The loopyV value installed at the start of a rendered scanline: a full
copy of loopyT on scanline 0, only the 0x041f bits otherwise (Go
RenderScanLine, first if/else; Go ^0x041f on uint16 is 0xfbe0). -/
def loopyVAtRenderStart (ppu : PPUState) : Nat :=
  if ppu.scanLineCounter = 0 then ppu.loopyT
  else (ppu.loopyV &&& 0xfbe0) ||| (ppu.loopyT &&& 0x041f)

/-- One column of the background subrender (the body of the 256-iteration
loop in Go renderBackground).  ptBaseAddr is computed once by the caller. -/
def renderBackgroundStep (rd : Nat → Nat) (ptBaseAddr : Nat)
    (acc : PPUState × (Nat → Nat) × List PEvent) (i : Nat) :
    PPUState × (Nat → Nat) × List PEvent :=
  let ppu := acc.1
  let out := acc.2.1
  let evs := acc.2.2
  let tileAddr := 0x2000 ||| (ppu.loopyV &&& 0x0fff)
  let tileNoToRender := rd tileAddr % 256
  let tileYOffset := 7 &&& (ppu.loopyV >>> 12)
  let bit0Addr := ptBaseAddr + tileNoToRender * 16 + tileYOffset
  let tileBit0 := rd bit0Addr % 256
  let tileBit1 := rd (bit0Addr + 8) % 256
  let val0 := getPixel tileBit0 tileBit1 ppu.loopyX
  let attrAddr := 0x23c0 ||| (ppu.loopyV &&& 0x0c00) |||
    ((ppu.loopyV >>> 4) &&& 0x38) ||| ((ppu.loopyV >>> 2) &&& 0x07)
  let attrByte0 := rd attrAddr % 256
  let attrXOffset := ppu.loopyX ||| ((ppu.loopyV &&& 3) <<< 3)
  let attrYOffset := tileYOffset ||| (((ppu.loopyV >>> 2) % 256) &&& 0x18)
  let attrByte1 := if attrYOffset < 16 then attrByte0 &&& 0xf else attrByte0 >>> 4
  let attrByte2 := if attrXOffset < 16 then (attrByte1 <<< 2) % 256 else attrByte1
  let val := val0 ||| (attrByte2 &&& 0xC)
  let out1 :=
    if 8 ≤ i then (fun j => if j = i then val else out j)
    else if ppu.ppuMask &&& 2 = 2 then (fun j => if j = i then val else out j)
    else out
  let ppu1 :=
    if ppu.loopyX < 7 then {ppu with loopyX := ppu.loopyX + 1}
    else
      if ppu.loopyV &&& 0x1f = 0x1f then
        {ppu with loopyX := 0, loopyV := (ppu.loopyV &&& 0xffe0) ^^^ 0x0400}
      else
        {ppu with loopyX := 0, loopyV := (ppu.loopyV + 1) % 65536}
  (ppu1, out1,
    evs ++ [.fetch tileAddr, .fetch bit0Addr, .fetch (bit0Addr + 8), .fetch attrAddr])

/-- The fine-Y / coarse-Y increment after a background row (the tail of Go
renderBackground; Go ^0x7000 = 0x8fff, ^0x03e0 = 0xfc1f). -/
def bgIncrementFineY (ppu : PPUState) : PPUState :=
  if ppu.loopyV &&& 0x7000 ≠ 0x7000 then
    {ppu with loopyV := (ppu.loopyV + 0x1000) % 65536}
  else
    let v0 := ppu.loopyV &&& 0x8fff
    let y := (v0 &&& 0x03e0) >>> 5
    let v1 := if y = 29 then v0 ^^^ 0x800 else v0
    let y1 := if y = 29 then 0 else if y = 31 then 0 else y + 1
    {ppu with loopyV := (v1 &&& 0xfc1f) ||| (y1 <<< 5)}

/-- Background subrender (Go renderBackground): 256 columns into a fresh
zero row, then the fine-Y increment.  Returns the state, the row of palette
indices, and the fetch trace. -/
def renderBackground (rd : Nat → Nat) (ppu : PPUState) :
    PPUState × (Nat → Nat) × List PEvent :=
  let ptBaseAddr := if ppu.ppuCtrl &&& 0x10 = 0x10 then 0x1000 else 0x0000
  let r := (List.range DisplayWidth).foldl (renderBackgroundStep rd ptBaseAddr)
    (ppu, fun _ => 0, [])
  (bgIncrementFineY r.1, r.2.1, r.2.2)

/-- Sprite height (Go renderSprites, spriteSize). -/
def spriteSize (ppu : PPUState) : Nat :=
  if ppu.ppuCtrl &&& 0x20 = 0x20 then 16 else 8

/-- y coordinate of sprite i: OAM byte 0 plus one (Go yCoord). -/
def spriteY (ppu : PPUState) (i : Nat) : Nat :=
  ppu.oamData (i * 4) % 256 + 1

/-- Attribute byte of sprite i (OAM byte 2). -/
def spriteAttr (ppu : PPUState) (i : Nat) : Nat :=
  ppu.oamData (i * 4 + 2) % 256

/-- Screen x position of sprite i (OAM byte 3). -/
def spriteXPos (ppu : PPUState) (i : Nat) : Nat :=
  ppu.oamData (i * 4 + 3) % 256

/-- Is the current scanline inside sprite i? (the two skip guards in Go
renderSprites). -/
def spriteOnScanline (ppu : PPUState) (i : Nat) : Bool :=
  decide (spriteY ppu i ≤ ppu.scanLineCounter) &&
    decide (ppu.scanLineCounter < spriteY ppu i + spriteSize ppu)

/-- Pattern-table base and (for 8x16 sprites, low-bit-stripped) tile number
of sprite i (Go renderSprites, ptBaseAddr / tileNoToRender selection). -/
def spriteTileAndBase (ppu : PPUState) (i : Nat) : Nat × Nat :=
  let tileNo := ppu.oamData (i * 4 + 1) % 256
  if spriteSize ppu = 8 then
    (if ppu.ppuCtrl &&& 8 = 8 then 0x1000 else 0, tileNo)
  else
    if tileNo &&& 1 = 0 then (0, tileNo) else (0x1000, tileNo &&& 0xfffe)

/-- The tile actually fetched and the row inside it, after vertical flip and
8x16 adjustment (Go renderSprites, tileYOffset computation). -/
def spriteTileRow (ppu : PPUState) (i : Nat) : Nat × Nat :=
  let tileNo := (spriteTileAndBase ppu i).2
  let attr := spriteAttr ppu i
  let yCoord := spriteY ppu i
  if attr &&& 0x80 = 0x80 then
    if spriteSize ppu = 8 then (tileNo, 7 - (ppu.scanLineCounter - yCoord))
    else
      let yOffset := ppu.scanLineCounter - yCoord
      if yOffset < 8 then (tileNo + 1, 7 - yOffset)
      else (tileNo, 15 - yOffset)
  else
    let t := ppu.scanLineCounter - yCoord
    if spriteSize ppu = 16 ∧ 7 < t then (tileNo + 1, t - 8)
    else (tileNo, t)

/-- Address of bitplane 0 for sprite i's row (Go bit0addr). -/
def spritePatternAddr (ppu : PPUState) (i : Nat) : Nat :=
  (spriteTileAndBase ppu i).1 + (spriteTileRow ppu i).2 +
    (spriteTileRow ppu i).1 * 16

/-- The palette-row value sprite i contributes at tile column x (Go val). -/
def spritePix (rd : Nat → Nat) (ppu : PPUState) (i x : Nat) : Nat :=
  getPixel (rd (spritePatternAddr ppu i) % 256)
    (rd (spritePatternAddr ppu i + 8) % 256) x |||
    ((spriteAttr ppu i &&& 3) <<< 2)

/-- Output x position of sprite i's tile column x, honouring horizontal
flip (Go xout). -/
def spriteXOut (ppu : PPUState) (i x : Nat) : Nat :=
  if spriteAttr ppu i &&& 0x40 = 0x40 then spriteXPos ppu i + (7 - x)
  else spriteXPos ppu i + x

/-- One pixel of one sprite (the body of the inner x loop of Go
renderSprites).  The accumulator is (sprite row, priority row, ppuStatus). -/
def renderSpritePixel (ppu : PPUState) (background : Nat → Nat) (i : Nat)
    (tileBit0 tileBit1 : Nat) (acc : (Nat → Nat) × (Nat → Bool) × Nat)
    (x : Nat) : (Nat → Nat) × (Nat → Bool) × Nat :=
  let out := acc.1
  let prio := acc.2.1
  let status := acc.2.2
  let xout := spriteXOut ppu i x
  if 256 ≤ xout then acc
  else if ppu.ppuMask &&& 4 = 0 ∧ xout < 8 then acc
  else if isBG (out xout) = false then acc
  else
    let val := getPixel tileBit0 tileBit1 x ||| ((spriteAttr ppu i &&& 3) <<< 2)
    let prio1 := fun j => if j = xout then spriteAttr ppu i &&& 0x20 == 0 else prio j
    let out1 := fun j => if j = xout then val else out j
    let status1 :=
      if i = 0 ∧ xout < 255 ∧ isBG val = false ∧ isBG (background xout) = false
      then status ||| 0x40 else status
    (out1, prio1, status1)

/-- One sprite of the sprite subrender (the body of the outer 64-iteration
loop of Go renderSprites).  The accumulator also carries the fetch trace. -/
def renderSpriteStep (rd : Nat → Nat) (ppu : PPUState) (background : Nat → Nat)
    (acc : (Nat → Nat) × (Nat → Bool) × Nat × List PEvent) (i : Nat) :
    (Nat → Nat) × (Nat → Bool) × Nat × List PEvent :=
  if ppu.scanLineCounter < spriteY ppu i then acc
  else if spriteY ppu i + spriteSize ppu ≤ ppu.scanLineCounter then acc
  else
    let bit0addr := spritePatternAddr ppu i
    let tileBit0 := rd bit0addr % 256
    let tileBit1 := rd (bit0addr + 8) % 256
    let inner := (List.range 8).foldl
      (renderSpritePixel ppu background i tileBit0 tileBit1)
      (acc.1, acc.2.1, acc.2.2.1)
    (inner.1, inner.2.1, inner.2.2,
      acc.2.2.2 ++ [.fetch bit0addr, .fetch (bit0addr + 8)])

/-- Sprite subrender (Go renderSprites): 64 sprites, highest priority first.
Returns the state (only ppuStatus can change, by the sprite-0 hit), the
sprite row, the priority row, and the fetch trace. -/
def renderSprites (rd : Nat → Nat) (ppu : PPUState) (background : Nat → Nat) :
    PPUState × (Nat → Nat) × (Nat → Bool) × List PEvent :=
  let r := (List.range 64).foldl (renderSpriteStep rd ppu background)
    ((fun _ => 0), (fun _ => false), ppu.ppuStatus, [])
  ({ppu with ppuStatus := r.2.2.1}, r.1, r.2.1, r.2.2.2)

/-- Merge rule for one pixel (the background/sprite priority table in Go
RenderScanLine). -/
def mergePixel (background sprites : Nat → Nat) (prio : Nat → Bool) (i : Nat) :
    Nat :=
  if isBG (background i) then
    (if isBG (sprites i) then 0 else 0x10 + sprites i)
  else if isBG (sprites i) then background i
  else (if prio i then 0x10 + sprites i else background i)

/-- Render one scanline (Go RenderScanLine).  rd is the mapper's ReadPPU,
pal64 the global RGB palette table.  Returns the new PPU state and the event
trace (loopyV copy, fetches, pixels, in program order). -/
def RenderScanLine (rd : Nat → Nat) (pal64 : Nat → Nat × Nat × Nat)
    (ppu : PPUState) : PPUState × List PEvent :=
  if shouldRenderBackground ppu = false ∧ shouldRenderSprites ppu = false then
    let bg := pal64 (ppu.pal 0 % 256)
    let evs := (List.range DisplayWidth).map
      (fun i => PEvent.px i ppu.scanLineCounter bg)
    ({ppu with scanLineCounter := (ppu.scanLineCounter + 1) % 65536}, evs)
  else
    let v1 := loopyVAtRenderStart ppu
    let p1 := {ppu with loopyV := v1}
    let rb := if shouldRenderBackground p1 then renderBackground rd p1
              else (p1, fun _ => 0, [])
    let p2 := rb.1
    let background := rb.2.1
    let rs := if shouldRenderSprites p2 then renderSprites rd p2 background
              else (p2, fun _ => 0, fun _ => false, [])
    let p3 := rs.1
    let sprites := rs.2.1
    let prio := rs.2.2.1
    let evMerge := (List.range DisplayWidth).map (fun i =>
      PEvent.px i p3.scanLineCounter
        (pal64 (p3.pal (mergePixel background sprites prio i) % 256)))
    ({p3 with scanLineCounter := (p3.scanLineCounter + 1) % 65536},
      PEvent.assignV v1 :: (rb.2.2 ++ rs.2.2.2 ++ evMerge))

/-- Post-increment of loopyV after a PPUDATA access (Go incVRAMAddress). -/
def incVRAMAddress (ppu : PPUState) : PPUState :=
  if ppu.ppuCtrl &&& 4 = 0 then {ppu with loopyV := (ppu.loopyV + 1) % 65536}
  else {ppu with loopyV := (ppu.loopyV + 32) % 65536}

/-- CPU read of a PPU register (Go ReadRegister); none is the Go panic on an
address whose masked form hits no register (addresses below 0x2000). -/
def ReadRegister (io : PPUIO μ) (ppu : PPUState) (mm : μ) (mmioreg : Nat) :
    Option (Nat × PPUState) :=
  let reg := mmioreg &&& 0x2007
  if reg = PPUCTRL then some (ppu.ppuCtrl % 256, ppu)
  else if reg = PPUMASK then some (ppu.ppuMask % 256, ppu)
  else if reg = PPUSTATUS then
    some (ppu.ppuStatus % 256,
      {ppu with ppuStatus := ppu.ppuStatus &&& 0x7f, addressLatch := 0})
  else if reg = OAMADDR then some (ppu.oamAddr % 256, ppu)
  else if reg = OAMDATA then some (ppu.oamData (ppu.oamAddr % 256) % 256, ppu)
  else if reg = PPUSCROLL then some (0, ppu)
  else if reg = PPUADDR then some (0, ppu)
  else if reg = PPUDATA then
    if ppu.loopyV < 0x3f00 then
      some (ppu.bufferedReadData % 256,
        incVRAMAddress {ppu with bufferedReadData := io.readPPU mm ppu.loopyV % 256})
    else
      some (ppu.pal (ppu.loopyV &&& 0x1f) % 256, incVRAMAddress ppu)
  else none

/-- CPU write of a PPU register (Go WriteRegister); none is the Go panic, as
in ReadRegister.  Go's mask complements: ^0x0c00 = 0xf3ff, ^0x1f = 0xffe0,
^0x73e0 = 0x8c1f. -/
def WriteRegister (io : PPUIO μ) (ppu : PPUState) (mm : μ) (mmioreg val : Nat) :
    Option (PPUState × μ) :=
  let reg := mmioreg &&& 0x2007
  if reg = PPUCTRL then
    some ({ppu with
      ppuCtrl := val % 256,
      loopyT := (ppu.loopyT &&& 0xf3ff) ||| ((val &&& 3) <<< 10)}, mm)
  else if reg = PPUMASK then some ({ppu with ppuMask := val % 256}, mm)
  else if reg = PPUSTATUS then some (ppu, mm)
  else if reg = OAMADDR then some ({ppu with oamAddr := val % 256}, mm)
  else if reg = OAMDATA then
    some ({ppu with
      oamData := fun j => if j = ppu.oamAddr % 256 then val % 256 else ppu.oamData j,
      oamAddr := (ppu.oamAddr + 1) % 256}, mm)
  else if reg = PPUSCROLL then
    if ppu.addressLatch = 0 then
      some ({ppu with
        loopyX := val &&& 7,
        loopyT := (ppu.loopyT &&& 0xffe0) ||| (0x1f &&& ((val % 256) >>> 3)),
        addressLatch := 1}, mm)
    else
      some ({ppu with
        loopyT := (ppu.loopyT &&& 0x8c1f) ||| ((val &&& 7) <<< 12) ||| ((val &&& 0xf8) <<< 2),
        addressLatch := 0}, mm)
  else if reg = PPUADDR then
    if ppu.addressLatch = 0 then
      some ({ppu with
        loopyT := (ppu.loopyT &&& 0x00ff) ||| ((val &&& 0x3f) <<< 8),
        addressLatch := 1}, mm)
    else
      let t := (ppu.loopyT &&& 0xff00) ||| (val % 256)
      some ({ppu with loopyT := t, loopyV := t, addressLatch := 0}, mm)
  else if reg = PPUDATA then
    if ppu.loopyV < 0x3f00 then
      some (incVRAMAddress ppu, io.writePPU mm ppu.loopyV (val % 256))
    else
      let addr := ppu.loopyV &&& 0x1f
      let v6 := val &&& 0x3f
      let pal1 := fun j => if j = addr then v6 else ppu.pal j
      let pal2 := if addr &&& 3 = 0
                  then (fun j => if j = (addr ^^^ 0x10) then v6 else pal1 j)
                  else pal1
      some (incVRAMAddress {ppu with pal := pal2}, mm)
  else none

/-- Bulk 256-byte copy into OAM (Go SpriteDMA). -/
def SpriteDMA (ppu : PPUState) (src : Nat → Nat) : PPUState :=
  {ppu with oamData := fun i => if i < 256 then src i % 256 else ppu.oamData i}

/-- Enter VBlank: set PPUSTATUS bit 7 and report whether an NMI is wanted
(Go EnterVBlankShouldNMI). -/
def EnterVBlankShouldNMI (ppu : PPUState) : Bool × PPUState :=
  (ppu.ppuCtrl &&& 0x80 == 0x80, {ppu with ppuStatus := ppu.ppuStatus ||| 0x80})

/-- Exit VBlank: clear the sprite-0 hit and VBlank flags, restart at
scanline 0 (Go ExitVBlank). -/
def ExitVBlank (ppu : PPUState) : PPUState :=
  {ppu with ppuStatus := ppu.ppuStatus &&& 0x3f, scanLineCounter := 0}

/-- The operations of the PPU's public interface, for stating properties
quantified over all PPU operations. -/
inductive PPUOp where
  | readReg (a : Nat)
  | writeReg (a v : Nat)
  | spriteDMA (src : Nat → Nat)
  | enterVBlank
  | exitVBlank
  | renderScanLine

/-- Apply one PPU operation to the PPU and mapper state. -/
def applyPPU (io : PPUIO μ) (pal64 : Nat → Nat × Nat × Nat) (op : PPUOp)
    (ppu : PPUState) (mm : μ) : Option (PPUState × μ) :=
  match op with
  | .readReg a => (ReadRegister io ppu mm a).map (fun r => (r.2, mm))
  | .writeReg a v => WriteRegister io ppu mm a v
  | .spriteDMA src => some (SpriteDMA ppu src, mm)
  | .enterVBlank => some ((EnterVBlankShouldNMI ppu).2, mm)
  | .exitVBlank => some (ExitVBlank ppu, mm)
  | .renderScanLine =>
    some ((RenderScanLine (fun a => io.readPPU mm a) pal64 ppu).1, mm)

/-- The background row a RenderScanLine call merges against: rendered from
the loopyV-merged state when background rendering is on, all zero (the Go
zero array) otherwise. -/
def bgRowOf (rd : Nat → Nat) (ppu : PPUState) : Nat → Nat :=
  let p1 := {ppu with loopyV := loopyVAtRenderStart ppu}
  if shouldRenderBackground p1 then (renderBackground rd p1).2.1
  else fun _ => 0

/-- Sprite 0 produces a non-background pixel over a non-background
background pixel left of column 255: the situation in which (and only in
which) RenderScanLine may set the sprite-0 hit flag. -/
def sprite0HitCondition (rd : Nat → Nat) (ppu : PPUState)
    (background : Nat → Nat) : Prop :=
  ∃ x, x < 8 ∧ spriteOnScanline ppu 0 = true ∧ spriteXOut ppu 0 x < 255 ∧
    isBG (spritePix rd ppu 0 x) = false ∧
    isBG (background (spriteXOut ppu 0 x)) = false

/-
  The NES CPU bus (Go NESMemory, package emu) and the cart mappers
  (Go package mapper).
-/

/-- The CPU-side mapper interface (Go mapper.Mapper, CPU side). -/
structure MapperIO (μ : Type) where
  readCPU : μ → Nat → Nat
  writeCPU : μ → Nat → Nat → μ × Nat

/-- Logical button ids (Go wrapper consts, declared with iota). -/
def KEY_UP_1 : Nat := 0
def KEY_DOWN_1 : Nat := 1
def KEY_LEFT_1 : Nat := 2
def KEY_RIGHT_1 : Nat := 3
def KEY_SELECT_1 : Nat := 4
def KEY_START_1 : Nat := 5
def KEY_B_1 : Nat := 6
def KEY_A_1 : Nat := 7

/-- Controller read order (Go keyReadOrder). -/
def keyReadOrder : List Nat :=
  [KEY_A_1, KEY_B_1, KEY_SELECT_1, KEY_START_1,
   KEY_UP_1, KEY_DOWN_1, KEY_LEFT_1, KEY_RIGHT_1]

/-- The bus-owned state (Go struct NESMemory: the 2 KiB RAM, the controller
read cursor, and the PPU it forwards MMIO to; the mapper state is the
abstract μ). -/
structure NESMem where
  ram : Nat → Nat
  currentKeyRead : Nat
  ppu : PPUState

/-- CPU bus read (Go NESMemory.Read).  input answers IsKeyPressed. -/
def busRead (cio : MapperIO μ) (pio : PPUIO μ) (input : Nat → Bool)
    (s : NESMem) (mm : μ) (addr : Nat) : Option (Nat × NESMem × μ) :=
  if addr < 0x2000 then some (s.ram (addr &&& 0x7ff) % 256, s, mm)
  else if addr < 0x4000 then
    (ReadRegister pio s.ppu mm addr).map (fun r => (r.1, {s with ppu := r.2}, mm))
  else if addr < 0x4018 then
    if addr ≠ 0x4016 then some (0, s, mm)
    else if 8 ≤ s.currentKeyRead then some (1, s, mm)
    else
      let pressed := input (keyReadOrder.getD s.currentKeyRead 0)
      some (if pressed then 1 else 0,
        {s with currentKeyRead := s.currentKeyRead + 1}, mm)
  else some (cio.readCPU mm addr % 256, s, mm)

/-- CPU bus write (Go NESMemory.Write); returns the extra cycles.  none is
the Go panic: a sprite-DMA source page that runs past the 2 KiB RAM array
(val ≥ 8) makes the Go slice expression ram[start:start+256] abort. -/
def busWrite (cio : MapperIO μ) (pio : PPUIO μ) (s : NESMem) (mm : μ)
    (addr val : Nat) : Option ((NESMem × μ) × Nat) :=
  if addr < 0x2000 then
    some (({s with ram := fun j => if j = (addr &&& 0x7ff) then val % 256 else s.ram j},
      mm), 0)
  else if addr < 0x4000 then
    (WriteRegister pio s.ppu mm addr val).map (fun r => (({s with ppu := r.1}, r.2), 0))
  else if addr < 0x4018 then
    if 0x4000 ≤ addr ∧ addr ≤ 0x4013 then some ((s, mm), 0)
    else if addr = 0x4014 then
      let start := 0x100 * (val % 256)
      if start + 256 ≤ 0x800 then
        some (({s with ppu := SpriteDMA s.ppu (fun i => s.ram (start + i))}, mm), 513)
      else none
    else if addr = 0x4015 then some ((s, mm), 0)
    else if addr = 0x4016 then
      if val &&& 1 = 0 then some (({s with currentKeyRead := 0}, mm), 0)
      else some ((s, mm), 0)
    else some ((s, mm), 0)
  else
    let w := cio.writeCPU mm addr (val % 256)
    some (((s, w.1), w.2))

/-- Mirroring modes (Go nesfile consts). -/
def Horizontal : Nat := 0
def Vertical : Nat := 1
def FourScreen : Nat := 2

/-- The address space shared by every mapper (Go MapperAddressSpace).  The
two CPU page slots and the two pattern slots hold the functions the Go slice
headers point at; the four nametable slots record which of the two physical
banks each selects (false = bank 0). -/
structure MapperAddressSpace where
  cpuSram : Nat → Nat
  cpuPage0 : Nat → Nat
  cpuPage1 : Nat → Nat
  ppuPt0 : Nat → Nat
  ppuPt1 : Nat → Nat
  ppuPtIsROM : Bool
  ppuNts : Nat → Bool
  ppuNtBank0 : Nat → Nat
  ppuNtBank1 : Nat → Nat

/-- The Go zero value of MapperAddressSpace: everything zeroed. -/
def zeroMAS : MapperAddressSpace where
  cpuSram := fun _ => 0
  cpuPage0 := fun _ => 0
  cpuPage1 := fun _ => 0
  ppuPt0 := fun _ => 0
  ppuPt1 := fun _ => 0
  ppuPtIsROM := false
  ppuNts := fun _ => false
  ppuNtBank0 := fun _ => 0
  ppuNtBank1 := fun _ => 0

/-- Shared CPU-space read (Go MapperAddressSpace.ReadCPU); none is the Go
panic on addresses below 0x4018. -/
def masReadCPU (mas : MapperAddressSpace) (addr : Nat) : Option Nat :=
  if addr < 0x4018 then none
  else if addr < 0x6000 then some 0
  else if addr < 0x8000 then some (mas.cpuSram (addr &&& 0x1fff) % 256)
  else if addr < 0xc000 then some (mas.cpuPage0 (addr &&& 0x3fff) % 256)
  else some (mas.cpuPage1 (addr &&& 0x3fff) % 256)

/-- Nametable slot wiring from the iNES mirroring (Go setupNametables);
none is the Go panic on FourScreen and other modes. -/
def setupNametables (mas : MapperAddressSpace) (mirroring : Nat) :
    Option MapperAddressSpace :=
  if mirroring = Horizontal then
    some {mas with ppuNts := fun i => decide (2 ≤ i)}
  else if mirroring = Vertical then
    some {mas with ppuNts := fun i => decide (i % 2 = 1)}
  else none

/-- Mapper 0 (Go Mapper0): just the shared space. -/
structure Mapper0State where
  mas : MapperAddressSpace

/-- Go NewMapper0: first PRG bank at 0x8000, last at 0xc000 (none when the
cart has no PRG banks: Go indexes PrgRom[0]); CHR-ROM bank 0 split into the
two pattern slots, or CHR-RAM when absent. -/
def NewMapper0 (prgRom chrRom : List (Nat → Nat)) (mirroring : Nat) :
    Option Mapper0State :=
  match prgRom.head?, prgRom.getLast? with
  | some p0, some pLast =>
    let mas0 := {zeroMAS with cpuPage0 := p0, cpuPage1 := pLast}
    let mas1 :=
      match chrRom.head? with
      | none => {mas0 with ppuPt0 := fun _ => 0, ppuPt1 := fun _ => 0, ppuPtIsROM := false}
      | some c0 =>
        {mas0 with
          ppuPt0 := fun j => c0 j,
          ppuPt1 := fun j => c0 (j + 0x1000),
          ppuPtIsROM := true}
    (setupNametables mas1 mirroring).map (fun m => ⟨m⟩)
  | _, _ => none

/-- Go Mapper0.WriteCPU: no remapping. -/
def m0WriteCPU (m : Mapper0State) (_addr _val : Nat) : Option (Mapper0State × Nat) :=
  some (m, 0)

/-- Mapper 2 (Go Mapper2): shared space plus the PRG banks. -/
structure Mapper2State where
  mas : MapperAddressSpace
  prgRom : List (Nat → Nat)

/-- Go NewMapper2. -/
def NewMapper2 (prgRom : List (Nat → Nat)) (mirroring : Nat) :
    Option Mapper2State :=
  match prgRom.head?, prgRom.getLast? with
  | some p0, some pLast =>
    let mas0 := {zeroMAS with
      cpuPage0 := p0, cpuPage1 := pLast,
      ppuPt0 := fun _ => 0, ppuPt1 := fun _ => 0, ppuPtIsROM := false}
    (setupNametables mas0 mirroring).map (fun m => ⟨m, prgRom⟩)
  | _, _ => none

/-- Go Mapper2.WriteCPU: any write swaps the 16 KiB bank at 0x8000; none is
the Go panic when val indexes past the bank list. -/
def m2WriteCPU (m : Mapper2State) (_addr val : Nat) : Option (Mapper2State × Nat) :=
  match m.prgRom.get? (val % 256) with
  | none => none
  | some bank => some ({m with mas := {m.mas with cpuPage0 := bank}}, 0)

/-- Mapper 3 (Go Mapper3): shared space plus the CHR banks. -/
structure Mapper3State where
  mas : MapperAddressSpace
  chrRom : List (Nat → Nat)

/-- Go NewMapper3. -/
def NewMapper3 (prgRom chrRom : List (Nat → Nat)) (mirroring : Nat) :
    Option Mapper3State :=
  match prgRom.head?, prgRom.getLast?, chrRom.head? with
  | some p0, some pLast, some c0 =>
    let mas0 := {zeroMAS with
      cpuPage0 := p0, cpuPage1 := pLast,
      ppuPt0 := fun j => c0 j, ppuPt1 := fun j => c0 (j + 0x1000),
      ppuPtIsROM := true}
    (setupNametables mas0 mirroring).map (fun m => ⟨m, chrRom⟩)
  | _, _, _ => none

/-- Go Mapper3.WriteCPU: any write swaps the 8 KiB CHR bank at 0x0000, low
two bits of val; none is the Go panic on a missing bank. -/
def m3WriteCPU (m : Mapper3State) (_addr val : Nat) : Option (Mapper3State × Nat) :=
  match m.chrRom.get? (val &&& 3) with
  | none => none
  | some bank =>
    some ({m with mas := {m.mas with
      ppuPt0 := fun j => bank j,
      ppuPt1 := fun j => bank (j + 0x1000)}}, 0)

/-- Mapper 1 / MMC1 (Go Mapper1). -/
structure Mapper1State where
  mas : MapperAddressSpace
  prgRom : List (Nat → Nat)
  chrRom : List (Nat → Nat)
  shiftReg : Nat
  whichBit : Nat
  controlReg : Nat

/-- Go Mapper1.controlRegChanged: rewire the nametable slots from bits 0-1
of the control register. -/
def m1ControlRegChanged (m : Mapper1State) : Mapper1State :=
  let sel := m.controlReg &&& 3
  if sel = 0 then {m with mas := {m.mas with ppuNts := fun _ => false}}
  else if sel = 1 then {m with mas := {m.mas with ppuNts := fun _ => true}}
  else if sel = 2 then {m with mas := {m.mas with ppuNts := fun i => decide (i % 2 = 1)}}
  else {m with mas := {m.mas with ppuNts := fun i => decide (2 ≤ i)}}

/-- Go Mapper1.remapChr0.  With no CHR banks it does nothing; indexing is
mod the bank count and cannot fault. -/
def m1RemapChr0 (m : Mapper1State) : Mapper1State :=
  match m.chrRom.length with
  | 0 => m
  | _ + 1 =>
    let romIndex := (m.shiftReg >>> 1) % m.chrRom.length
    let bank := m.chrRom.getD romIndex (fun _ => 0)
    if m.controlReg &&& 0x10 = 0 then
      {m with mas := {m.mas with
        ppuPt0 := fun j => bank j,
        ppuPt1 := fun j => bank (j + 0x1000)}}
    else
      if m.shiftReg &&& 1 = 0 then
        {m with mas := {m.mas with ppuPt0 := fun j => bank j}}
      else
        {m with mas := {m.mas with ppuPt0 := fun j => bank (j + 0x1000)}}

/-- Go Mapper1.remapChr1: only acts in 4 KiB CHR mode; none is the Go
division by zero when the cart has no CHR banks. -/
def m1RemapChr1 (m : Mapper1State) : Option Mapper1State :=
  if m.controlReg &&& 0x10 = 0x10 then
    match m.chrRom.length with
    | 0 => none
    | _ + 1 =>
      let romIndex := (m.shiftReg >>> 1) % m.chrRom.length
      let bank := m.chrRom.getD romIndex (fun _ => 0)
      if m.shiftReg &&& 1 = 0 then
        some {m with mas := {m.mas with ppuPt1 := fun j => bank j}}
      else
        some {m with mas := {m.mas with ppuPt1 := fun j => bank (j + 0x1000)}}
  else some m

/-- Go Mapper1.remapPrg; none is a Go panic (bank index out of range in the
32 KiB modes) or division by zero (no PRG banks in the 16 KiB modes). -/
def m1RemapPrg (m : Mapper1State) : Option Mapper1State :=
  let sr := m.shiftReg &&& 0xf
  let m := {m with shiftReg := sr}
  let prgRomBankMode := (m.controlReg >>> 2) &&& 3
  if prgRomBankMode = 0 ∨ prgRomBankMode = 1 then
    let bankIndex := sr >>> 1
    match m.prgRom.get? (bankIndex * 2), m.prgRom.get? (bankIndex * 2 + 1) with
    | some b0, some b1 =>
      some {m with mas := {m.mas with cpuPage0 := b0, cpuPage1 := b1}}
    | _, _ => none
  else if prgRomBankMode = 2 then
    match m.prgRom.length with
    | 0 => none
    | _ + 1 =>
      let bank := m.prgRom.getD (sr % m.prgRom.length) (fun _ => 0)
      some {m with mas := {m.mas with cpuPage1 := bank}}
  else
    match m.prgRom.length with
    | 0 => none
    | _ + 1 =>
      let bank := m.prgRom.getD (sr % m.prgRom.length) (fun _ => 0)
      some {m with mas := {m.mas with cpuPage0 := bank}}

/-- Go Mapper1.WriteCPU: below 0x8000 store to SRAM; otherwise feed the
5-bit shift register, applying it on the fifth bit according to the address
range. -/
def m1WriteCPU (m : Mapper1State) (addr val : Nat) : Option (Mapper1State × Nat) :=
  if addr < 0x8000 then
    some ({m with mas := {m.mas with
      cpuSram := fun j => if j = (addr &&& 0x1fff) then val % 256 else m.mas.cpuSram j}}, 0)
  else if val &&& 0x80 = 0x80 then
    let m1 := m1ControlRegChanged {m with controlReg := m.controlReg ||| 0x0c}
    some ({m1 with shiftReg := 0, whichBit := 0}, 0)
  else
    let m1 := {m with
      shiftReg := (m.shiftReg ||| (((val &&& 1) <<< m.whichBit) % 256)) % 256,
      whichBit := (m.whichBit + 1) % 256}
    if m1.whichBit < 5 then some (m1, 0)
    else
      let m2 := {m1 with whichBit := 0}
      let r : Option Mapper1State :=
        if addr < 0xa000 then
          some (m1ControlRegChanged {m2 with controlReg := m2.shiftReg})
        else if addr < 0xc000 then some (m1RemapChr0 m2)
        else if addr < 0xe000 then m1RemapChr1 m2
        else m1RemapPrg m2
      r.map (fun m3 => ({m3 with shiftReg := 0}, 0))

/-
  Spec-side definitions and concrete instances used by the verification.
-/

/-- Modelled from the spec: the two's-complement value of a byte. -/
def signedByte (x : Nat) : Int :=
  if x % 256 < 128 then (x % 256 : Int) else (x % 256 : Int) - 256

/-- Modelled from the spec: signed overflow of A + M + C. -/
def adcOverflow (a md carry : Nat) : Prop :=
  signedByte a + signedByte md + carry < -128 ∨
    127 < signedByte a + signedByte md + carry

/-- Modelled from the spec: signed overflow of A - M - (1 - C). -/
def sbcOverflow (a md carry : Nat) : Prop :=
  signedByte a - signedByte md - (1 - (carry : Int)) < -128 ∨
    127 < signedByte a - signedByte md - (1 - (carry : Int))

/-- CPU states reachable from power-on through the CPU's public interface
(Interpret, NMI, Reset), against any bus. -/
inductive Reachable : CPUState → Prop where
  | init : ∀ (σ : Type) (bus : Bus σ) (m : σ), Reachable (NewCPU bus m).1
  | step : ∀ {c : CPUState}, Reachable c → ∀ (σ : Type) (bus : Bus σ) (m : σ)
      (r : CPUState × σ × Nat), Interpret bus c m = some r → Reachable r.1
  | nmi : ∀ {c : CPUState}, Reachable c → ∀ (σ : Type) (bus : Bus σ) (m : σ),
      Reachable (NMI bus c m).1
  | rst : ∀ {c : CPUState}, Reachable c → ∀ (σ : Type) (bus : Bus σ) (m : σ),
      Reachable (Reset bus c m).1

/-- A mapper that maps nothing: reads 0, writes ignored. -/
def trivMapperIO : MapperIO Unit := ⟨fun _ _ => 0, fun u _ _ => (u, 0)⟩

/-- A PPU-side mapper with all-zero VRAM. -/
def trivPPUIO : PPUIO Unit := ⟨fun _ _ => 0, fun u _ _ => u⟩

/-- A PPU-side mapper whose VRAM reads all return 0xff. -/
def onesPPUIO : PPUIO Unit := ⟨fun _ _ => 0xff, fun u _ _ => u⟩

/-- An arbitrary concrete palette table. -/
def pal64zero : Nat → Nat × Nat × Nat := fun _ => (0, 0, 0)

/-- The all-zero PPU state. -/
def zeroPPU : PPUState :=
  ⟨fun _ => 0, fun _ => 0, 0, 0, 0, 0, 0, 0, 0, 0, 0, 0⟩

/-- The all-zero bus state. -/
def zeroNESMem : NESMem := ⟨fun _ => 0, 0, zeroPPU⟩

/-- Bus state for the sprite-DMA scenario: RAM 0x0200..0x02ff holds
0..255. -/
def dmaMem : NESMem :=
  {zeroNESMem with ram := fun a => if 0x200 ≤ a ∧ a < 0x300 then a - 0x200 else 0}

/-- Memory for the indirect-JMP scenario: JMP ($C0FF) at 0xD000 with
0xC0FF = 0x00, 0xC000 = 0x23, 0xC100 = 0x80. -/
def memJmpBug : Nat → Nat := fun a =>
  if a = 0xd000 then 0x6c else if a = 0xd001 then 0xff
  else if a = 0xd002 then 0xc0 else if a = 0xc0ff then 0x00
  else if a = 0xc000 then 0x23 else if a = 0xc100 then 0x80 else 0

/-- CPU about to execute the indirect JMP at 0xD000. -/
def cpuJmpBug : CPUState := ⟨0, 0, 0, 0x24, 0xfd, 0xd000, 0, 0, 0⟩

/-- CPU state for exercising ADC/SBC: A = 0x50, carry clear, operand
address 0x9000. -/
def cpuAdcDemo : CPUState := ⟨0x50, 0, 0, 0x20, 0xfd, 0x8000, 0, 0x9000, 0⟩

/-- Memory for the ADC/SBC scenario: the operand byte is 0x50. -/
def memAdcDemo : Nat → Nat := fun a => if a = 0x9000 then 0x50 else 0

/-- CPU state for observing Reset: st = 0, sp = 0xF0. -/
def cpuResetDemo : CPUState := ⟨1, 2, 3, 0, 0xf0, 0x1234, 9, 9, 9⟩

/-- Memory whose reset vector holds 0x8000. -/
def memResetDemo : Nat → Nat := fun a =>
  if a = 0xfffc then 0x00 else if a = 0xfffd then 0x80 else 0

/-- PPU state for the scanline-0 reload scenario: loopyT = 0x7BE0,
loopyV = 0, scanline 0, background rendering enabled. -/
def ppuScroll : PPUState := {zeroPPU with loopyT := 0x7be0, ppuMask := 8}

/-- PPU state for the sprite-0 hit scenario: rendering fully enabled,
scanline 10, sprite 0 at (0, 10) with tile 0, every other sprite far below. -/
def ppuHit : PPUState :=
  {zeroPPU with
    ppuMask := 0x1e,
    scanLineCounter := 10,
    oamData := fun i => if i = 0 then 9 else if i < 4 then 0 else 0xf0}

/-- A 16 KiB PRG bank filled with 7, and an 8 KiB CHR bank filled with 9. -/
def prgBankDemo : Nat → Nat := fun _ => 7
def chrBankDemo : Nat → Nat := fun _ => 9

/-- A concrete mapper-0 cart (one PRG bank, CHR-RAM, horizontal). -/
def m0demo : Mapper0State :=
  ⟨{zeroMAS with cpuPage0 := prgBankDemo, cpuPage1 := prgBankDemo,
                 ppuNts := fun i => decide (2 ≤ i)}⟩

/-- A concrete mapper-1 cart. -/
def m1demo : Mapper1State :=
  ⟨{zeroMAS with cpuPage0 := prgBankDemo, cpuPage1 := prgBankDemo,
                 ppuNts := fun i => decide (2 ≤ i)},
   [prgBankDemo], [chrBankDemo], 0, 0, 0⟩

/-- A concrete mapper-2 cart. -/
def m2demo : Mapper2State :=
  ⟨{zeroMAS with cpuPage0 := prgBankDemo, cpuPage1 := prgBankDemo,
                 ppuNts := fun i => decide (2 ≤ i)},
   [prgBankDemo]⟩

/-- A concrete mapper-3 cart. -/
def m3demo : Mapper3State :=
  ⟨{zeroMAS with cpuPage0 := prgBankDemo, cpuPage1 := prgBankDemo,
                 ppuPt0 := fun j => chrBankDemo j,
                 ppuPt1 := fun j => chrBankDemo (j + 0x1000),
                 ppuPtIsROM := true,
                 ppuNts := fun i => decide (2 ≤ i)},
   [chrBankDemo]⟩

/-- Bus write observed only through the resulting memory (Go NesMemory.Write
with the returned extra cycles discarded), on the trivial cartridge. -/
def busWriteD (s : NESMem) (a v : Nat) : NESMem :=
  match busWrite trivMapperIO trivPPUIO s () a v with
  | some r => r.1.1
  | none => s

/-- Bus read observed only through the resulting memory (Go NesMemory.Read
with the returned value discarded), trivial cartridge, no buttons held. -/
def busReadD (s : NESMem) (a : Nat) : NESMem :=
  match busRead trivMapperIO trivPPUIO (fun _ => false) s () a with
  | some r => r.2.1
  | none => s

/-- Write 0 to 0x4016 (bit 0 clear), then read the controller port three
times, advancing the read cursor to 3. -/
def strobeSeq : NESMem :=
  busReadD (busReadD (busReadD (busWriteD zeroNESMem 0x4016 0) 0x4016) 0x4016) 0x4016

/-- A PPU whose VRAM address sits in palette space at palette index 0x10. -/
def ppuPalDemo : PPUState := {zeroPPU with loopyV := 0x3f10}

/-- The PPU after the CPU writes 0xff to PPUDATA in that state. -/
def ppuPalDemoAfter : PPUState :=
  match WriteRegister trivPPUIO ppuPalDemo () 0x2007 0xff with
  | some r => r.1
  | none => zeroPPU

/-- The PPU after one RenderScanLine in the sprite-0 hit scenario, reading
0xFF from every pattern address. -/
def ppuHitAfter : PPUState :=
  match applyPPU onesPPUIO pal64zero PPUOp.renderScanLine ppuHit () with
  | some r => r.1
  | none => zeroPPU

/-
  Theorems.  First general lemmas about the embedding, then one theorem per
  specification claim (with witnesses / counterexamples where required).
-/

theorem and_255_eq_mod (x : Nat) : x &&& 0xff = x % 256 :=
  Nat.and_pow_two_sub_one_eq_mod x 8

theorem and_128_ne (x : Nat) : x &&& 0x80 ≠ 0 ↔ x.testBit 7 = true := by
  rw [show (0x80 : Nat) = 2 ^ 7 by norm_num, Nat.and_two_pow]
  rcases h : x.testBit 7 <;> simp [h]

theorem set_ac (c : CPUState) (f : Nat) (b : Bool) : (NES.set c f b).ac = c.ac := by
  unfold NES.set; split <;> rfl

theorem set_xr (c : CPUState) (f : Nat) (b : Bool) : (NES.set c f b).xr = c.xr := by
  unfold NES.set; split <;> rfl

theorem set_yr (c : CPUState) (f : Nat) (b : Bool) : (NES.set c f b).yr = c.yr := by
  unfold NES.set; split <;> rfl

theorem set_sp (c : CPUState) (f : Nat) (b : Bool) : (NES.set c f b).sp = c.sp := by
  unfold NES.set; split <;> rfl

theorem set_pc (c : CPUState) (f : Nat) (b : Bool) : (NES.set c f b).pc = c.pc := by
  unfold NES.set; split <;> rfl

theorem set_opAddr (c : CPUState) (f : Nat) (b : Bool) :
    (NES.set c f b).opAddr = c.opAddr := by
  unfold NES.set; split <;> rfl

theorem set_opRawAddr (c : CPUState) (f : Nat) (b : Bool) :
    (NES.set c f b).opRawAddr = c.opRawAddr := by
  unfold NES.set; split <;> rfl

theorem set_clockCycles (c : CPUState) (f : Nat) (b : Bool) :
    (NES.set c f b).clockCycles = c.clockCycles := by
  unfold NES.set; split <;> rfl

theorem setZN_ac (c : CPUState) (r : Nat) : (NES.setZN c r).ac = c.ac := by
  unfold NES.setZN; split <;> split <;> rfl

theorem setZN_xr (c : CPUState) (r : Nat) : (NES.setZN c r).xr = c.xr := by
  unfold NES.setZN; split <;> split <;> rfl

theorem setZN_yr (c : CPUState) (r : Nat) : (NES.setZN c r).yr = c.yr := by
  unfold NES.setZN; split <;> split <;> rfl

theorem setZN_sp (c : CPUState) (r : Nat) : (NES.setZN c r).sp = c.sp := by
  unfold NES.setZN; split <;> split <;> rfl

theorem setZN_pc (c : CPUState) (r : Nat) : (NES.setZN c r).pc = c.pc := by
  unfold NES.setZN; split <;> split <;> rfl

theorem setZN_opAddr (c : CPUState) (r : Nat) : (NES.setZN c r).opAddr = c.opAddr := by
  unfold NES.setZN; split <;> split <;> rfl

theorem setZN_clockCycles (c : CPUState) (r : Nat) :
    (NES.setZN c r).clockCycles = c.clockCycles := by
  unfold NES.setZN; split <;> split <;> rfl

theorem isSet_set_C (c : CPUState) (b : Bool) :
    NES.isSet (NES.set c NES.C b) NES.C = b := by
  unfold NES.isSet NES.set NES.C
  rcases b
  · simp only [if_neg Bool.false_ne_true]
    have h : c.st &&& (0xff ^^^ 1) &&& 1 = 0 := by
      rw [Nat.and_assoc, show ((0xff : Nat) ^^^ 1) &&& 1 = 0 by decide, Nat.and_zero]
    simp [h]
  · simp only [if_pos rfl]
    have h : (c.st ||| 1) &&& 1 = 1 := by
      rw [show (1 : Nat) = 2 ^ 0 by rfl, Nat.and_two_pow]
      simp [Nat.testBit_or]
    simp [h]

theorem testBit_set_other (c : CPUState) (f : Nat) (b : Bool) (i : Nat)
    (hf : f.testBit i = false) (hi : i < 8) :
    ((NES.set c f b).st).testBit i = c.st.testBit i := by
  have h255 : (0xff : Nat).testBit i = true := by
    rw [show (0xff : Nat) = 2 ^ 8 - 1 by norm_num, Nat.testBit_two_pow_sub_one]
    simpa using hi
  unfold NES.set
  rcases b <;>
    simp [Nat.testBit_or, Nat.testBit_and, Nat.testBit_xor, hf, h255]

theorem testBit_setZN_other (c : CPUState) (r i : Nat)
    (h2 : (NES.Z).testBit i = false) (h8 : (NES.N).testBit i = false) (hi : i < 8) :
    ((NES.setZN c r).st).testBit i = c.st.testBit i := by
  have h255 : (0xff : Nat).testBit i = true := by
    rw [show (0xff : Nat) = 2 ^ 8 - 1 by norm_num, Nat.testBit_two_pow_sub_one]
    simpa using hi
  unfold NES.setZN
  split <;> split <;>
    simp [Nat.testBit_or, Nat.testBit_and, Nat.testBit_xor, h2, h8, h255]

theorem testBit6_set_V (c : CPUState) (b : Bool) :
    ((NES.set c NES.V b).st).testBit 6 = b := by
  have h1 : Nat.testBit 191 6 = false := by decide
  have h2 : Nat.testBit 64 6 = true := by decide
  unfold NES.set NES.V
  rcases b <;> simp [Nat.testBit_or, Nat.testBit_and, Nat.testBit_xor, h1, h2]

theorem opAdc_ac_eq (c : CPUState) (mem : Nat → Nat) :
    (NES.opAdc NES.fnBus c mem).1.ac =
      ((c.ac % 256) + mem c.opAddr % 256 +
        (if NES.isSet c NES.C then 1 else 0)) &&& 0xff := by
  unfold NES.opAdc NES.readOpData NES.read8 NES.fnBus
  simp [set_ac, setZN_ac]

theorem opAdc_opAddr_eq (c : CPUState) (mem : Nat → Nat) :
    (NES.opAdc NES.fnBus c mem).1.opAddr = c.opAddr := by
  unfold NES.opAdc NES.readOpData NES.read8 NES.fnBus
  simp [set_opAddr, setZN_opAddr]

theorem opAdc_st6 (c : CPUState) (mem : Nat → Nat) :
    ((NES.opAdc NES.fnBus c mem).1.st).testBit 6 =
      ((((c.ac % 256) ^^^
          ((c.ac % 256) + mem c.opAddr % 256 + (if NES.isSet c NES.C then 1 else 0))) &&&
        ((mem c.opAddr % 256) ^^^
          ((c.ac % 256) + mem c.opAddr % 256 + (if NES.isSet c NES.C then 1 else 0))) &&&
        0x80) != 0) := by
  unfold NES.opAdc NES.readOpData NES.read8 NES.fnBus
  simp only [Nat.mod_mod_of_dvd _ (dvd_refl 256)]
  rw [testBit_setZN_other _ _ _ (by decide) (by decide) (by decide),
    testBit_set_other _ _ _ _ (by decide) (by decide), testBit6_set_V]

theorem opSbc_ac_eq (c : CPUState) (mem : Nat → Nat) :
    (NES.opSbc NES.fnBus c mem).1.ac =
      (if !NES.isSet c NES.C then
        ((((c.ac % 256) + 65536 - mem c.opAddr % 256) % 65536) + 65535) % 65536
       else ((c.ac % 256) + 65536 - mem c.opAddr % 256) % 65536) &&& 0xff := by
  unfold NES.opSbc NES.readOpData NES.read8 NES.fnBus
  simp only [Nat.mod_mod_of_dvd _ (dvd_refl 256)]
  simp [set_ac, setZN_ac]

theorem opSbc_st6 (c : CPUState) (mem : Nat → Nat) :
    ((NES.opSbc NES.fnBus c mem).1.st).testBit 6 =
      ((((c.ac % 256) ^^^
          (if !NES.isSet c NES.C then
            ((((c.ac % 256) + 65536 - mem c.opAddr % 256) % 65536) + 65535) % 65536
           else ((c.ac % 256) + 65536 - mem c.opAddr % 256) % 65536)) &&&
        ((c.ac % 256) ^^^ (mem c.opAddr % 256)) &&& 0x80) != 0) := by
  unfold NES.opSbc NES.readOpData NES.read8 NES.fnBus
  simp only [Nat.mod_mod_of_dvd _ (dvd_refl 256)]
  rw [testBit_setZN_other _ _ _ (by decide) (by decide) (by decide),
    testBit_set_other _ _ _ _ (by decide) (by decide), testBit6_set_V]

theorem adc_v_iff (a md carry : Nat) (ha : a < 256) (hm : md < 256)
    (hc : carry ≤ 1) :
    ((a ^^^ (a + md + carry)) &&& (md ^^^ (a + md + carry)) &&& 0x80 ≠ 0) ↔
      adcOverflow a md carry := by
  rw [and_128_ne, Nat.testBit_and, Nat.testBit_xor, Nat.testBit_xor]
  simp only [Nat.testBit_to_div_mod, adcOverflow, signedByte,
    Nat.mod_eq_of_lt ha, Nat.mod_eq_of_lt hm, show (2 : Nat) ^ 7 = 128 by norm_num]
  rcases h1 : decide (a / 128 % 2 = 1) <;>
    rcases h2 : decide (md / 128 % 2 = 1) <;>
      rcases h3 : decide ((a + md + carry) / 128 % 2 = 1) <;>
        simp only [decide_eq_false_iff_not, decide_eq_true_eq] at h1 h2 h3 <;>
          simp only [Bool.xor_false, Bool.xor_true, Bool.false_and, Bool.true_and,
            Bool.and_false, Bool.and_true, Bool.not_true, Bool.not_false, Bool.and_self] <;>
            simp only [show (false = true) = False by simp, show (true = true) = True by simp,
              false_iff, true_iff, not_or, not_lt] <;>
              split_ifs <;> omega

theorem sbc_v_iff (a md carry : Nat) (ha : a < 256) (hm : md < 256)
    (hc : carry ≤ 1) (r : Nat)
    (hr : r = if carry = 0 then ((a + 65536 - md) % 65536 + 65535) % 65536
              else (a + 65536 - md) % 65536) :
    ((a ^^^ r) &&& (a ^^^ md) &&& 0x80 ≠ 0) ↔ sbcOverflow a md carry := by
  have hrl : (md < a + carry ∧ r = a + carry - md - 1) ∨
      (a + carry ≤ md ∧ r = a + 65535 + carry - md) := by
    by_cases hcc : carry = 0
    · rw [if_pos hcc] at hr
      omega
    · rw [if_neg hcc] at hr
      omega
  rw [and_128_ne, Nat.testBit_and, Nat.testBit_xor, Nat.testBit_xor]
  simp only [Nat.testBit_to_div_mod, sbcOverflow, signedByte,
    Nat.mod_eq_of_lt ha, Nat.mod_eq_of_lt hm, show (2 : Nat) ^ 7 = 128 by norm_num]
  rcases hrl with ⟨hlt, hv⟩ | ⟨hle, hv⟩ <;> subst hv <;>
    rcases h1 : decide (a / 128 % 2 = 1) <;>
      rcases h3 : decide (md / 128 % 2 = 1) <;>
        rcases h2 : decide ((a + carry - md - 1) / 128 % 2 = 1) <;>
          rcases h4 : decide ((a + 65535 + carry - md) / 128 % 2 = 1) <;>
            simp only [decide_eq_false_iff_not, decide_eq_true_eq] at h1 h2 h3 h4 <;>
              simp only [Bool.xor_false, Bool.xor_true, Bool.false_and, Bool.true_and,
                Bool.and_false, Bool.and_true, Bool.not_true, Bool.not_false, Bool.and_self] <;>
                simp only [show (false = true) = False by simp, show (true = true) = True by simp,
                  false_iff, true_iff, not_or, not_lt] <;>
                  split_ifs <;> omega

/-- C1: the claim states that Reset reloads PC from the 16-bit little-endian
vector at 0xFFFC/0xFFFD, sets the I flag of the status register (st' = st|I)
and decrements SP by 3 (sp' = sp-3), leaving other registers unchanged.  The
code reloads PC but performs sp |= I; sp -= 3 and never touches st (the spec
itself flags this as a transcription bug for st |= I).  Evaluated at
st = 0, sp = 0xF0: the status register keeps I clear (st stays 0, not 0x04)
and sp becomes ((0xF0|0x04)-3)&0xFF = 0xF1, not 0xF0-3 = 0xED. -/
theorem claim_C1 :
    (NES.Reset NES.fnBus cpuResetDemo memResetDemo).1.pc = 0x8000 ∧
    (NES.Reset NES.fnBus cpuResetDemo memResetDemo).1.st = 0 ∧
    (NES.Reset NES.fnBus cpuResetDemo memResetDemo).1.sp = 0xf1 ∧
    (NES.Reset NES.fnBus cpuResetDemo memResetDemo).1.ac = 1 ∧
    (NES.Reset NES.fnBus cpuResetDemo memResetDemo).1.xr = 2 ∧
    (NES.Reset NES.fnBus cpuResetDemo memResetDemo).1.yr = 3 ∧
    (NES.Reset NES.fnBus cpuResetDemo memResetDemo).1.st ≠ cpuResetDemo.st ||| NES.I ∧
    (NES.Reset NES.fnBus cpuResetDemo memResetDemo).1.sp ≠ (cpuResetDemo.sp + 256 - 3) % 256 := by
  decide

/-- C6: for every 8-bit accumulator value, operand byte and carry, executing
ADC and then SBC with the same operand and the inverted carry restores the
accumulator; and in each of ADC and SBC the V flag is set exactly when
signed two's-complement overflow occurred. -/
theorem claim_C6 (c : CPUState) (mem : Nat → Nat) (ha : c.ac < 256) :
    ((NES.opSbc NES.fnBus
        (NES.set (NES.opAdc NES.fnBus c mem).1 NES.C (!NES.isSet c NES.C))
        mem).1.ac = c.ac)
    ∧ (((NES.opAdc NES.fnBus c mem).1.st).testBit 6 = true ↔
        adcOverflow c.ac (mem c.opAddr % 256) (if NES.isSet c NES.C then 1 else 0))
    ∧ (((NES.opSbc NES.fnBus c mem).1.st).testBit 6 = true ↔
        sbcOverflow c.ac (mem c.opAddr % 256) (if NES.isSet c NES.C then 1 else 0)) := by
  refine ⟨?_, ?_, ?_⟩
  · rw [opSbc_ac_eq, isSet_set_C, set_opAddr, opAdc_opAddr_eq, set_ac, opAdc_ac_eq]
    rcases h : NES.isSet c NES.C <;>
      simp [h, and_255_eq_mod, Nat.mod_eq_of_lt ha, Nat.mod_mod_of_dvd _ (dvd_refl 256)] <;>
        omega
  · rw [opAdc_st6, Nat.mod_eq_of_lt ha]
    rw [bne_iff_ne]
    exact adc_v_iff c.ac (mem c.opAddr % 256) _ ha (Nat.mod_lt _ (by norm_num))
      (by rcases NES.isSet c NES.C <;> simp)
  · rw [opSbc_st6, Nat.mod_eq_of_lt ha]
    rw [bne_iff_ne]
    refine sbc_v_iff c.ac (mem c.opAddr % 256) _ ha (Nat.mod_lt _ (by norm_num))
      (by rcases NES.isSet c NES.C <;> simp) _ ?_
    rcases h : NES.isSet c NES.C <;> simp [h]

/-- Witness for C6 at the spec's concrete scenario: A = 0x50, carry clear,
operand 0x50; ADC overflows (0x50 + 0x50 = 0xA0 is negative) and the
round trip restores A. -/
theorem claim_C6_witness :
    cpuAdcDemo.ac < 256 ∧
    (((NES.opSbc NES.fnBus
        (NES.set (NES.opAdc NES.fnBus cpuAdcDemo memAdcDemo).1 NES.C
          (!NES.isSet cpuAdcDemo NES.C))
        memAdcDemo).1.ac = cpuAdcDemo.ac)
    ∧ (((NES.opAdc NES.fnBus cpuAdcDemo memAdcDemo).1.st).testBit 6 = true ↔
        adcOverflow cpuAdcDemo.ac (memAdcDemo cpuAdcDemo.opAddr % 256)
          (if NES.isSet cpuAdcDemo NES.C then 1 else 0))
    ∧ (((NES.opSbc NES.fnBus cpuAdcDemo memAdcDemo).1.st).testBit 6 = true ↔
        sbcOverflow cpuAdcDemo.ac (memAdcDemo cpuAdcDemo.opAddr % 256)
          (if NES.isSet cpuAdcDemo NES.C then 1 else 0))) :=
  ⟨by decide, claim_C6 cpuAdcDemo memAdcDemo (by decide)⟩

/-- C7: every indirect JMP whose pointer has low byte 0xFF fetches the high
byte of the effective address from pointer &&& 0xFF00 (same page), never
from the next page; and concretely JMP ($C0FF) with 0xC0FF = 0x00,
0xC000 = 0x23, 0xC100 = 0x80 sets PC to 0x2300 and takes 5 cycles. -/
theorem claim_C7 :
    (∀ (σ : Type) (bus : NES.Bus σ) (c : NES.CPUState) (m : σ),
      (NES.readPC16 bus c m).1 &&& 0xff = 0xff →
      (NES.addrIND bus c m).1.opAddr =
        (NES.read8 bus (NES.readPC16 bus c m).2.2 (NES.readPC16 bus c m).1).1 |||
        ((NES.read8 bus
            (NES.read8 bus (NES.readPC16 bus c m).2.2 (NES.readPC16 bus c m).1).2
            ((NES.readPC16 bus c m).1 &&& 0xff00)).1 <<< 8))
    ∧ (NES.Interpret NES.fnBus NES.cpuJmpBug NES.memJmpBug).map
        (fun r => (r.1.pc, r.2.2)) = some (0x2300, 5) := by
  constructor
  · intro σ bus c m h
    unfold NES.addrIND
    simp only [h, if_pos]
  · decide

/-- Witness for C7: the pointer of the concrete JMP scenario has low byte
0xFF, and the resolved operand address is the one read from the wrapped
(same-page) location. -/
theorem claim_C7_witness :
    ((NES.readPC16 NES.fnBus {NES.cpuJmpBug with pc := 0xd001} NES.memJmpBug).1 &&& 0xff = 0xff) ∧
    (NES.addrIND NES.fnBus {NES.cpuJmpBug with pc := 0xd001} NES.memJmpBug).1.opAddr =
      (NES.read8 NES.fnBus
        (NES.readPC16 NES.fnBus {NES.cpuJmpBug with pc := 0xd001} NES.memJmpBug).2.2
        (NES.readPC16 NES.fnBus {NES.cpuJmpBug with pc := 0xd001} NES.memJmpBug).1).1 |||
      ((NES.read8 NES.fnBus
          (NES.read8 NES.fnBus
            (NES.readPC16 NES.fnBus {NES.cpuJmpBug with pc := 0xd001} NES.memJmpBug).2.2
            (NES.readPC16 NES.fnBus {NES.cpuJmpBug with pc := 0xd001} NES.memJmpBug).1).2
          ((NES.readPC16 NES.fnBus {NES.cpuJmpBug with pc := 0xd001} NES.memJmpBug).1 &&&
            0xff00)).1 <<< 8) :=
  ⟨by decide, claim_C7.1 _ NES.fnBus {NES.cpuJmpBug with pc := 0xd001} NES.memJmpBug (by decide)⟩

theorem st5_setC (c : CPUState) (b : Bool) :
    ((NES.set c NES.C b).st).testBit 5 = c.st.testBit 5 :=
  testBit_set_other c NES.C b 5 (by decide) (by decide)
theorem st5_setZ (c : CPUState) (b : Bool) :
    ((NES.set c NES.Z b).st).testBit 5 = c.st.testBit 5 :=
  testBit_set_other c NES.Z b 5 (by decide) (by decide)
theorem st5_setI (c : CPUState) (b : Bool) :
    ((NES.set c NES.I b).st).testBit 5 = c.st.testBit 5 :=
  testBit_set_other c NES.I b 5 (by decide) (by decide)
theorem st5_setD (c : CPUState) (b : Bool) :
    ((NES.set c NES.D b).st).testBit 5 = c.st.testBit 5 :=
  testBit_set_other c NES.D b 5 (by decide) (by decide)
theorem st5_setB (c : CPUState) (b : Bool) :
    ((NES.set c NES.B b).st).testBit 5 = c.st.testBit 5 :=
  testBit_set_other c NES.B b 5 (by decide) (by decide)
theorem st5_setV (c : CPUState) (b : Bool) :
    ((NES.set c NES.V b).st).testBit 5 = c.st.testBit 5 :=
  testBit_set_other c NES.V b 5 (by decide) (by decide)
theorem st5_setN (c : CPUState) (b : Bool) :
    ((NES.set c NES.N b).st).testBit 5 = c.st.testBit 5 :=
  testBit_set_other c NES.N b 5 (by decide) (by decide)
theorem st5_setZN (c : CPUState) (r : Nat) :
    ((NES.setZN c r).st).testBit 5 = c.st.testBit 5 :=
  testBit_setZN_other c r 5 (by decide) (by decide) (by decide)
theorem st5_alwaysOn (x : Nat) : (NES.ALWAYS_ON ||| x).testBit 5 = true := by
  have h32 : Nat.testBit 32 5 = true := by decide
  simp [NES.ALWAYS_ON, Nat.testBit_or, h32]

theorem push_st (bus : Bus σ) (c : CPUState) (m : σ) (v : Nat) :
    (NES.push bus c m v).1.st = c.st := rfl
theorem pop_st (bus : Bus σ) (c : CPUState) (m : σ) :
    (NES.pop bus c m).2.1.st = c.st := rfl
theorem pushWord_st (bus : Bus σ) (c : CPUState) (m : σ) (w : Nat) :
    (NES.pushWord bus c m w).1.st = c.st := by
  simp only [NES.pushWord, push_st]
theorem popWord_st (bus : Bus σ) (c : CPUState) (m : σ) :
    (NES.popWord bus c m).2.1.st = c.st := rfl
theorem genericBranch_st (bus : Bus σ) (c : CPUState) (m : σ) (b : Bool) :
    (NES.genericBranch bus c m b).1.st = c.st := by
  unfold NES.genericBranch
  split <;> simp [apply_ite CPUState.st]

theorem st5_opAac (bus : Bus σ) (c : CPUState) (m : σ) (h : c.st.testBit 5 = true) :
    ((NES.opAac bus c m).1.st).testBit 5 = true := by
  unfold NES.opAac
  simp [apply_ite CPUState.st, st5_setC, st5_setZ, st5_setI, st5_setD, st5_setB, st5_setV, st5_setN, st5_setZN, push_st, pop_st, pushWord_st, popWord_st, genericBranch_st, h]

theorem st5_opAax (bus : Bus σ) (c : CPUState) (m : σ) (h : c.st.testBit 5 = true) :
    ((NES.opAax bus c m).1.st).testBit 5 = true := by
  unfold NES.opAax
  simp [apply_ite CPUState.st, st5_setC, st5_setZ, st5_setI, st5_setD, st5_setB, st5_setV, st5_setN, st5_setZN, push_st, pop_st, pushWord_st, popWord_st, genericBranch_st, h]

theorem st5_opAdc (bus : Bus σ) (c : CPUState) (m : σ) (h : c.st.testBit 5 = true) :
    ((NES.opAdc bus c m).1.st).testBit 5 = true := by
  unfold NES.opAdc
  simp [apply_ite CPUState.st, st5_setC, st5_setZ, st5_setI, st5_setD, st5_setB, st5_setV, st5_setN, st5_setZN, push_st, pop_st, pushWord_st, popWord_st, genericBranch_st, h]

theorem st5_opAnd (bus : Bus σ) (c : CPUState) (m : σ) (h : c.st.testBit 5 = true) :
    ((NES.opAnd bus c m).1.st).testBit 5 = true := by
  unfold NES.opAnd
  simp [apply_ite CPUState.st, st5_setC, st5_setZ, st5_setI, st5_setD, st5_setB, st5_setV, st5_setN, st5_setZN, push_st, pop_st, pushWord_st, popWord_st, genericBranch_st, h]

theorem st5_opArr (bus : Bus σ) (c : CPUState) (m : σ) (h : c.st.testBit 5 = true) :
    ((NES.opArr bus c m).1.st).testBit 5 = true := by
  unfold NES.opArr
  simp [apply_ite CPUState.st, st5_setC, st5_setZ, st5_setI, st5_setD, st5_setB, st5_setV, st5_setN, st5_setZN, push_st, pop_st, pushWord_st, popWord_st, genericBranch_st, h]

theorem st5_opAsl (bus : Bus σ) (c : CPUState) (m : σ) (h : c.st.testBit 5 = true) :
    ((NES.opAsl bus c m).1.st).testBit 5 = true := by
  unfold NES.opAsl
  simp [apply_ite CPUState.st, st5_setC, st5_setZ, st5_setI, st5_setD, st5_setB, st5_setV, st5_setN, st5_setZN, push_st, pop_st, pushWord_st, popWord_st, genericBranch_st, h]

theorem st5_opAsr (bus : Bus σ) (c : CPUState) (m : σ) (h : c.st.testBit 5 = true) :
    ((NES.opAsr bus c m).1.st).testBit 5 = true := by
  unfold NES.opAsr
  simp [apply_ite CPUState.st, st5_setC, st5_setZ, st5_setI, st5_setD, st5_setB, st5_setV, st5_setN, st5_setZN, push_st, pop_st, pushWord_st, popWord_st, genericBranch_st, h]

theorem st5_opAtx (bus : Bus σ) (c : CPUState) (m : σ) (h : c.st.testBit 5 = true) :
    ((NES.opAtx bus c m).1.st).testBit 5 = true := by
  unfold NES.opAtx
  simp [apply_ite CPUState.st, st5_setC, st5_setZ, st5_setI, st5_setD, st5_setB, st5_setV, st5_setN, st5_setZN, push_st, pop_st, pushWord_st, popWord_st, genericBranch_st, h]

theorem st5_opAxs (bus : Bus σ) (c : CPUState) (m : σ) (h : c.st.testBit 5 = true) :
    ((NES.opAxs bus c m).1.st).testBit 5 = true := by
  unfold NES.opAxs
  simp [apply_ite CPUState.st, st5_setC, st5_setZ, st5_setI, st5_setD, st5_setB, st5_setV, st5_setN, st5_setZN, push_st, pop_st, pushWord_st, popWord_st, genericBranch_st, h]

theorem st5_opBcc (bus : Bus σ) (c : CPUState) (m : σ) (h : c.st.testBit 5 = true) :
    ((NES.opBcc bus c m).1.st).testBit 5 = true := by
  unfold NES.opBcc
  simp [apply_ite CPUState.st, st5_setC, st5_setZ, st5_setI, st5_setD, st5_setB, st5_setV, st5_setN, st5_setZN, push_st, pop_st, pushWord_st, popWord_st, genericBranch_st, h]

theorem st5_opBcs (bus : Bus σ) (c : CPUState) (m : σ) (h : c.st.testBit 5 = true) :
    ((NES.opBcs bus c m).1.st).testBit 5 = true := by
  unfold NES.opBcs
  simp [apply_ite CPUState.st, st5_setC, st5_setZ, st5_setI, st5_setD, st5_setB, st5_setV, st5_setN, st5_setZN, push_st, pop_st, pushWord_st, popWord_st, genericBranch_st, h]

theorem st5_opBeq (bus : Bus σ) (c : CPUState) (m : σ) (h : c.st.testBit 5 = true) :
    ((NES.opBeq bus c m).1.st).testBit 5 = true := by
  unfold NES.opBeq
  simp [apply_ite CPUState.st, st5_setC, st5_setZ, st5_setI, st5_setD, st5_setB, st5_setV, st5_setN, st5_setZN, push_st, pop_st, pushWord_st, popWord_st, genericBranch_st, h]

theorem st5_opBit (bus : Bus σ) (c : CPUState) (m : σ) (h : c.st.testBit 5 = true) :
    ((NES.opBit bus c m).1.st).testBit 5 = true := by
  unfold NES.opBit
  simp [apply_ite CPUState.st, st5_setC, st5_setZ, st5_setI, st5_setD, st5_setB, st5_setV, st5_setN, st5_setZN, push_st, pop_st, pushWord_st, popWord_st, genericBranch_st, h]

theorem st5_opBmi (bus : Bus σ) (c : CPUState) (m : σ) (h : c.st.testBit 5 = true) :
    ((NES.opBmi bus c m).1.st).testBit 5 = true := by
  unfold NES.opBmi
  simp [apply_ite CPUState.st, st5_setC, st5_setZ, st5_setI, st5_setD, st5_setB, st5_setV, st5_setN, st5_setZN, push_st, pop_st, pushWord_st, popWord_st, genericBranch_st, h]

theorem st5_opBne (bus : Bus σ) (c : CPUState) (m : σ) (h : c.st.testBit 5 = true) :
    ((NES.opBne bus c m).1.st).testBit 5 = true := by
  unfold NES.opBne
  simp [apply_ite CPUState.st, st5_setC, st5_setZ, st5_setI, st5_setD, st5_setB, st5_setV, st5_setN, st5_setZN, push_st, pop_st, pushWord_st, popWord_st, genericBranch_st, h]

theorem st5_opBpl (bus : Bus σ) (c : CPUState) (m : σ) (h : c.st.testBit 5 = true) :
    ((NES.opBpl bus c m).1.st).testBit 5 = true := by
  unfold NES.opBpl
  simp [apply_ite CPUState.st, st5_setC, st5_setZ, st5_setI, st5_setD, st5_setB, st5_setV, st5_setN, st5_setZN, push_st, pop_st, pushWord_st, popWord_st, genericBranch_st, h]

theorem st5_opBrk (bus : Bus σ) (c : CPUState) (m : σ) (h : c.st.testBit 5 = true) :
    ((NES.opBrk bus c m).1.st).testBit 5 = true := by
  unfold NES.opBrk
  simp [apply_ite CPUState.st, st5_setC, st5_setZ, st5_setI, st5_setD, st5_setB, st5_setV, st5_setN, st5_setZN, push_st, pop_st, pushWord_st, popWord_st, genericBranch_st, h]

theorem st5_opBvc (bus : Bus σ) (c : CPUState) (m : σ) (h : c.st.testBit 5 = true) :
    ((NES.opBvc bus c m).1.st).testBit 5 = true := by
  unfold NES.opBvc
  simp [apply_ite CPUState.st, st5_setC, st5_setZ, st5_setI, st5_setD, st5_setB, st5_setV, st5_setN, st5_setZN, push_st, pop_st, pushWord_st, popWord_st, genericBranch_st, h]

theorem st5_opBvs (bus : Bus σ) (c : CPUState) (m : σ) (h : c.st.testBit 5 = true) :
    ((NES.opBvs bus c m).1.st).testBit 5 = true := by
  unfold NES.opBvs
  simp [apply_ite CPUState.st, st5_setC, st5_setZ, st5_setI, st5_setD, st5_setB, st5_setV, st5_setN, st5_setZN, push_st, pop_st, pushWord_st, popWord_st, genericBranch_st, h]

theorem st5_opCmp (bus : Bus σ) (c : CPUState) (m : σ) (h : c.st.testBit 5 = true) :
    ((NES.opCmp bus c m).1.st).testBit 5 = true := by
  unfold NES.opCmp
  simp [apply_ite CPUState.st, st5_setC, st5_setZ, st5_setI, st5_setD, st5_setB, st5_setV, st5_setN, st5_setZN, push_st, pop_st, pushWord_st, popWord_st, genericBranch_st, h]

theorem st5_opCpx (bus : Bus σ) (c : CPUState) (m : σ) (h : c.st.testBit 5 = true) :
    ((NES.opCpx bus c m).1.st).testBit 5 = true := by
  unfold NES.opCpx
  simp [apply_ite CPUState.st, st5_setC, st5_setZ, st5_setI, st5_setD, st5_setB, st5_setV, st5_setN, st5_setZN, push_st, pop_st, pushWord_st, popWord_st, genericBranch_st, h]

theorem st5_opCpy (bus : Bus σ) (c : CPUState) (m : σ) (h : c.st.testBit 5 = true) :
    ((NES.opCpy bus c m).1.st).testBit 5 = true := by
  unfold NES.opCpy
  simp [apply_ite CPUState.st, st5_setC, st5_setZ, st5_setI, st5_setD, st5_setB, st5_setV, st5_setN, st5_setZN, push_st, pop_st, pushWord_st, popWord_st, genericBranch_st, h]

theorem st5_opDcp (bus : Bus σ) (c : CPUState) (m : σ) (h : c.st.testBit 5 = true) :
    ((NES.opDcp bus c m).1.st).testBit 5 = true := by
  unfold NES.opDcp
  simp [apply_ite CPUState.st, st5_setC, st5_setZ, st5_setI, st5_setD, st5_setB, st5_setV, st5_setN, st5_setZN, push_st, pop_st, pushWord_st, popWord_st, genericBranch_st, h]

theorem st5_opDec (bus : Bus σ) (c : CPUState) (m : σ) (h : c.st.testBit 5 = true) :
    ((NES.opDec bus c m).1.st).testBit 5 = true := by
  unfold NES.opDec
  simp [apply_ite CPUState.st, st5_setC, st5_setZ, st5_setI, st5_setD, st5_setB, st5_setV, st5_setN, st5_setZN, push_st, pop_st, pushWord_st, popWord_st, genericBranch_st, h]

theorem st5_opEor (bus : Bus σ) (c : CPUState) (m : σ) (h : c.st.testBit 5 = true) :
    ((NES.opEor bus c m).1.st).testBit 5 = true := by
  unfold NES.opEor
  simp [apply_ite CPUState.st, st5_setC, st5_setZ, st5_setI, st5_setD, st5_setB, st5_setV, st5_setN, st5_setZN, push_st, pop_st, pushWord_st, popWord_st, genericBranch_st, h]

theorem st5_opInc (bus : Bus σ) (c : CPUState) (m : σ) (h : c.st.testBit 5 = true) :
    ((NES.opInc bus c m).1.st).testBit 5 = true := by
  unfold NES.opInc
  simp [apply_ite CPUState.st, st5_setC, st5_setZ, st5_setI, st5_setD, st5_setB, st5_setV, st5_setN, st5_setZN, push_st, pop_st, pushWord_st, popWord_st, genericBranch_st, h]

theorem st5_opIsc (bus : Bus σ) (c : CPUState) (m : σ) (h : c.st.testBit 5 = true) :
    ((NES.opIsc bus c m).1.st).testBit 5 = true := by
  unfold NES.opIsc
  simp [apply_ite CPUState.st, st5_setC, st5_setZ, st5_setI, st5_setD, st5_setB, st5_setV, st5_setN, st5_setZN, push_st, pop_st, pushWord_st, popWord_st, genericBranch_st, h]

theorem st5_opJsr (bus : Bus σ) (c : CPUState) (m : σ) (h : c.st.testBit 5 = true) :
    ((NES.opJsr bus c m).1.st).testBit 5 = true := by
  unfold NES.opJsr
  simp [apply_ite CPUState.st, st5_setC, st5_setZ, st5_setI, st5_setD, st5_setB, st5_setV, st5_setN, st5_setZN, push_st, pop_st, pushWord_st, popWord_st, genericBranch_st, h]

theorem st5_opLax (bus : Bus σ) (c : CPUState) (m : σ) (h : c.st.testBit 5 = true) :
    ((NES.opLax bus c m).1.st).testBit 5 = true := by
  unfold NES.opLax
  simp [apply_ite CPUState.st, st5_setC, st5_setZ, st5_setI, st5_setD, st5_setB, st5_setV, st5_setN, st5_setZN, push_st, pop_st, pushWord_st, popWord_st, genericBranch_st, h]

theorem st5_opLda (bus : Bus σ) (c : CPUState) (m : σ) (h : c.st.testBit 5 = true) :
    ((NES.opLda bus c m).1.st).testBit 5 = true := by
  unfold NES.opLda
  simp [apply_ite CPUState.st, st5_setC, st5_setZ, st5_setI, st5_setD, st5_setB, st5_setV, st5_setN, st5_setZN, push_st, pop_st, pushWord_st, popWord_st, genericBranch_st, h]

theorem st5_opLdx (bus : Bus σ) (c : CPUState) (m : σ) (h : c.st.testBit 5 = true) :
    ((NES.opLdx bus c m).1.st).testBit 5 = true := by
  unfold NES.opLdx
  simp [apply_ite CPUState.st, st5_setC, st5_setZ, st5_setI, st5_setD, st5_setB, st5_setV, st5_setN, st5_setZN, push_st, pop_st, pushWord_st, popWord_st, genericBranch_st, h]

theorem st5_opLdy (bus : Bus σ) (c : CPUState) (m : σ) (h : c.st.testBit 5 = true) :
    ((NES.opLdy bus c m).1.st).testBit 5 = true := by
  unfold NES.opLdy
  simp [apply_ite CPUState.st, st5_setC, st5_setZ, st5_setI, st5_setD, st5_setB, st5_setV, st5_setN, st5_setZN, push_st, pop_st, pushWord_st, popWord_st, genericBranch_st, h]

theorem st5_opLsr (bus : Bus σ) (c : CPUState) (m : σ) (h : c.st.testBit 5 = true) :
    ((NES.opLsr bus c m).1.st).testBit 5 = true := by
  unfold NES.opLsr
  simp [apply_ite CPUState.st, st5_setC, st5_setZ, st5_setI, st5_setD, st5_setB, st5_setV, st5_setN, st5_setZN, push_st, pop_st, pushWord_st, popWord_st, genericBranch_st, h]

theorem st5_opOra (bus : Bus σ) (c : CPUState) (m : σ) (h : c.st.testBit 5 = true) :
    ((NES.opOra bus c m).1.st).testBit 5 = true := by
  unfold NES.opOra
  simp [apply_ite CPUState.st, st5_setC, st5_setZ, st5_setI, st5_setD, st5_setB, st5_setV, st5_setN, st5_setZN, push_st, pop_st, pushWord_st, popWord_st, genericBranch_st, h]

theorem st5_opPha (bus : Bus σ) (c : CPUState) (m : σ) (h : c.st.testBit 5 = true) :
    ((NES.opPha bus c m).1.st).testBit 5 = true := by
  unfold NES.opPha
  simp [apply_ite CPUState.st, st5_setC, st5_setZ, st5_setI, st5_setD, st5_setB, st5_setV, st5_setN, st5_setZN, push_st, pop_st, pushWord_st, popWord_st, genericBranch_st, h]

theorem st5_opPhp (bus : Bus σ) (c : CPUState) (m : σ) (h : c.st.testBit 5 = true) :
    ((NES.opPhp bus c m).1.st).testBit 5 = true := by
  unfold NES.opPhp
  simp [apply_ite CPUState.st, st5_setC, st5_setZ, st5_setI, st5_setD, st5_setB, st5_setV, st5_setN, st5_setZN, push_st, pop_st, pushWord_st, popWord_st, genericBranch_st, h]

theorem st5_opPla (bus : Bus σ) (c : CPUState) (m : σ) (h : c.st.testBit 5 = true) :
    ((NES.opPla bus c m).1.st).testBit 5 = true := by
  unfold NES.opPla
  simp [apply_ite CPUState.st, st5_setC, st5_setZ, st5_setI, st5_setD, st5_setB, st5_setV, st5_setN, st5_setZN, push_st, pop_st, pushWord_st, popWord_st, genericBranch_st, h]

theorem st5_opRla (bus : Bus σ) (c : CPUState) (m : σ) (h : c.st.testBit 5 = true) :
    ((NES.opRla bus c m).1.st).testBit 5 = true := by
  unfold NES.opRla
  simp [apply_ite CPUState.st, st5_setC, st5_setZ, st5_setI, st5_setD, st5_setB, st5_setV, st5_setN, st5_setZN, push_st, pop_st, pushWord_st, popWord_st, genericBranch_st, h]

theorem st5_opRol (bus : Bus σ) (c : CPUState) (m : σ) (h : c.st.testBit 5 = true) :
    ((NES.opRol bus c m).1.st).testBit 5 = true := by
  unfold NES.opRol
  simp [apply_ite CPUState.st, st5_setC, st5_setZ, st5_setI, st5_setD, st5_setB, st5_setV, st5_setN, st5_setZN, push_st, pop_st, pushWord_st, popWord_st, genericBranch_st, h]

theorem st5_opRor (bus : Bus σ) (c : CPUState) (m : σ) (h : c.st.testBit 5 = true) :
    ((NES.opRor bus c m).1.st).testBit 5 = true := by
  unfold NES.opRor
  simp [apply_ite CPUState.st, st5_setC, st5_setZ, st5_setI, st5_setD, st5_setB, st5_setV, st5_setN, st5_setZN, push_st, pop_st, pushWord_st, popWord_st, genericBranch_st, h]

theorem st5_opRra (bus : Bus σ) (c : CPUState) (m : σ) (h : c.st.testBit 5 = true) :
    ((NES.opRra bus c m).1.st).testBit 5 = true := by
  unfold NES.opRra
  simp [apply_ite CPUState.st, st5_setC, st5_setZ, st5_setI, st5_setD, st5_setB, st5_setV, st5_setN, st5_setZN, push_st, pop_st, pushWord_st, popWord_st, genericBranch_st, h]

theorem st5_opRts (bus : Bus σ) (c : CPUState) (m : σ) (h : c.st.testBit 5 = true) :
    ((NES.opRts bus c m).1.st).testBit 5 = true := by
  unfold NES.opRts
  simp [apply_ite CPUState.st, st5_setC, st5_setZ, st5_setI, st5_setD, st5_setB, st5_setV, st5_setN, st5_setZN, push_st, pop_st, pushWord_st, popWord_st, genericBranch_st, h]

theorem st5_opSbc (bus : Bus σ) (c : CPUState) (m : σ) (h : c.st.testBit 5 = true) :
    ((NES.opSbc bus c m).1.st).testBit 5 = true := by
  unfold NES.opSbc
  simp [apply_ite CPUState.st, st5_setC, st5_setZ, st5_setI, st5_setD, st5_setB, st5_setV, st5_setN, st5_setZN, push_st, pop_st, pushWord_st, popWord_st, genericBranch_st, h]

theorem st5_opSlo (bus : Bus σ) (c : CPUState) (m : σ) (h : c.st.testBit 5 = true) :
    ((NES.opSlo bus c m).1.st).testBit 5 = true := by
  unfold NES.opSlo
  simp [apply_ite CPUState.st, st5_setC, st5_setZ, st5_setI, st5_setD, st5_setB, st5_setV, st5_setN, st5_setZN, push_st, pop_st, pushWord_st, popWord_st, genericBranch_st, h]

theorem st5_opSre (bus : Bus σ) (c : CPUState) (m : σ) (h : c.st.testBit 5 = true) :
    ((NES.opSre bus c m).1.st).testBit 5 = true := by
  unfold NES.opSre
  simp [apply_ite CPUState.st, st5_setC, st5_setZ, st5_setI, st5_setD, st5_setB, st5_setV, st5_setN, st5_setZN, push_st, pop_st, pushWord_st, popWord_st, genericBranch_st, h]

theorem st5_opSta (bus : Bus σ) (c : CPUState) (m : σ) (h : c.st.testBit 5 = true) :
    ((NES.opSta bus c m).1.st).testBit 5 = true := by
  unfold NES.opSta
  simp [apply_ite CPUState.st, st5_setC, st5_setZ, st5_setI, st5_setD, st5_setB, st5_setV, st5_setN, st5_setZN, push_st, pop_st, pushWord_st, popWord_st, genericBranch_st, h]

theorem st5_opStx (bus : Bus σ) (c : CPUState) (m : σ) (h : c.st.testBit 5 = true) :
    ((NES.opStx bus c m).1.st).testBit 5 = true := by
  unfold NES.opStx
  simp [apply_ite CPUState.st, st5_setC, st5_setZ, st5_setI, st5_setD, st5_setB, st5_setV, st5_setN, st5_setZN, push_st, pop_st, pushWord_st, popWord_st, genericBranch_st, h]

theorem st5_opSty (bus : Bus σ) (c : CPUState) (m : σ) (h : c.st.testBit 5 = true) :
    ((NES.opSty bus c m).1.st).testBit 5 = true := by
  unfold NES.opSty
  simp [apply_ite CPUState.st, st5_setC, st5_setZ, st5_setI, st5_setD, st5_setB, st5_setV, st5_setN, st5_setZN, push_st, pop_st, pushWord_st, popWord_st, genericBranch_st, h]

theorem st5_opSxa (bus : Bus σ) (c : CPUState) (m : σ) (h : c.st.testBit 5 = true) :
    ((NES.opSxa bus c m).1.st).testBit 5 = true := by
  unfold NES.opSxa
  simp [apply_ite CPUState.st, st5_setC, st5_setZ, st5_setI, st5_setD, st5_setB, st5_setV, st5_setN, st5_setZN, push_st, pop_st, pushWord_st, popWord_st, genericBranch_st, h]

theorem st5_opSya (bus : Bus σ) (c : CPUState) (m : σ) (h : c.st.testBit 5 = true) :
    ((NES.opSya bus c m).1.st).testBit 5 = true := by
  unfold NES.opSya
  simp [apply_ite CPUState.st, st5_setC, st5_setZ, st5_setI, st5_setD, st5_setB, st5_setV, st5_setN, st5_setZN, push_st, pop_st, pushWord_st, popWord_st, genericBranch_st, h]

theorem st5_opAslAcc (c : CPUState) (h : c.st.testBit 5 = true) :
    ((NES.opAslAcc c).st).testBit 5 = true := by
  unfold NES.opAslAcc
  simp [apply_ite CPUState.st, st5_setC, st5_setZ, st5_setI, st5_setD, st5_setB, st5_setV, st5_setN, st5_setZN, push_st, pop_st, pushWord_st, popWord_st, genericBranch_st, h]

theorem st5_opClc (c : CPUState) (h : c.st.testBit 5 = true) :
    ((NES.opClc c).st).testBit 5 = true := by
  unfold NES.opClc
  simp [apply_ite CPUState.st, st5_setC, st5_setZ, st5_setI, st5_setD, st5_setB, st5_setV, st5_setN, st5_setZN, push_st, pop_st, pushWord_st, popWord_st, genericBranch_st, h]

theorem st5_opCld (c : CPUState) (h : c.st.testBit 5 = true) :
    ((NES.opCld c).st).testBit 5 = true := by
  unfold NES.opCld
  simp [apply_ite CPUState.st, st5_setC, st5_setZ, st5_setI, st5_setD, st5_setB, st5_setV, st5_setN, st5_setZN, push_st, pop_st, pushWord_st, popWord_st, genericBranch_st, h]

theorem st5_opCli (c : CPUState) (h : c.st.testBit 5 = true) :
    ((NES.opCli c).st).testBit 5 = true := by
  unfold NES.opCli
  simp [apply_ite CPUState.st, st5_setC, st5_setZ, st5_setI, st5_setD, st5_setB, st5_setV, st5_setN, st5_setZN, push_st, pop_st, pushWord_st, popWord_st, genericBranch_st, h]

theorem st5_opClv (c : CPUState) (h : c.st.testBit 5 = true) :
    ((NES.opClv c).st).testBit 5 = true := by
  unfold NES.opClv
  simp [apply_ite CPUState.st, st5_setC, st5_setZ, st5_setI, st5_setD, st5_setB, st5_setV, st5_setN, st5_setZN, push_st, pop_st, pushWord_st, popWord_st, genericBranch_st, h]

theorem st5_opDex (c : CPUState) (h : c.st.testBit 5 = true) :
    ((NES.opDex c).st).testBit 5 = true := by
  unfold NES.opDex
  simp [apply_ite CPUState.st, st5_setC, st5_setZ, st5_setI, st5_setD, st5_setB, st5_setV, st5_setN, st5_setZN, push_st, pop_st, pushWord_st, popWord_st, genericBranch_st, h]

theorem st5_opDey (c : CPUState) (h : c.st.testBit 5 = true) :
    ((NES.opDey c).st).testBit 5 = true := by
  unfold NES.opDey
  simp [apply_ite CPUState.st, st5_setC, st5_setZ, st5_setI, st5_setD, st5_setB, st5_setV, st5_setN, st5_setZN, push_st, pop_st, pushWord_st, popWord_st, genericBranch_st, h]

theorem st5_opInx (c : CPUState) (h : c.st.testBit 5 = true) :
    ((NES.opInx c).st).testBit 5 = true := by
  unfold NES.opInx
  simp [apply_ite CPUState.st, st5_setC, st5_setZ, st5_setI, st5_setD, st5_setB, st5_setV, st5_setN, st5_setZN, push_st, pop_st, pushWord_st, popWord_st, genericBranch_st, h]

theorem st5_opIny (c : CPUState) (h : c.st.testBit 5 = true) :
    ((NES.opIny c).st).testBit 5 = true := by
  unfold NES.opIny
  simp [apply_ite CPUState.st, st5_setC, st5_setZ, st5_setI, st5_setD, st5_setB, st5_setV, st5_setN, st5_setZN, push_st, pop_st, pushWord_st, popWord_st, genericBranch_st, h]

theorem st5_opJmp (c : CPUState) (h : c.st.testBit 5 = true) :
    ((NES.opJmp c).st).testBit 5 = true := by
  unfold NES.opJmp
  simp [apply_ite CPUState.st, st5_setC, st5_setZ, st5_setI, st5_setD, st5_setB, st5_setV, st5_setN, st5_setZN, push_st, pop_st, pushWord_st, popWord_st, genericBranch_st, h]

theorem st5_opLsrAcc (c : CPUState) (h : c.st.testBit 5 = true) :
    ((NES.opLsrAcc c).st).testBit 5 = true := by
  unfold NES.opLsrAcc
  simp [apply_ite CPUState.st, st5_setC, st5_setZ, st5_setI, st5_setD, st5_setB, st5_setV, st5_setN, st5_setZN, push_st, pop_st, pushWord_st, popWord_st, genericBranch_st, h]

theorem st5_opNop (c : CPUState) (h : c.st.testBit 5 = true) :
    ((NES.opNop c).st).testBit 5 = true := by
  unfold NES.opNop
  simp [apply_ite CPUState.st, st5_setC, st5_setZ, st5_setI, st5_setD, st5_setB, st5_setV, st5_setN, st5_setZN, push_st, pop_st, pushWord_st, popWord_st, genericBranch_st, h]

theorem st5_opRolAcc (c : CPUState) (h : c.st.testBit 5 = true) :
    ((NES.opRolAcc c).st).testBit 5 = true := by
  unfold NES.opRolAcc
  simp [apply_ite CPUState.st, st5_setC, st5_setZ, st5_setI, st5_setD, st5_setB, st5_setV, st5_setN, st5_setZN, push_st, pop_st, pushWord_st, popWord_st, genericBranch_st, h]

theorem st5_opRorAcc (c : CPUState) (h : c.st.testBit 5 = true) :
    ((NES.opRorAcc c).st).testBit 5 = true := by
  unfold NES.opRorAcc
  simp [apply_ite CPUState.st, st5_setC, st5_setZ, st5_setI, st5_setD, st5_setB, st5_setV, st5_setN, st5_setZN, push_st, pop_st, pushWord_st, popWord_st, genericBranch_st, h]

theorem st5_opSec (c : CPUState) (h : c.st.testBit 5 = true) :
    ((NES.opSec c).st).testBit 5 = true := by
  unfold NES.opSec
  simp [apply_ite CPUState.st, st5_setC, st5_setZ, st5_setI, st5_setD, st5_setB, st5_setV, st5_setN, st5_setZN, push_st, pop_st, pushWord_st, popWord_st, genericBranch_st, h]

theorem st5_opSed (c : CPUState) (h : c.st.testBit 5 = true) :
    ((NES.opSed c).st).testBit 5 = true := by
  unfold NES.opSed
  simp [apply_ite CPUState.st, st5_setC, st5_setZ, st5_setI, st5_setD, st5_setB, st5_setV, st5_setN, st5_setZN, push_st, pop_st, pushWord_st, popWord_st, genericBranch_st, h]

theorem st5_opSei (c : CPUState) (h : c.st.testBit 5 = true) :
    ((NES.opSei c).st).testBit 5 = true := by
  unfold NES.opSei
  simp [apply_ite CPUState.st, st5_setC, st5_setZ, st5_setI, st5_setD, st5_setB, st5_setV, st5_setN, st5_setZN, push_st, pop_st, pushWord_st, popWord_st, genericBranch_st, h]

theorem st5_opTax (c : CPUState) (h : c.st.testBit 5 = true) :
    ((NES.opTax c).st).testBit 5 = true := by
  unfold NES.opTax
  simp [apply_ite CPUState.st, st5_setC, st5_setZ, st5_setI, st5_setD, st5_setB, st5_setV, st5_setN, st5_setZN, push_st, pop_st, pushWord_st, popWord_st, genericBranch_st, h]

theorem st5_opTay (c : CPUState) (h : c.st.testBit 5 = true) :
    ((NES.opTay c).st).testBit 5 = true := by
  unfold NES.opTay
  simp [apply_ite CPUState.st, st5_setC, st5_setZ, st5_setI, st5_setD, st5_setB, st5_setV, st5_setN, st5_setZN, push_st, pop_st, pushWord_st, popWord_st, genericBranch_st, h]

theorem st5_opTsx (c : CPUState) (h : c.st.testBit 5 = true) :
    ((NES.opTsx c).st).testBit 5 = true := by
  unfold NES.opTsx
  simp [apply_ite CPUState.st, st5_setC, st5_setZ, st5_setI, st5_setD, st5_setB, st5_setV, st5_setN, st5_setZN, push_st, pop_st, pushWord_st, popWord_st, genericBranch_st, h]

theorem st5_opTxa (c : CPUState) (h : c.st.testBit 5 = true) :
    ((NES.opTxa c).st).testBit 5 = true := by
  unfold NES.opTxa
  simp [apply_ite CPUState.st, st5_setC, st5_setZ, st5_setI, st5_setD, st5_setB, st5_setV, st5_setN, st5_setZN, push_st, pop_st, pushWord_st, popWord_st, genericBranch_st, h]

theorem st5_opTxs (c : CPUState) (h : c.st.testBit 5 = true) :
    ((NES.opTxs c).st).testBit 5 = true := by
  unfold NES.opTxs
  simp [apply_ite CPUState.st, st5_setC, st5_setZ, st5_setI, st5_setD, st5_setB, st5_setV, st5_setN, st5_setZN, push_st, pop_st, pushWord_st, popWord_st, genericBranch_st, h]

theorem st5_opTya (c : CPUState) (h : c.st.testBit 5 = true) :
    ((NES.opTya c).st).testBit 5 = true := by
  unfold NES.opTya
  simp [apply_ite CPUState.st, st5_setC, st5_setZ, st5_setI, st5_setD, st5_setB, st5_setV, st5_setN, st5_setZN, push_st, pop_st, pushWord_st, popWord_st, genericBranch_st, h]

theorem st5_opPlp (bus : Bus σ) (c : CPUState) (m : σ) (h : c.st.testBit 5 = true) :
    ((NES.opPlp bus c m).1.st).testBit 5 = true := by
  unfold NES.opPlp
  exact st5_alwaysOn _

theorem st5_opRti (bus : Bus σ) (c : CPUState) (m : σ) (h : c.st.testBit 5 = true) :
    ((NES.opRti bus c m).1.st).testBit 5 = true := by
  unfold NES.opRti
  simp only [popWord_st]
  exact st5_alwaysOn _

theorem withClock_st (X : CPUState) (z : Nat) :
    ({X with clockCycles := z} : CPUState).st = X.st := rfl

theorem execOp_st5 (n : OpName) (bus : Bus σ) (c : CPUState) (m : σ)
    (h : c.st.testBit 5 = true) : ((NES.execOp n bus c m).1.st).testBit 5 = true := by
  cases n with
  | aac => exact st5_opAac bus c m h
  | aax => exact st5_opAax bus c m h
  | adc => exact st5_opAdc bus c m h
  | and => exact st5_opAnd bus c m h
  | arr => exact st5_opArr bus c m h
  | asl => exact st5_opAsl bus c m h
  | aslAcc => exact st5_opAslAcc c h
  | asr => exact st5_opAsr bus c m h
  | atx => exact st5_opAtx bus c m h
  | axs => exact st5_opAxs bus c m h
  | bcc => exact st5_opBcc bus c m h
  | bcs => exact st5_opBcs bus c m h
  | beq => exact st5_opBeq bus c m h
  | bit => exact st5_opBit bus c m h
  | bmi => exact st5_opBmi bus c m h
  | bne => exact st5_opBne bus c m h
  | bpl => exact st5_opBpl bus c m h
  | brk => exact st5_opBrk bus c m h
  | bvc => exact st5_opBvc bus c m h
  | bvs => exact st5_opBvs bus c m h
  | clc => exact st5_opClc c h
  | cld => exact st5_opCld c h
  | cli => exact st5_opCli c h
  | clv => exact st5_opClv c h
  | cmp => exact st5_opCmp bus c m h
  | cpx => exact st5_opCpx bus c m h
  | cpy => exact st5_opCpy bus c m h
  | dcp => exact st5_opDcp bus c m h
  | dec => exact st5_opDec bus c m h
  | dex => exact st5_opDex c h
  | dey => exact st5_opDey c h
  | eor => exact st5_opEor bus c m h
  | inc => exact st5_opInc bus c m h
  | inx => exact st5_opInx c h
  | iny => exact st5_opIny c h
  | isc => exact st5_opIsc bus c m h
  | jmp => exact st5_opJmp c h
  | jsr => exact st5_opJsr bus c m h
  | lax => exact st5_opLax bus c m h
  | lda => exact st5_opLda bus c m h
  | ldx => exact st5_opLdx bus c m h
  | ldy => exact st5_opLdy bus c m h
  | lsr => exact st5_opLsr bus c m h
  | lsrAcc => exact st5_opLsrAcc c h
  | nop => exact st5_opNop c h
  | ora => exact st5_opOra bus c m h
  | pha => exact st5_opPha bus c m h
  | php => exact st5_opPhp bus c m h
  | pla => exact st5_opPla bus c m h
  | plp => exact st5_opPlp bus c m h
  | rla => exact st5_opRla bus c m h
  | rol => exact st5_opRol bus c m h
  | rolAcc => exact st5_opRolAcc c h
  | ror => exact st5_opRor bus c m h
  | rorAcc => exact st5_opRorAcc c h
  | rra => exact st5_opRra bus c m h
  | rti => exact st5_opRti bus c m h
  | rts => exact st5_opRts bus c m h
  | sbc => exact st5_opSbc bus c m h
  | sec => exact st5_opSec c h
  | sed => exact st5_opSed c h
  | sei => exact st5_opSei c h
  | slo => exact st5_opSlo bus c m h
  | sre => exact st5_opSre bus c m h
  | sta => exact st5_opSta bus c m h
  | stx => exact st5_opStx bus c m h
  | sty => exact st5_opSty bus c m h
  | sxa => exact st5_opSxa bus c m h
  | sya => exact st5_opSya bus c m h
  | tax => exact st5_opTax c h
  | tay => exact st5_opTay c h
  | tsx => exact st5_opTsx c h
  | txa => exact st5_opTxa c h
  | txs => exact st5_opTxs c h
  | tya => exact st5_opTya c h

theorem readAddressOfOperand_st (bus : Bus σ) (op : OpcodeEntry) (c : CPUState) (m : σ) :
    (NES.readAddressOfOperand bus op c m).1.st = c.st := by
  unfold NES.readAddressOfOperand
  cases op.addressing <;>
    simp [NES.addrIMM, NES.addrZP, NES.addrZPX, NES.addrZPY, NES.addrABS, NES.addrIND,
      NES.addrABSX, NES.addrABSY, NES.addrINDX, NES.addrINDY, NES.readPC8, NES.readPC16,
      NES.read8, apply_ite CPUState.st]

theorem Interpret_st5 (bus : Bus σ) (c : CPUState) (m : σ) (r : CPUState × σ × Nat)
    (h5 : c.st.testBit 5 = true) (h : NES.Interpret bus c m = some r) :
    r.1.st.testBit 5 = true := by
  unfold NES.Interpret at h
  dsimp only [] at h
  split at h
  · exact Option.noConfusion h
  · simp only [Option.some.injEq] at h
    subst h
    apply execOp_st5
    rw [withClock_st, readAddressOfOperand_st]
    exact h5

theorem NMI_st5 (bus : Bus σ) (c : CPUState) (m : σ) (h5 : c.st.testBit 5 = true) :
    ((NES.NMI bus c m).1.st).testBit 5 = true := by
  unfold NES.NMI
  simp [st5_setI, push_st, pushWord_st, h5]

theorem Reset_st (bus : Bus σ) (c : CPUState) (m : σ) :
    (NES.Reset bus c m).1.st = c.st := rfl

theorem NewCPU_st (bus : Bus σ) (m : σ) : (NES.NewCPU bus m).1.st = 0x34 := rfl

theorem Reachable_st5 (c : CPUState) (h : Reachable c) : c.st.testBit 5 = true := by
  induction h with
  | init σ bus m => rw [NewCPU_st]; decide
  | step hr σ bus m r heq ih => exact Interpret_st5 bus _ m r ih heq
  | nmi hr σ bus m ih => exact NMI_st5 bus _ m ih
  | rst hr σ bus m ih => rw [Reset_st]; exact ih

theorem testBit5_mod256 (x : Nat) : (x % 256).testBit 5 = x.testBit 5 := by
  rw [show (256 : Nat) = 2 ^ 8 by norm_num, Nat.testBit_mod_two_pow]
  simp

/-- C9: in every reachable CPU state, whenever the status byte is pushed to
the stack (by PHP, BRK, or NMI), the pushed byte (the byte the push writes at
its stack address) has bit 5 (ALWAYS_ON, 0x20) set.  PHP and BRK push it
OR-ed in; NMI pushes the raw status register, whose bit 5 is an invariant of
every reachable state. -/
theorem claim_C9 (c : CPUState) (h : Reachable c) (mem : Nat → Nat) :
    (((NES.NMI NES.fnBus c mem).2.1) (0x100 + (c.sp + 254) % 256)).testBit 5 = true
    ∧ (((NES.opPhp NES.fnBus c mem).2) (0x100 + c.sp % 256)).testBit 5 = true
    ∧ (((NES.opBrk NES.fnBus c mem).2) (0x100 + (c.sp + 254) % 256)).testBit 5 = true := by
  have h5 := Reachable_st5 c h
  have h32 : Nat.testBit 32 5 = true := by decide
  refine ⟨?_, ?_, ?_⟩
  · unfold NES.NMI NES.pushWord NES.push NES.write8 NES.read8 NES.fnBus
    dsimp only []
    rw [if_pos (by omega)]
    simp [testBit5_mod256, h5]
  · unfold NES.opPhp NES.push NES.write8 NES.fnBus
    dsimp only []
    rw [if_pos (by omega)]
    simp [testBit5_mod256, Nat.testBit_or, NES.ALWAYS_ON, h32]
  · unfold NES.opBrk NES.pushWord NES.push NES.write8 NES.read8 NES.fnBus NES.set
    dsimp only []
    simp only [eq_self_iff_true, if_true]
    rw [if_pos (by omega)]
    simp [testBit5_mod256, Nat.testBit_or, NES.ALWAYS_ON, h32]

/-- Witness for C9 at the power-on state reached by NewCPU. -/
theorem claim_C9_witness :
    Reachable (NES.NewCPU NES.fnBus (fun _ => 0)).1 ∧
    ((((NES.NMI NES.fnBus (NES.NewCPU NES.fnBus (fun _ => 0)).1 (fun _ => 0)).2.1)
        (0x100 + ((NES.NewCPU NES.fnBus (fun _ => 0)).1.sp + 254) % 256)).testBit 5 = true
    ∧ (((NES.opPhp NES.fnBus (NES.NewCPU NES.fnBus (fun _ => 0)).1 (fun _ => 0)).2)
        (0x100 + (NES.NewCPU NES.fnBus (fun _ => 0)).1.sp % 256)).testBit 5 = true
    ∧ (((NES.opBrk NES.fnBus (NES.NewCPU NES.fnBus (fun _ => 0)).1 (fun _ => 0)).2)
        (0x100 + ((NES.NewCPU NES.fnBus (fun _ => 0)).1.sp + 254) % 256)).testBit 5 = true) :=
  ⟨Reachable.init (Nat → Nat) NES.fnBus (fun _ => 0),
   claim_C9 (NES.NewCPU NES.fnBus (fun _ => 0)).1
     (Reachable.init (Nat → Nat) NES.fnBus (fun _ => 0)) (fun _ => 0)⟩

/-- C2 counterexample: a DMA write of page 8 (source 0x0800, one past the
2 KiB internal RAM) makes the Go slice expression mem.ram[start : start+256]
panic, embedded as none, instead of copying 256 bytes and returning 513. -/
theorem claim_C2_cex :
    NES.busWrite NES.trivMapperIO NES.trivPPUIO NES.zeroNESMem () 0x4014 8 = none := by
  rfl

/-- C2 (amended: the copy-and-513 behaviour holds only for page values below
8, keeping the source window inside the 2 KiB internal RAM; for val >= 8 the
Go code panics): writing val < 8 to 0x4014 succeeds, returns 513 extra
cycles, and afterwards OAM equals the 256 source bytes, as observed by
reading each source address back through the bus. -/
theorem claim_C2 (μ : Type) (cio : MapperIO μ) (pio : PPUIO μ) (s : NESMem) (mm : μ)
    (v : Nat) (hv : v < 8) :
    (NES.busWrite cio pio s mm 0x4014 v).isSome = true ∧
    ∀ r, NES.busWrite cio pio s mm 0x4014 v = some r →
      r.2 = 513 ∧
      ∀ (input : Nat → Bool) (i : Nat), i < 256 →
        NES.busRead cio pio input s mm (0x100 * v + i) =
          some (r.1.1.ppu.oamData i, s, mm) := by
  have hlt : 0x100 * (v % 256) + 256 ≤ 0x800 := by omega
  constructor
  · unfold NES.busWrite
    simp [hlt]
  · intro r hr
    unfold NES.busWrite at hr
    simp only [if_neg (by omega : ¬ (0x4014 : Nat) < 0x2000),
      if_neg (by omega : ¬ (0x4014 : Nat) < 0x4000),
      if_pos (by omega : (0x4014 : Nat) < 0x4018),
      if_neg (by omega : ¬ ((0x4000 : Nat) ≤ 0x4014 ∧ (0x4014 : Nat) ≤ 0x4013)),
      if_pos (rfl : (0x4014 : Nat) = 0x4014), if_pos hlt, eq_self_iff_true, if_true,
      Option.some.injEq] at hr
    subst hr
    refine ⟨rfl, ?_⟩
    intro input i hi
    unfold NES.busRead
    rw [if_pos (by omega : 0x100 * v + i < 0x2000)]
    unfold NES.SpriteDMA
    simp only [if_pos hi]
    have : (0x100 * v + i) &&& 0x7ff = 0x100 * v + i := by
      rw [show (0x7ff : Nat) = 2 ^ 11 - 1 by norm_num, Nat.and_pow_two_sub_one_eq_mod]
      omega
    rw [this]
    have hv' : v % 256 = v := by omega
    rw [hv']

/-- Witness for C2 at page 2 on the trivial cartridge. -/
theorem claim_C2_witness :
    (2 : Nat) < 8 ∧
    (NES.busWrite NES.trivMapperIO NES.trivPPUIO NES.dmaMem () 0x4014 2).isSome = true :=
  ⟨by decide, (claim_C2 Unit NES.trivMapperIO NES.trivPPUIO NES.dmaMem () 2 (by decide)).1⟩

/-- C3 counterexample: after a 0x4016 write with bit 0 already clear, three
controller reads advance the cursor to 3, and a second bit-0-clear write
(a 0-to-0 sequence, not a 1-to-0 transition) still resets the cursor to 0,
where the claim says it should stay at 3. -/
theorem claim_C3_cex :
    NES.strobeSeq.currentKeyRead = 3 ∧
    (NES.busWriteD NES.strobeSeq 0x4016 0).currentKeyRead = 0 := by
  constructor <;> rfl

/-- C3 (amended: the cursor is reset whenever the written value has bit 0
clear, regardless of the previous write, and is left unchanged whenever bit 0
is set; the Go code keeps no record of the previous strobe value): a 0x4016
write leaves RAM and PPU untouched, costs 0 extra cycles, and sets the
cursor to 0 exactly when val & 1 == 0. -/
theorem claim_C3 (μ : Type) (cio : MapperIO μ) (pio : PPUIO μ) (s : NESMem) (mm : μ)
    (v : Nat) :
    NES.busWrite cio pio s mm 0x4016 v =
      some ((⟨s.ram, (if v &&& 1 = 0 then 0 else s.currentKeyRead), s.ppu⟩, mm), 0) := by
  unfold NES.busWrite
  simp only [if_neg (by omega : ¬ (0x4016 : Nat) < 0x2000),
    if_neg (by omega : ¬ (0x4016 : Nat) < 0x4000),
    if_pos (by omega : (0x4016 : Nat) < 0x4018),
    if_neg (by omega : ¬ ((0x4000 : Nat) ≤ 0x4016 ∧ (0x4016 : Nat) ≤ 0x4013)),
    if_neg (by omega : ¬ (0x4016 : Nat) = 0x4014),
    if_neg (by omega : ¬ (0x4016 : Nat) = 0x4015),
    if_pos (rfl : (0x4016 : Nat) = 0x4016)]
  by_cases hv : v % 2 = 0 <;> simp [hv, Nat.and_one_is_mod]

/-- C5: a PPUDATA write while loopyV points at palette space stores the
value masked to 6 bits at palette index loopyV & 0x1f; when that index has
its low two bits clear the same masked value is also visible at index
XOR 0x10; and the mirroring invariant (every index with low two bits clear
agrees with its XOR-0x10 partner) is preserved by the write. -/
theorem claim_C5 (μ : Type) (io : PPUIO μ) (s : PPUState) (mm : μ) (v : Nat)
    (h : ¬ s.loopyV < 0x3f00) (s' : PPUState) (mm' : μ)
    (hw : NES.WriteRegister io s mm 0x2007 v = some (s', mm')) :
    s'.pal (s.loopyV &&& 0x1f) = v &&& 0x3f ∧
    ((s.loopyV &&& 0x1f) &&& 3 = 0 → s'.pal ((s.loopyV &&& 0x1f) ^^^ 0x10) = v &&& 0x3f) ∧
    ((∀ j, j < 0x20 → j &&& 3 = 0 → s.pal j = s.pal (j ^^^ 0x10)) →
      ∀ j, j < 0x20 → j &&& 3 = 0 → s'.pal j = s'.pal (j ^^^ 0x10)) := by
  have haddr : s.loopyV &&& 0x1f < 0x20 := by
    have := Nat.and_le_right (n := s.loopyV) (m := 0x1f)
    omega
  have hxor_ne : ∀ a : Nat, a < 32 → a ≠ a ^^^ 0x10 := by decide
  have hxor3 : ∀ a : Nat, a < 32 → (a ^^^ 0x10) &&& 3 = a &&& 3 := by decide
  have hxorlt : ∀ a : Nat, a < 32 → a ^^^ 0x10 < 32 := by decide
  have hxorinj : ∀ a : Nat, a < 32 → ∀ b : Nat, b < 32 → (a ^^^ 0x10 = b ^^^ 0x10 ↔ a = b) := by
    decide
  have hxorx : ∀ a : Nat, a < 32 → (a ^^^ 0x10) ^^^ 0x10 = a := by decide
  unfold NES.WriteRegister at hw
  simp only [show (0x2007 : Nat) &&& 0x2007 = 0x2007 from rfl,
    if_neg (by decide : ¬ (0x2007 : Nat) = NES.PPUCTRL),
    if_neg (by decide : ¬ (0x2007 : Nat) = NES.PPUMASK),
    if_neg (by decide : ¬ (0x2007 : Nat) = NES.PPUSTATUS),
    if_neg (by decide : ¬ (0x2007 : Nat) = NES.OAMADDR),
    if_neg (by decide : ¬ (0x2007 : Nat) = NES.OAMDATA),
    if_neg (by decide : ¬ (0x2007 : Nat) = NES.PPUSCROLL),
    if_neg (by decide : ¬ (0x2007 : Nat) = NES.PPUADDR),
    if_pos (rfl : (0x2007 : Nat) = NES.PPUDATA),
    if_neg h, Option.some.injEq, Prod.mk.injEq] at hw
  rcases hw with ⟨rfl, rfl⟩
  have hpal : ∀ p : PPUState, (NES.incVRAMAddress p).pal = p.pal := by
    intro p
    unfold NES.incVRAMAddress
    split <;> rfl
  rw [hpal]
  set addr := s.loopyV &&& 0x1f with haddrdef
  refine ⟨?_, ?_, ?_⟩
  · by_cases h3 : addr &&& 3 = 0 <;>
      simp [h3, hxor_ne addr haddr]
  · intro h3
    simp [h3]
  · intro hinv j hj hj3
    by_cases h3 : addr &&& 3 = 0
    · simp only [if_pos h3]
      by_cases hja : j = addr
      · subst hja
        rw [if_neg (hxor_ne addr haddr), if_pos rfl, if_pos rfl]
      · by_cases hjx : j = addr ^^^ 0x10
        · subst hjx
          rw [if_pos rfl, hxorx addr haddr, if_neg (hxor_ne addr haddr), if_pos rfl]
        · rw [if_neg hjx, if_neg hja,
            if_neg (fun hh => hja ((hxorinj j hj addr haddr).mp hh)),
            if_neg (fun hh => hjx (by rw [← hxorx j hj, hh]))]
          exact hinv j hj hj3
    · simp only [if_neg h3]
      rw [if_neg (fun hh => h3 (by rw [← hh, hj3])),
        if_neg (fun hh => h3 (by rw [← hh, hxor3 j hj]; exact hj3))]
      exact hinv j hj hj3

/-- Witness for C5: writing 0xff at palette index 0x10 stores 0x3f there. -/
theorem claim_C5_witness :
    (¬ NES.ppuPalDemo.loopyV < 0x3f00) ∧
    NES.WriteRegister NES.trivPPUIO NES.ppuPalDemo () 0x2007 0xff =
      some (NES.ppuPalDemoAfter, ()) ∧
    NES.ppuPalDemoAfter.pal (NES.ppuPalDemo.loopyV &&& 0x1f) = 0xff &&& 0x3f :=
  ⟨by decide, rfl,
   (claim_C5 Unit NES.trivPPUIO NES.ppuPalDemo () 0xff (by decide)
      NES.ppuPalDemoAfter () rfl).1⟩

theorem masReadCPU_sram_congr (x y : MapperAddressSpace) (hx : x.cpuSram = y.cpuSram)
    (ad : Nat) (h1 : 0x6000 ≤ ad) (h2 : ad < 0x8000) :
    NES.masReadCPU x ad = NES.masReadCPU y ad := by
  unfold NES.masReadCPU
  rw [if_neg (by omega : ¬ ad < 0x4018), if_neg (by omega : ¬ ad < 0x6000), if_pos h2]
  rw [if_neg (by omega : ¬ ad < 0x4018), if_neg (by omega : ¬ ad < 0x6000), if_pos h2, hx]

theorem setupNametables_sram (mas : MapperAddressSpace) (mir : Nat) (m : MapperAddressSpace)
    (h : NES.setupNametables mas mir = some m) : m.cpuSram = mas.cpuSram := by
  unfold NES.setupNametables at h
  split at h
  · simp only [Option.some.injEq] at h
    rw [← h]
  · split at h
    · simp only [Option.some.injEq] at h
      rw [← h]
    · exact Option.noConfusion h

theorem masReadCPU_zero_sram (mas : MapperAddressSpace) (h0 : mas.cpuSram = fun _ => 0)
    (ad : Nat) (h1 : 0x6000 ≤ ad) (h2 : ad < 0x8000) :
    NES.masReadCPU mas ad = some 0 := by
  unfold NES.masReadCPU
  rw [if_neg (by omega : ¬ ad < 0x4018), if_neg (by omega : ¬ ad < 0x6000), if_pos h2, h0]
  rfl

/-- C10: WriteCPU on mappers 0, 2 and 3 leaves every SRAM read in
0x6000-0x7FFF unchanged (mapper 0 ignores the write, mappers 2 and 3 only
switch banks); the constructors of all three leave SRAM all zero; and
mapper 1 stores the written byte, readable back at the same address, for
every write below 0x8000. -/
theorem claim_C10 :
    (∀ (m : Mapper0State) (a v : Nat) (r : Mapper0State × Nat),
       NES.m0WriteCPU m a v = some r →
       ∀ ad : Nat, 0x6000 ≤ ad → ad < 0x8000 →
         NES.masReadCPU r.1.mas ad = NES.masReadCPU m.mas ad) ∧
    (∀ (m : Mapper2State) (a v : Nat) (r : Mapper2State × Nat),
       NES.m2WriteCPU m a v = some r →
       ∀ ad : Nat, 0x6000 ≤ ad → ad < 0x8000 →
         NES.masReadCPU r.1.mas ad = NES.masReadCPU m.mas ad) ∧
    (∀ (m : Mapper3State) (a v : Nat) (r : Mapper3State × Nat),
       NES.m3WriteCPU m a v = some r →
       ∀ ad : Nat, 0x6000 ≤ ad → ad < 0x8000 →
         NES.masReadCPU r.1.mas ad = NES.masReadCPU m.mas ad) ∧
    (∀ (prgRom chrRom : List (Nat → Nat)) (mir : Nat) (m : Mapper0State),
       NES.NewMapper0 prgRom chrRom mir = some m →
       ∀ ad : Nat, 0x6000 ≤ ad → ad < 0x8000 → NES.masReadCPU m.mas ad = some 0) ∧
    (∀ (prgRom : List (Nat → Nat)) (mir : Nat) (m : Mapper2State),
       NES.NewMapper2 prgRom mir = some m →
       ∀ ad : Nat, 0x6000 ≤ ad → ad < 0x8000 → NES.masReadCPU m.mas ad = some 0) ∧
    (∀ (prgRom chrRom : List (Nat → Nat)) (mir : Nat) (m : Mapper3State),
       NES.NewMapper3 prgRom chrRom mir = some m →
       ∀ ad : Nat, 0x6000 ≤ ad → ad < 0x8000 → NES.masReadCPU m.mas ad = some 0) ∧
    (∀ (m : Mapper1State) (a v : Nat), 0x6000 ≤ a → a < 0x8000 →
       ∀ r : Mapper1State × Nat, NES.m1WriteCPU m a v = some r →
         NES.masReadCPU r.1.mas a = some (v % 256)) := by
  refine ⟨?_, ?_, ?_, ?_, ?_, ?_, ?_⟩
  · intro m a v r h ad h1 h2
    unfold NES.m0WriteCPU at h
    simp only [Option.some.injEq] at h
    rw [← h]
  · intro m a v r h ad h1 h2
    unfold NES.m2WriteCPU at h
    rcases hb : m.prgRom.get? (v % 256) with _ | bank
    · rw [hb] at h
      exact Option.noConfusion h
    · rw [hb] at h
      simp only [Option.some.injEq] at h
      rw [← h]
      refine masReadCPU_sram_congr _ _ ?_ ad h1 h2
      rfl
  · intro m a v r h ad h1 h2
    unfold NES.m3WriteCPU at h
    rcases hb : m.chrRom.get? (v &&& 3) with _ | bank
    · rw [hb] at h
      exact Option.noConfusion h
    · rw [hb] at h
      simp only [Option.some.injEq] at h
      rw [← h]
      refine masReadCPU_sram_congr _ _ ?_ ad h1 h2
      rfl
  · intro prgRom chrRom mir m h ad h1 h2
    unfold NES.NewMapper0 at h
    split at h
    case _ p0 pLast hp0 hpl =>
      dsimp only [] at h
      simp only [Option.map_eq_some'] at h
      obtain ⟨a, ha, hm⟩ := h
      refine masReadCPU_zero_sram m.mas ?_ ad h1 h2
      rw [← hm]
      show a.cpuSram = _
      rw [setupNametables_sram _ _ _ ha]
      split <;> rfl
    case _ => exact Option.noConfusion h
  · intro prgRom mir m h ad h1 h2
    unfold NES.NewMapper2 at h
    split at h
    case _ p0 pLast hp0 hpl =>
      dsimp only [] at h
      simp only [Option.map_eq_some'] at h
      obtain ⟨a, ha, hm⟩ := h
      refine masReadCPU_zero_sram m.mas ?_ ad h1 h2
      rw [← hm]
      show a.cpuSram = _
      rw [setupNametables_sram _ _ _ ha]
      rfl
    case _ => exact Option.noConfusion h
  · intro prgRom chrRom mir m h ad h1 h2
    unfold NES.NewMapper3 at h
    split at h
    case _ p0 pLast c0 hp0 hpl hc0 =>
      dsimp only [] at h
      simp only [Option.map_eq_some'] at h
      obtain ⟨a, ha, hm⟩ := h
      refine masReadCPU_zero_sram m.mas ?_ ad h1 h2
      rw [← hm]
      show a.cpuSram = _
      rw [setupNametables_sram _ _ _ ha]
      rfl
    case _ => exact Option.noConfusion h
  · intro m a v ha1 ha2 r h
    unfold NES.m1WriteCPU at h
    rw [if_pos (by omega : a < 0x8000)] at h
    simp only [Option.some.injEq] at h
    subst h
    unfold NES.masReadCPU
    rw [if_neg (by omega), if_neg (by omega), if_pos ha2]
    simp

/-- Witness for C10 on the concrete demo carts: bank-switch writes on
mappers 0, 2, 3 leave a SRAM read unchanged, the mapper-2 constructor
yields zero SRAM, and a mapper-1 write below 0x8000 reads back. -/
theorem claim_C10_witness :
    (NES.m0WriteCPU NES.m0demo 0x8000 5).map
        (fun r => NES.masReadCPU r.1.mas 0x6123) =
      some (NES.masReadCPU NES.m0demo.mas 0x6123) ∧
    (NES.m2WriteCPU NES.m2demo 0x8000 0).map
        (fun r => NES.masReadCPU r.1.mas 0x6123) =
      some (NES.masReadCPU NES.m2demo.mas 0x6123) ∧
    (NES.m3WriteCPU NES.m3demo 0x8000 0).map
        (fun r => NES.masReadCPU r.1.mas 0x6123) =
      some (NES.masReadCPU NES.m3demo.mas 0x6123) ∧
    (NES.NewMapper2 [NES.prgBankDemo] 0).map
        (fun m => NES.masReadCPU m.mas 0x6123) = some (some 0) ∧
    (NES.m1WriteCPU NES.m1demo 0x6123 0x345).map
        (fun r => NES.masReadCPU r.1.mas 0x6123) = some (some 0x45) := by
  have h0 : NES.m0WriteCPU NES.m0demo 0x8000 5 = some (NES.m0demo, 0) := rfl
  have h2 : NES.m2WriteCPU NES.m2demo 0x8000 0 =
      some (⟨{NES.m2demo.mas with cpuPage0 := NES.prgBankDemo}, [NES.prgBankDemo]⟩, 0) := rfl
  have h3 : NES.m3WriteCPU NES.m3demo 0x8000 0 =
      some (⟨{NES.m3demo.mas with
        ppuPt0 := fun j => NES.chrBankDemo j,
        ppuPt1 := fun j => NES.chrBankDemo (j + 0x1000)}, [NES.chrBankDemo]⟩, 0) := rfl
  have h4 : NES.NewMapper2 [NES.prgBankDemo] 0 =
      some ⟨{NES.zeroMAS with
               cpuPage0 := NES.prgBankDemo,
               cpuPage1 := NES.prgBankDemo,
               ppuNts := fun i => decide (2 ≤ i)},
            [NES.prgBankDemo]⟩ := rfl
  have h5 : NES.m1WriteCPU NES.m1demo 0x6123 0x345 =
      some ({NES.m1demo with mas := {NES.m1demo.mas with
        cpuSram := fun j => if j = (0x6123 &&& 0x1fff) then 0x345 % 256
                            else NES.m1demo.mas.cpuSram j}}, 0) := rfl
  refine ⟨?_, ?_, ?_, ?_, ?_⟩
  · exact congrArg some (claim_C10.1 _ _ _ _ h0 0x6123 (by decide) (by decide))
  · exact congrArg some (claim_C10.2.1 _ _ _ _ h2 0x6123 (by decide) (by decide))
  · exact congrArg some (claim_C10.2.2.1 _ _ _ _ h3 0x6123 (by decide) (by decide))
  · exact congrArg some (claim_C10.2.2.2.2.1 [NES.prgBankDemo] 0 _ h4 0x6123
      (by decide) (by decide))
  · exact congrArg some (claim_C10.2.2.2.2.2.2 NES.m1demo 0x6123 0x345
      (by decide) (by decide) _ h5)

theorem merge_and_high (a b : Nat) :
    ((a &&& 0xfbe0) ||| (b &&& 0x041f)) &&& 0xfbe0 = a &&& 0xfbe0 := by
  apply Nat.eq_of_testBit_eq
  intro i
  simp only [Nat.testBit_and, Nat.testBit_or]
  rcases Nat.lt_or_ge i 16 with hlt | hge
  · have hbit : ∀ j, j < 16 →
        (Nat.testBit 0xfbe0 j && Nat.testBit 0x041f j) = false := by decide
    by_cases hM : Nat.testBit 0xfbe0 i = true
    · have h2 : Nat.testBit 0x041f i = false := by
        have := hbit i hlt
        rw [hM] at this
        simpa using this
      simp [hM, h2]
    · simp only [Bool.not_eq_true] at hM
      simp [hM]
  · have hM : Nat.testBit 0xfbe0 i = false :=
      Nat.testBit_eq_false_of_lt (lt_of_lt_of_le (by norm_num)
        (Nat.pow_le_pow_right (by norm_num) hge))
    simp [hM]

theorem merge_and_low (a b : Nat) :
    ((a &&& 0xfbe0) ||| (b &&& 0x041f)) &&& 0x041f = b &&& 0x041f := by
  apply Nat.eq_of_testBit_eq
  intro i
  simp only [Nat.testBit_and, Nat.testBit_or]
  rcases Nat.lt_or_ge i 16 with hlt | hge
  · have hbit : ∀ j, j < 16 →
        (Nat.testBit 0xfbe0 j && Nat.testBit 0x041f j) = false := by decide
    by_cases hM : Nat.testBit 0x041f i = true
    · have h2 : Nat.testBit 0xfbe0 i = false := by
        have := hbit i hlt
        rw [hM] at this
        simpa using this
      simp [hM, h2]
    · simp only [Bool.not_eq_true] at hM
      simp [hM]
  · have hM : Nat.testBit 0x041f i = false :=
      Nat.testBit_eq_false_of_lt (lt_of_lt_of_le (by norm_num)
        (Nat.pow_le_pow_right (by norm_num) hge))
    simp [hM]

/-- C4: with background or sprite rendering enabled, the very first event a
RenderScanLine call emits is the loopyV assignment, ahead of every nametable
or pattern-table fetch and every pixel; on scanline 0 the assigned value is
all of loopyT, and on every later scanline it keeps bits 0xFBE0 of loopyV
and takes only bits 0x041F from loopyT. -/
theorem claim_C4 (rd : Nat → Nat) (pal64 : Nat → Nat × Nat × Nat) (ppu : PPUState)
    (h : NES.shouldRenderBackground ppu = true ∨ NES.shouldRenderSprites ppu = true) :
    (NES.RenderScanLine rd pal64 ppu).2.head? =
      some (PEvent.assignV (NES.loopyVAtRenderStart ppu)) ∧
    (ppu.scanLineCounter = 0 → NES.loopyVAtRenderStart ppu = ppu.loopyT) ∧
    (¬ ppu.scanLineCounter = 0 →
      NES.loopyVAtRenderStart ppu &&& 0x041f = ppu.loopyT &&& 0x041f ∧
      NES.loopyVAtRenderStart ppu &&& 0xfbe0 = ppu.loopyV &&& 0xfbe0) := by
  refine ⟨?_, ?_, ?_⟩
  · unfold NES.RenderScanLine
    rw [if_neg (by rcases h with h | h <;> simp [h])]
    rfl
  · intro h0
    unfold NES.loopyVAtRenderStart
    rw [if_pos h0]
  · intro h0
    unfold NES.loopyVAtRenderStart
    rw [if_neg h0]
    exact ⟨merge_and_low _ _, merge_and_high _ _⟩

/-- Witness for C4: a scroll-loaded PPU with background rendering on. -/
theorem claim_C4_witness :
    (NES.shouldRenderBackground NES.ppuScroll = true ∨
      NES.shouldRenderSprites NES.ppuScroll = true) ∧
    (NES.RenderScanLine (fun _ => 0) NES.pal64zero NES.ppuScroll).2.head? =
      some (PEvent.assignV (NES.loopyVAtRenderStart NES.ppuScroll)) :=
  ⟨Or.inl rfl, (claim_C4 (fun _ => 0) NES.pal64zero NES.ppuScroll (Or.inl rfl)).1⟩

theorem incVRAMAddress_status (p : PPUState) :
    (NES.incVRAMAddress p).ppuStatus = p.ppuStatus := by
  unfold NES.incVRAMAddress
  split <;> rfl

theorem pixFold_status_ne0 (ppu : PPUState) (bg : Nat → Nat) (i t0 t1 : Nat)
    (hi : i ≠ 0) (xs : List Nat) :
    ∀ acc : (Nat → Nat) × (Nat → Bool) × Nat,
      (xs.foldl (NES.renderSpritePixel ppu bg i t0 t1) acc).2.2 = acc.2.2 := by
  induction xs with
  | nil => intro acc; rfl
  | cons x xs ih =>
    intro acc
    rw [List.foldl_cons, ih]
    unfold NES.renderSpritePixel
    dsimp only []
    split
    · rfl
    · split
      · rfl
      · split
        · rfl
        · rw [if_neg (fun hh => hi hh.1)]

theorem pixFold_status (ppu : PPUState) (bg : Nat → Nat) (t0 t1 : Nat) (xs : List Nat) :
    ∀ acc : (Nat → Nat) × (Nat → Bool) × Nat,
      ((xs.foldl (NES.renderSpritePixel ppu bg 0 t0 t1) acc).2.2).testBit 6 = true →
      (acc.2.2).testBit 6 = true ∨
      ∃ x ∈ xs, NES.spriteXOut ppu 0 x < 255 ∧
        NES.isBG (NES.getPixel t0 t1 x ||| ((NES.spriteAttr ppu 0 &&& 3) <<< 2)) = false ∧
        NES.isBG (bg (NES.spriteXOut ppu 0 x)) = false := by
  induction xs with
  | nil => intro acc h; exact Or.inl h
  | cons x xs ih =>
    intro acc h
    rw [List.foldl_cons] at h
    rcases ih _ h with h1 | ⟨y, hy, hp⟩
    · unfold NES.renderSpritePixel at h1
      dsimp only [] at h1
      split at h1
      · exact Or.inl h1
      · split at h1
        · exact Or.inl h1
        · split at h1
          · exact Or.inl h1
          · dsimp only [] at h1
            split at h1
            case isTrue hg =>
              exact Or.inr ⟨x, List.mem_cons_self x xs, hg.2.1, hg.2.2.1, hg.2.2.2⟩
            case isFalse => exact Or.inl h1
    · exact Or.inr ⟨y, List.mem_cons_of_mem _ hy, hp⟩

theorem spriteStep_status_ne0 (rd : Nat → Nat) (ppu : PPUState) (bg : Nat → Nat)
    (acc : (Nat → Nat) × (Nat → Bool) × Nat × List PEvent) (i : Nat) (hi : i ≠ 0) :
    (NES.renderSpriteStep rd ppu bg acc i).2.2.1 = acc.2.2.1 := by
  unfold NES.renderSpriteStep
  split
  · rfl
  · split
    · rfl
    · dsimp only []
      rw [pixFold_status_ne0 ppu bg i _ _ hi]

theorem spriteFold_status_ne0 (rd : Nat → Nat) (ppu : PPUState) (bg : Nat → Nat)
    (xs : List Nat) (hxs : ∀ i ∈ xs, i ≠ 0) :
    ∀ acc, ((xs.foldl (NES.renderSpriteStep rd ppu bg) acc).2.2.1) = acc.2.2.1 := by
  induction xs with
  | nil => intro acc; rfl
  | cons x xs ih =>
    intro acc
    rw [List.foldl_cons, ih (fun j hj => hxs j (List.mem_cons_of_mem _ hj)),
      spriteStep_status_ne0 rd ppu bg acc x (hxs x (List.mem_cons_self x xs))]

theorem spriteStep0_status (rd : Nat → Nat) (ppu : PPUState) (bg : Nat → Nat)
    (acc : (Nat → Nat) × (Nat → Bool) × Nat × List PEvent)
    (h : ((NES.renderSpriteStep rd ppu bg acc 0).2.2.1).testBit 6 = true) :
    acc.2.2.1.testBit 6 = true ∨ NES.sprite0HitCondition rd ppu bg := by
  unfold NES.renderSpriteStep at h
  split at h
  · exact Or.inl h
  · split at h
    · exact Or.inl h
    · dsimp only [] at h
      rcases pixFold_status ppu bg _ _ _ _ h with h1 | ⟨x, hx, h255, hval, hbg⟩
      · exact Or.inl h1
      · refine Or.inr ⟨x, List.mem_range.mp hx, ?_, h255, hval, hbg⟩
        unfold NES.spriteOnScanline
        simp only [Bool.and_eq_true, decide_eq_true_eq]
        omega

theorem renderSprites_status (rd : Nat → Nat) (ppu : PPUState) (bg : Nat → Nat)
    (h : ((NES.renderSprites rd ppu bg).1.ppuStatus).testBit 6 = true) :
    ppu.ppuStatus.testBit 6 = true ∨ NES.sprite0HitCondition rd ppu bg := by
  unfold NES.renderSprites at h
  dsimp only [] at h
  rw [show (64 : Nat) = 63 + 1 from rfl, List.range_succ_eq_map, List.foldl_cons,
    spriteFold_status_ne0 rd ppu bg _
      (by intro i hi
          rcases List.mem_map.mp hi with ⟨j, _, hj⟩
          omega)] at h
  exact spriteStep0_status rd ppu bg _ h

theorem bgStep_shape (rd : Nat → Nat) (pt : Nat)
    (acc : PPUState × (Nat → Nat) × List PEvent) (i : Nat) :
    ∃ xv : Nat × Nat, (NES.renderBackgroundStep rd pt acc i).1 =
      {acc.1 with loopyX := xv.1, loopyV := xv.2} := by
  unfold NES.renderBackgroundStep
  dsimp only []
  split_ifs with h1 h2
  · exact ⟨(acc.1.loopyX + 1, acc.1.loopyV), rfl⟩
  · exact ⟨(0, (acc.1.loopyV &&& 0xffe0) ^^^ 0x0400), rfl⟩
  · exact ⟨(0, (acc.1.loopyV + 1) % 65536), rfl⟩

theorem bgFold_shape (rd : Nat → Nat) (pt : Nat) (xs : List Nat) :
    ∀ acc : PPUState × (Nat → Nat) × List PEvent,
      ∃ xv : Nat × Nat, (xs.foldl (NES.renderBackgroundStep rd pt) acc).1 =
        {acc.1 with loopyX := xv.1, loopyV := xv.2} := by
  induction xs with
  | nil => exact fun acc => ⟨(acc.1.loopyX, acc.1.loopyV), rfl⟩
  | cons x xs ih =>
    intro acc
    rw [List.foldl_cons]
    obtain ⟨xv, hxv⟩ := ih (NES.renderBackgroundStep rd pt acc x)
    obtain ⟨yv, hyv⟩ := bgStep_shape rd pt acc x
    rw [hyv] at hxv
    exact ⟨xv, hxv⟩

theorem bgIncrementFineY_shape (p : PPUState) :
    ∃ v : Nat, NES.bgIncrementFineY p = {p with loopyV := v} := by
  unfold NES.bgIncrementFineY
  dsimp only []
  split_ifs <;> exact ⟨_, rfl⟩

theorem renderBackground_shape (rd : Nat → Nat) (p : PPUState) :
    ∃ xv : Nat × Nat, (NES.renderBackground rd p).1 =
      {p with loopyX := xv.1, loopyV := xv.2} := by
  unfold NES.renderBackground
  dsimp only []
  obtain ⟨xv, hxv⟩ := bgFold_shape rd
    (if p.ppuCtrl &&& 0x10 = 0x10 then 0x1000 else 0x0000) (List.range DisplayWidth)
    (p, fun _ => 0, [])
  rw [hxv]
  obtain ⟨v, hv⟩ := bgIncrementFineY_shape {p with loopyX := xv.1, loopyV := xv.2}
  rw [hv]
  exact ⟨(xv.1, v), rfl⟩

theorem ReadRegister_status (μ : Type) (io : PPUIO μ) (p : PPUState) (mm : μ)
    (a : Nat) (r : Nat × PPUState) (h : NES.ReadRegister io p mm a = some r)
    (h6 : r.2.ppuStatus.testBit 6 = true) : p.ppuStatus.testBit 6 = true := by
  have h127 : Nat.testBit 0x7f 6 = true := by decide
  unfold NES.ReadRegister at h
  dsimp only [] at h
  split_ifs at h <;>
    first
    | exact Option.noConfusion h
    | (simp only [Option.some.injEq] at h
       rw [← h] at h6
       dsimp only [] at h6
       first
       | exact h6
       | (rw [Nat.testBit_and, h127, Bool.and_true] at h6
          exact h6)
       | (rw [incVRAMAddress_status] at h6
          exact h6))

theorem WriteRegister_status (μ : Type) (io : PPUIO μ) (p : PPUState) (mm : μ)
    (a v : Nat) (p' : PPUState) (mm' : μ)
    (h : NES.WriteRegister io p mm a v = some (p', mm')) :
    p'.ppuStatus = p.ppuStatus := by
  unfold NES.WriteRegister at h
  dsimp only [] at h
  by_cases c1 : a &&& 0x2007 = NES.PPUCTRL
  · rw [if_pos c1] at h
    simp only [Option.some.injEq, Prod.mk.injEq] at h
    rw [← h.1]
  · rw [if_neg c1] at h
    by_cases c2 : a &&& 0x2007 = NES.PPUMASK
    · rw [if_pos c2] at h
      simp only [Option.some.injEq, Prod.mk.injEq] at h
      rw [← h.1]
    · rw [if_neg c2] at h
      by_cases c3 : a &&& 0x2007 = NES.PPUSTATUS
      · rw [if_pos c3] at h
        simp only [Option.some.injEq, Prod.mk.injEq] at h
        rw [← h.1]
      · rw [if_neg c3] at h
        by_cases c4 : a &&& 0x2007 = NES.OAMADDR
        · rw [if_pos c4] at h
          simp only [Option.some.injEq, Prod.mk.injEq] at h
          rw [← h.1]
        · rw [if_neg c4] at h
          by_cases c5 : a &&& 0x2007 = NES.OAMDATA
          · rw [if_pos c5] at h
            simp only [Option.some.injEq, Prod.mk.injEq] at h
            rw [← h.1]
          · rw [if_neg c5] at h
            by_cases c6 : a &&& 0x2007 = NES.PPUSCROLL
            · rw [if_pos c6] at h
              by_cases cl : p.addressLatch = 0
              · rw [if_pos cl] at h
                simp only [Option.some.injEq, Prod.mk.injEq] at h
                rw [← h.1]
              · rw [if_neg cl] at h
                simp only [Option.some.injEq, Prod.mk.injEq] at h
                rw [← h.1]
            · rw [if_neg c6] at h
              by_cases c7 : a &&& 0x2007 = NES.PPUADDR
              · rw [if_pos c7] at h
                by_cases cl : p.addressLatch = 0
                · rw [if_pos cl] at h
                  simp only [Option.some.injEq, Prod.mk.injEq] at h
                  rw [← h.1]
                · rw [if_neg cl] at h
                  simp only [Option.some.injEq, Prod.mk.injEq] at h
                  rw [← h.1]
              · rw [if_neg c7] at h
                by_cases c8 : a &&& 0x2007 = NES.PPUDATA
                · rw [if_pos c8] at h
                  by_cases cv : p.loopyV < 0x3f00
                  · rw [if_pos cv] at h
                    simp only [Option.some.injEq, Prod.mk.injEq] at h
                    rw [← h.1, incVRAMAddress_status]
                  · rw [if_neg cv] at h
                    simp only [Option.some.injEq, Prod.mk.injEq] at h
                    rw [← h.1, incVRAMAddress_status]
                · rw [if_neg c8] at h
                  exact Option.noConfusion h

/-- C8: no PPU operation sets the sprite-0 hit bit (PPUSTATUS bit 6) unless
it was already set, except RenderScanLine in a state where sprite rendering
is on and OAM entry 0 yields a non-background pixel over a non-background
background pixel at an output column below 255. -/
theorem claim_C8 (μ : Type) (io : PPUIO μ) (pal64 : Nat → Nat × Nat × Nat)
    (op : PPUOp) (s : PPUState) (mm : μ) (s' : PPUState) (mm' : μ)
    (h : NES.applyPPU io pal64 op s mm = some (s', mm'))
    (h6 : s'.ppuStatus.testBit 6 = true) :
    s.ppuStatus.testBit 6 = true ∨
    (op = PPUOp.renderScanLine ∧
      NES.shouldRenderSprites s = true ∧
      NES.sprite0HitCondition (fun x => io.readPPU mm x)
        {s with loopyV := NES.loopyVAtRenderStart s}
        (NES.bgRowOf (fun x => io.readPPU mm x) s)) := by
  cases op with
  | readReg a =>
    dsimp only [NES.applyPPU] at h
    simp only [Option.map_eq_some'] at h
    obtain ⟨r, hr, hEq⟩ := h
    simp only [Prod.mk.injEq] at hEq
    rw [← hEq.1] at h6
    exact Or.inl (ReadRegister_status μ io s mm a r hr h6)
  | writeReg a v =>
    dsimp only [NES.applyPPU] at h
    rw [← WriteRegister_status μ io s mm a v s' mm' h]
    exact Or.inl h6
  | spriteDMA src =>
    dsimp only [NES.applyPPU] at h
    simp only [Option.some.injEq, Prod.mk.injEq] at h
    rw [← h.1] at h6
    exact Or.inl h6
  | enterVBlank =>
    dsimp only [NES.applyPPU] at h
    simp only [Option.some.injEq, Prod.mk.injEq] at h
    rw [← h.1] at h6
    have h6' : (s.ppuStatus ||| 0x80).testBit 6 = true := h6
    rw [Nat.testBit_or, show Nat.testBit 0x80 6 = false from by decide,
      Bool.or_false] at h6'
    exact Or.inl h6'
  | exitVBlank =>
    dsimp only [NES.applyPPU] at h
    simp only [Option.some.injEq, Prod.mk.injEq] at h
    rw [← h.1] at h6
    have h6' : (s.ppuStatus &&& 0x3f).testBit 6 = true := h6
    rw [Nat.testBit_and, show Nat.testBit 0x3f 6 = false from by decide,
      Bool.and_false] at h6'
    exact Bool.noConfusion h6'
  | renderScanLine =>
    dsimp only [NES.applyPPU] at h
    simp only [Option.some.injEq, Prod.mk.injEq] at h
    rw [← h.1] at h6
    unfold NES.RenderScanLine at h6
    by_cases hq : NES.shouldRenderBackground s = false ∧ NES.shouldRenderSprites s = false
    · rw [if_pos hq] at h6
      exact Or.inl h6
    · rw [if_neg hq] at h6
      dsimp only [] at h6
      by_cases hbg :
          NES.shouldRenderBackground {s with loopyV := NES.loopyVAtRenderStart s} = true
      · rw [if_pos hbg] at h6
        obtain ⟨xv, hsh⟩ :=
          renderBackground_shape (fun x => io.readPPU mm x)
            {s with loopyV := NES.loopyVAtRenderStart s}
        rw [hsh] at h6
        have hbgrow : NES.bgRowOf (fun x => io.readPPU mm x) s =
            (NES.renderBackground (fun x => io.readPPU mm x)
              {s with loopyV := NES.loopyVAtRenderStart s}).2.1 := by
          unfold NES.bgRowOf
          rw [if_pos hbg]
        split at h6
        next hsp =>
          rcases renderSprites_status (fun x => io.readPPU mm x) _ _ h6 with hl | hr
          · exact Or.inl hl
          · refine Or.inr ⟨rfl, hsp, ?_⟩
            rw [hbgrow]
            exact hr
        next hsp => exact Or.inl h6
      · rw [if_neg hbg] at h6
        dsimp only [] at h6
        have hbgrow : NES.bgRowOf (fun x => io.readPPU mm x) s = fun _ => 0 := by
          unfold NES.bgRowOf
          rw [if_neg hbg]
        split at h6
        next hsp =>
          rcases renderSprites_status (fun x => io.readPPU mm x) _ _ h6 with hl | hr
          · exact Or.inl hl
          · refine Or.inr ⟨rfl, hsp, ?_⟩
            rw [hbgrow]
            exact hr
        next hsp => exact Or.inl h6

/-- Witness for C8: the concrete hit scenario sets bit 6 during a
RenderScanLine. -/
theorem claim_C8_witness :
    NES.applyPPU NES.onesPPUIO NES.pal64zero PPUOp.renderScanLine NES.ppuHit () =
      some (NES.ppuHitAfter, ()) ∧
    NES.ppuHitAfter.ppuStatus.testBit 6 = true ∧
    (NES.ppuHit.ppuStatus.testBit 6 = true ∨
      (PPUOp.renderScanLine = PPUOp.renderScanLine ∧
        NES.shouldRenderSprites NES.ppuHit = true ∧
        NES.sprite0HitCondition (fun x => NES.onesPPUIO.readPPU () x)
          {NES.ppuHit with loopyV := NES.loopyVAtRenderStart NES.ppuHit}
          (NES.bgRowOf (fun x => NES.onesPPUIO.readPPU () x) NES.ppuHit))) :=
  ⟨rfl, by rfl,
   claim_C8 Unit NES.onesPPUIO NES.pal64zero PPUOp.renderScanLine NES.ppuHit ()
     NES.ppuHitAfter () rfl (by rfl)⟩

end NES
